import Mathlib

/-! comm_scope: transfer-measurement benchmarks.

A shallow embedding of the three benchmark bodies

* `Comm_Duplex_Memcpy_GPUGPU`            (src/memcpy-duplex/gpu_gpu.cpp)
* `Comm_NUMAMemcpy_PinnedToGPU`          (src/numa-memcpy/pinned_to_gpu.cpp)
* `Comm_3d_cudaMemcpy2DAsync_NUMAToGPU`  (src/3d/cudaMemcpy2DAsync/numa_to_gpu.cpp)

The benchmark bodies are sequential programs over two pieces of state: the
device runtime (`World`) and the benchmark runtime's per-run record (`State`).
Every call into the device runtime is answered by an environment `env`: the
answer to the call issued as the `k`-th call of the run is `env k call`.  The
bodies are written in continuation-passing style, so that `return` (do not
call the continuation) and `break` (call the code after the loop) read as in
the source.

Times are rationals (milliseconds for device elapsed times, seconds for
iteration times).  Arithmetic the source does in `float` is rounded to
binary32 after each operation, and a conversion to `double` is rounded to
binary64; infinities and NaN are not modelled.  `size_t` is a natural number
below `2 ^ 64` and `int64_t` an integer in `[-2 ^ 63, 2 ^ 63)`.
-/

namespace CommScope

/-! ## Machine integers -/

/-- Wrap a natural number into `size_t` / `unsigned long long` (64 bits). -/
def size_t (n : Nat) : Nat := n % 2 ^ 64

/-- Wrap an integer into `int64_t` (two's complement, 64 bits). -/
def int64_t (z : Int) : Int := (z + 2 ^ 63) % 2 ^ 64 - 2 ^ 63

/-- The product of two `int64_t` values, in `int64_t`. -/
def mul64 (a b : Int) : Int := int64_t (a * b)

/-- The shift `a << e` on `unsigned long long`; defined by the language for `e < 64`. -/
def shl_ull (a e : Nat) : Nat := size_t (a * 2 ^ e)

/-! ## Floating point -/

/-- The integer nearest to `q`, the even one of the two when `q` is halfway. -/
def roundHalfEven (q : ℚ) : Int :=
  if q - ⌊q⌋ < 1 / 2 then ⌊q⌋
  else if 1 / 2 < q - ⌊q⌋ then ⌊q⌋ + 1
  else if ⌊q⌋ % 2 = 0 then ⌊q⌋ else ⌊q⌋ + 1

/-- Round `q` to the binary floating-point format with `p` significant bits and
least normal exponent `emin`, to nearest, ties to even: the unit in the last
place is `2 ^ (e - (p - 1))` for `2 ^ e ≤ |q| < 2 ^ (e + 1)`, and
`2 ^ (emin - (p - 1))` below the normal range.  A magnitude beyond the largest
finite value of the format, which the format turns into an infinity, is rounded
as if the exponent range had no upper end. -/
def roundBinary (p : Nat) (emin : Int) (q : ℚ) : ℚ :=
  if q = 0 then 0 else
    roundHalfEven (q / 2 ^ (max (Int.log 2 |q|) emin - (p - 1)))
      * 2 ^ (max (Int.log 2 |q|) emin - (p - 1))

/-- Conversion to `float` (binary32). -/
def float (q : ℚ) : ℚ := roundBinary 24 (-126) q

/-- Conversion to `double` (binary64). -/
def double (q : ℚ) : ℚ := roundBinary 53 (-1022) q

/-- The sum `a + b` of two `float` values, in `float`. -/
def addf (a b : ℚ) : ℚ := float (a + b)

/-- The quotient `a / b` of two `float` values, in `float`. -/
def divf (a b : ℚ) : ℚ := float (a / b)

/-! ## The device runtime -/

/-- Status codes of the device runtime, as far as the benchmarks tell them apart. -/
inductive cudaError
  | cudaSuccess
  | cudaErrorPeerAccessAlreadyEnabled
  | cudaErrorUnknown
  deriving DecidableEq, Repr

/-- Direction tag of a copy. -/
inductive cudaMemcpyKind
  | cudaMemcpyHostToDevice
  | cudaMemcpyDeviceToDevice
  | cudaMemcpyDefault
  deriving DecidableEq, Repr

/-- A 3D extent in bytes x rows x planes. -/
structure cudaExtent where
  width : Nat
  height : Nat
  depth : Nat
  deriving DecidableEq, Repr

/-- A pitched pointer: base address, row pitch in bytes, logical row width and height. -/
structure cudaPitchedPtr where
  ptr : Nat
  pitch : Nat
  xsize : Nat
  ysize : Nat
  deriving DecidableEq, Repr

/-- A position inside a 3D region. -/
structure cudaPos where
  x : Nat
  y : Nat
  z : Nat
  deriving DecidableEq, Repr

/-- Build a position, as `make_cudaPos`. -/
def make_cudaPos (x y z : Nat) : cudaPos := ⟨x, y, z⟩

/-- The descriptor of a 3D copy. -/
structure cudaMemcpy3DParms where
  dstArray : Nat
  srcArray : Nat
  dstPos : cudaPos
  srcPos : cudaPos
  dstPtr : cudaPitchedPtr
  srcPtr : cudaPitchedPtr
  extent : cudaExtent
  kind : cudaMemcpyKind
  deriving DecidableEq, Repr

/-- The calls into the device runtime made by the benchmarks, with their arguments.
Handles (streams, events) and addresses are natural numbers. -/
inductive Call
  | cuda_reset_device (dev : Int)
  | cudaStreamCreate
  | cudaEventCreate
  | cudaSetDevice (dev : Int)
  | cudaMalloc (bytes : Nat)
  | cudaMalloc3D (extent : cudaExtent)
  | cudaMemset (ptr : Nat) (value : Nat) (bytes : Nat)
  | cudaMemset3D (p : cudaPitchedPtr) (value : Nat) (extent : cudaExtent)
  | cudaDeviceEnablePeerAccess (peer : Int)
  | cudaHostRegister (ptr : Nat) (bytes : Nat)
  | cudaHostUnregister (ptr : Nat)
  | cudaEventRecord (event : Nat) (stream : Nat)
  | cudaMemcpyAsync (dst src : Nat) (bytes : Nat) (kind : cudaMemcpyKind) (stream : Nat)
  | cudaMemcpy (dst src : Nat) (bytes : Nat) (kind : cudaMemcpyKind)
  | cudaMemcpy3DAsync (params : cudaMemcpy3DParms) (stream : Nat)
  | cudaEventSynchronize (event : Nat)
  | cudaEventElapsedTime (start stop : Nat)
  | cudaEventDestroy (event : Nat)
  | cudaStreamDestroy (stream : Nat)
  | cudaFree (ptr : Nat)
  deriving DecidableEq, Repr

/-- What the device runtime answers to one call: the status code, the device
time stamp at which a recorded marker is reached (read for `cudaEventRecord`)
and the row pitch chosen by a pitched allocation (read for `cudaMalloc3D`). -/
structure Reply where
  err : cudaError
  stamp : ℚ
  pitch : Nat

/-- The environment: the answer to the `k`-th call of a run. -/
abbrev Env := Nat → Call → Reply

/-- A resource held by a run. -/
inductive Resource
  | deviceMem (ptr : Nat) (device : Int) (bytes : Nat)
  | hostMem (ptr : Nat) (bytes : Nat)
  | hostRegistration (ptr : Nat)
  | stream (handle : Nat)
  | event (handle : Nat)
  deriving DecidableEq, Repr

/-- The state of the device runtime and of the host process around it. -/
structure World where
  /-- answers of the device runtime -/
  env : Env
  /-- calls issued so far with their status, newest first -/
  log : List (Call × cudaError)
  /-- current device -/
  device : Int
  /-- next unused handle / address -/
  fresh : Nat
  /-- resources acquired and not yet released, newest first -/
  held : List Resource
  /-- every resource acquired so far, released or not, newest first -/
  acquired : List Resource
  /-- device time stamp of each recorded marker, in milliseconds -/
  stamps : Nat → ℚ
  /-- NUMA node the process is bound to; `-1` is "any node" -/
  numa : Int

/-- A call into the device runtime: status, result and new world. -/
abbrev API (α : Type) := World → cudaError × α × World

/-- Issue a call: ask the environment and log the call with its status. -/
def World.call (c : Call) (w : World) : Reply × World :=
  (w.env w.log.length c, { w with log := (c, (w.env w.log.length c).err) :: w.log })

/-- Acquire a resource. -/
def World.acquire (r : Resource) (w : World) : World :=
  { w with held := r :: w.held, acquired := r :: w.acquired }

/-- Release every held resource satisfying `p`. -/
def World.release (p : Resource → Bool) (w : World) : World :=
  { w with held := w.held.filter fun r => !p r }

/-- Model of `utils::cuda_reset_device`, which the source files call and do not
define: a call into the device runtime that acquires and records nothing. -/
def cuda_reset_device (dev : Int) : API Unit := fun w =>
  ((w.call (.cuda_reset_device dev)).1.err, (), (w.call (.cuda_reset_device dev)).2)

/-- Model of `cudaStreamCreate`: on success a new stream is live. -/
def cudaStreamCreate : API Nat := fun w =>
  let p := w.call .cudaStreamCreate
  (p.1.err, p.2.fresh,
    if p.1.err = .cudaSuccess then
      { p.2 with fresh := p.2.fresh + 1 }.acquire (.stream p.2.fresh)
    else { p.2 with fresh := p.2.fresh + 1 })

/-- Model of `cudaEventCreate`: on success a new event is live. -/
def cudaEventCreate : API Nat := fun w =>
  let p := w.call .cudaEventCreate
  (p.1.err, p.2.fresh,
    if p.1.err = .cudaSuccess then
      { p.2 with fresh := p.2.fresh + 1 }.acquire (.event p.2.fresh)
    else { p.2 with fresh := p.2.fresh + 1 })

/-- Model of `cudaSetDevice`: on success the current device changes. -/
def cudaSetDevice (dev : Int) : API Unit := fun w =>
  let p := w.call (.cudaSetDevice dev)
  (p.1.err, (), if p.1.err = .cudaSuccess then { p.2 with device := dev } else p.2)

/-- Model of `cudaMalloc`: on success a new allocation on the current device. -/
def cudaMalloc (bytes : Nat) : API Nat := fun w =>
  let p := w.call (.cudaMalloc bytes)
  (p.1.err, p.2.fresh,
    if p.1.err = .cudaSuccess then
      { p.2 with fresh := p.2.fresh + 1 }.acquire (.deviceMem p.2.fresh p.2.device bytes)
    else { p.2 with fresh := p.2.fresh + 1 })

/-- Model of `cudaMalloc3D`: on success a new pitched allocation on the current
device, with the pitch chosen by the device runtime. -/
def cudaMalloc3D (extent : cudaExtent) : API cudaPitchedPtr := fun w =>
  let p := w.call (.cudaMalloc3D extent)
  (p.1.err, ⟨p.2.fresh, p.1.pitch, extent.width, extent.height⟩,
    if p.1.err = .cudaSuccess then
      { p.2 with fresh := p.2.fresh + 1 }.acquire
        (.deviceMem p.2.fresh p.2.device (p.1.pitch * extent.height * extent.depth))
    else { p.2 with fresh := p.2.fresh + 1 })

/-- Model of `cudaMemset`. -/
def cudaMemset (ptr value bytes : Nat) : API Unit := fun w =>
  ((w.call (.cudaMemset ptr value bytes)).1.err, (), (w.call (.cudaMemset ptr value bytes)).2)

/-- Model of `cudaMemset3D`. -/
def cudaMemset3D (p : cudaPitchedPtr) (value : Nat) (extent : cudaExtent) : API Unit := fun w =>
  ((w.call (.cudaMemset3D p value extent)).1.err, (), (w.call (.cudaMemset3D p value extent)).2)

/-- Model of `cudaDeviceEnablePeerAccess`. -/
def cudaDeviceEnablePeerAccess (peer : Int) : API Unit := fun w =>
  ((w.call (.cudaDeviceEnablePeerAccess peer)).1.err, (),
    (w.call (.cudaDeviceEnablePeerAccess peer)).2)

/-- Model of `cudaHostRegister`: on success the host range is page-locked. -/
def cudaHostRegister (ptr bytes : Nat) : API Unit := fun w =>
  let p := w.call (.cudaHostRegister ptr bytes)
  (p.1.err, (),
    if p.1.err = .cudaSuccess then p.2.acquire (.hostRegistration ptr) else p.2)

/-- Model of `cudaHostUnregister`: on success the registration is gone. -/
def cudaHostUnregister (ptr : Nat) : API Unit := fun w =>
  let p := w.call (.cudaHostUnregister ptr)
  (p.1.err, (),
    if p.1.err = .cudaSuccess then p.2.release (fun r => r = .hostRegistration ptr) else p.2)

/-- Model of `cudaEventRecord`: on success the marker gets the time stamp at
which the stream reaches it. -/
def cudaEventRecord (event stream : Nat) : API Unit := fun w =>
  let p := w.call (.cudaEventRecord event stream)
  (p.1.err, (),
    if p.1.err = .cudaSuccess then
      { p.2 with stamps := fun e => if e = event then p.1.stamp else p.2.stamps e }
    else p.2)

/-- Model of `cudaMemcpyAsync`. -/
def cudaMemcpyAsync (dst src bytes : Nat) (kind : cudaMemcpyKind) (stream : Nat) : API Unit :=
  fun w =>
  ((w.call (.cudaMemcpyAsync dst src bytes kind stream)).1.err, (),
    (w.call (.cudaMemcpyAsync dst src bytes kind stream)).2)

/-- Model of `cudaMemcpy`. -/
def cudaMemcpy (dst src bytes : Nat) (kind : cudaMemcpyKind) : API Unit := fun w =>
  ((w.call (.cudaMemcpy dst src bytes kind)).1.err, (),
    (w.call (.cudaMemcpy dst src bytes kind)).2)

/-- Model of `cudaMemcpy3DAsync`. -/
def cudaMemcpy3DAsync (params : cudaMemcpy3DParms) (stream : Nat) : API Unit := fun w =>
  ((w.call (.cudaMemcpy3DAsync params stream)).1.err, (),
    (w.call (.cudaMemcpy3DAsync params stream)).2)

/-- Model of `cudaEventSynchronize`. -/
def cudaEventSynchronize (event : Nat) : API Unit := fun w =>
  ((w.call (.cudaEventSynchronize event)).1.err, (), (w.call (.cudaEventSynchronize event)).2)

/-- Elapsed device time from marker `a` to marker `b`, in milliseconds. -/
def World.elapsed (w : World) (a b : Nat) : ℚ := w.stamps b - w.stamps a

/-- Model of `cudaEventElapsedTime`: the result is `time(stop) - time(start)`. -/
def cudaEventElapsedTime (start stop : Nat) : API ℚ := fun w =>
  ((w.call (.cudaEventElapsedTime start stop)).1.err, w.elapsed start stop,
    (w.call (.cudaEventElapsedTime start stop)).2)

/-- Model of `cudaEventDestroy`: on success the event is gone. -/
def cudaEventDestroy (event : Nat) : API Unit := fun w =>
  let p := w.call (.cudaEventDestroy event)
  (p.1.err, (), if p.1.err = .cudaSuccess then p.2.release (fun r => r = .event event) else p.2)

/-- Model of `cudaStreamDestroy`: on success the stream is gone. -/
def cudaStreamDestroy (stream : Nat) : API Unit := fun w =>
  let p := w.call (.cudaStreamDestroy stream)
  (p.1.err, (),
    if p.1.err = .cudaSuccess then p.2.release (fun r => r = .stream stream) else p.2)

/-- Tell whether a resource is the device allocation at `ptr`. -/
def Resource.isDeviceMemAt (ptr : Nat) : Resource → Bool
  | .deviceMem q _ _ => q = ptr
  | _ => false

/-- Tell whether a resource is the host buffer at `ptr`. -/
def Resource.isHostMemAt (ptr : Nat) : Resource → Bool
  | .hostMem q _ => q = ptr
  | _ => false

/-- Model of `cudaFree`: on success the allocation is gone. -/
def cudaFree (ptr : Nat) : API Unit := fun w =>
  let p := w.call (.cudaFree ptr)
  (p.1.err, (), if p.1.err = .cudaSuccess then p.2.release (Resource.isDeviceMemAt ptr) else p.2)

/-! ## Host side -/

/-- Host allocation (`new char[bytes]`, `aligned_alloc`): a new host buffer. -/
def World.hostAlloc (bytes : Nat) (w : World) : Nat × World :=
  (w.fresh, { w with fresh := w.fresh + 1 }.acquire (.hostMem w.fresh bytes))

/-- Host deallocation (`delete[]`, `free`). -/
def World.hostFree (ptr : Nat) (w : World) : World :=
  w.release (Resource.isHostMemAt ptr)

/-- Modelled from the spec: the helpers `numa_bind_node` / `numa::bind_node`,
which the source files call and do not define.  They bind the allocation
policy to a NUMA node, `-1` being the neutral "any node" policy (section 4.1). -/
def World.numa_bind_node (node : Int) (w : World) : World :=
  { w with numa := node }

/-! ## The benchmark runtime -/

/-- What the benchmark runtime and the command-line flags hand to a run.
`range i` is `state.range(i)`; `max_iterations` is the number of times the
runtime executes the body of `for (auto _ : state)`, which is also what
`state.iterations()` returns once that loop has been left. -/
structure Args where
  has_cuda : Bool
  has_numa : Bool
  num_gpus : Nat
  cuda_device_ids : List Int
  numa_ids : List Int
  range : Nat → Nat
  max_iterations : Nat

/-- The part of `benchmark::State` written by a run. -/
structure State where
  /-- message of the first `SkipWithError`, if any -/
  error_message : Option String
  /-- arguments of `SetIterationTime`, oldest first, in seconds -/
  iteration_times : List ℚ
  /-- argument of the last `SetBytesProcessed` -/
  bytes_processed : Option Int
  /-- the `counters` map, newest entry first -/
  counters : List (String × ℚ)

/-- Everything a run reads and writes. -/
structure Sys where
  world : World
  state : State
  /-- an `assert` failed -/
  aborted : Bool

/-- The world before a run: nothing issued, nothing held, bound to any NUMA node.
Handle `0` is the null stream. -/
def World.init (env : Env) : World :=
  { env := env, log := [], device := 0, fresh := 1, held := [], acquired := [],
    stamps := fun _ => 0, numa := -1 }

/-- The state of a run before its body starts. -/
def Sys.init (env : Env) : Sys :=
  { world := World.init env,
    state := { error_message := none, iteration_times := [], bytes_processed := none,
               counters := [] },
    aborted := false }

/-- Model of `state.SkipWithError(msg)`: the run is marked as skipped; the first message is kept. -/
def SkipWithError (msg : String) (s : Sys) : Sys :=
  { s with state := { s.state with
      error_message := match s.state.error_message with
        | none => some msg
        | some m => some m } }

/-- Model of `state.SetIterationTime(seconds)`. -/
def SetIterationTime (seconds : ℚ) (s : Sys) : Sys :=
  { s with state := { s.state with iteration_times := s.state.iteration_times ++ [seconds] } }

/-- Model of `state.SetBytesProcessed(bytes)`. -/
def SetBytesProcessed (bytes : Int) (s : Sys) : Sys :=
  { s with state := { s.state with bytes_processed := some bytes } }

/-- Model of `state.PauseTiming()`: no effect on a manually timed run. -/
def PauseTiming (s : Sys) : Sys := s

/-- Model of `state.counters[name] = value`; `value` is a `double`. -/
def setCounter (name : String) (value : ℚ) (s : Sys) : Sys :=
  { s with state := { s.state with counters := (name, value) :: s.state.counters } }

/-- Model of `state.iterations()` after the measurement loop. -/
def iterations (args : Args) : Nat := args.max_iterations

/-- A failed `assert`. -/
def assertFailed (s : Sys) : Sys := { s with aborted := true }

/-- Modelled from the spec: the macro `PRINT_IF_ERROR`, which the three source
files use and do not define.  Every failing call is converted to a skip
(section 7), so the macro is taken to print and to yield the status it was
given. -/
def PRINT_IF_ERROR (e : cudaError) : cudaError := e

/-! ## Control flow -/

/-- Run a host-side statement, then continue. -/
def exec (f : Sys → Sys) (k : Sys → Sys) : Sys → Sys := fun s => k (f s)

/-- Run a host-side statement on the world, then continue. -/
def execW (f : World → World) (k : Sys → Sys) : Sys → Sys :=
  fun s => k { s with world := f s.world }

/-- Issue a device-runtime call and continue with its status and result. -/
def call {α : Type} (stmt : API α) (k : cudaError → α → Sys → Sys) : Sys → Sys := fun s =>
  k (stmt s.world).1 (stmt s.world).2.1 { s with world := (stmt s.world).2.2 }

/-- Allocate a host buffer and continue with its address. -/
def hostAlloc (bytes : Nat) (k : Nat → Sys → Sys) : Sys → Sys := fun s =>
  k (s.world.hostAlloc bytes).1 { s with world := (s.world.hostAlloc bytes).2 }

/-- The macro `OR_SKIP(stmt, msg)` of gpu_gpu.cpp:
`if (PRINT_IF_ERROR(stmt)) { state.SkipWithError(msg); return; }`.
numa_to_gpu.cpp uses a macro of this name without defining it; it is taken to
be this one. -/
def OR_SKIP {α : Type} (stmt : API α) (msg : String) (k : α → Sys → Sys) : Sys → Sys :=
  call stmt fun err a =>
    if PRINT_IF_ERROR err ≠ .cudaSuccess then SkipWithError msg else k a

/-- Modelled from the spec: the macro `OR_SKIP_AND_BREAK(stmt, msg)`, which
numa_to_gpu.cpp uses and does not define.  On a per-iteration failure the loop
stops early and reports the error (section 4.5): as `OR_SKIP`, leaving the loop
instead of the function; `after` is the code behind the loop. -/
def OR_SKIP_AND_BREAK {α : Type} (stmt : API α) (msg : String) (after : Sys → Sys)
    (k : α → Sys → Sys) : Sys → Sys :=
  call stmt fun err a =>
    if PRINT_IF_ERROR err ≠ .cudaSuccess then exec (SkipWithError msg) after else k a

/-- Modelled from the spec: the macro `defer(stmt)`, which pinned_to_gpu.cpp
uses and does not define.  It is a deferred cleanup (section 9): `stmt` runs
when the enclosing scope is left, on every path. -/
def defer (stmt : Sys → Sys) (rest : Sys → Sys) : Sys → Sys := fun s => stmt (rest s)

/-- A loop over a collection with loop-carried variables `acc`; `cont` is "go to
the next element", `after` the code behind the loop. -/
def forEach {α β : Type} :
    List α → (α → β → (β → Sys → Sys) → Sys → Sys) → (β → Sys → Sys) → β → Sys → Sys
  | [], _, after, acc => after acc
  | x :: xs, body, after, acc => body x acc (forEach xs body after)

/-- The body of `for (auto _ : state)` run `n` times; `next` is "go to the
next iteration", `after` the code behind the loop. -/
def forState (body : (Sys → Sys) → Sys → Sys) (after : Sys → Sys) : Nat → Sys → Sys
  | 0 => after
  | n + 1 => body (forState body after n)

/-- Model of `for (auto _ : state)`: the runtime runs the body `max_iterations`
times, and not at all when the run was already skipped. -/
def forStateLoop (args : Args) (body : (Sys → Sys) → Sys → Sys) (after : Sys → Sys) :
    Sys → Sys := fun s =>
  forState body after (if s.state.error_message.isSome then 0 else args.max_iterations) s

/-! ## src/memcpy-duplex/gpu_gpu.cpp -/

namespace Duplex

/-- The macro `NAME` of gpu_gpu.cpp. -/
def NAME : String := "Comm/Duplex/Memcpy/GPUGPU"

/-- One iteration of the measurement loop of `Comm_Duplex_Memcpy_GPUGPU`
(the body of `for (auto _ : state)`). -/
def iteration (streams starts stops srcs dsts : List Nat) (bytes : Nat)
    (next : Sys → Sys) : Sys → Sys :=
  -- Start all copies
  forEach (List.range streams.length) (fun i (_ : Unit) cont =>
    let start := starts.getD i 0
    let stop := stops.getD i 0
    let stream := streams.getD i 0
    let src := srcs.getD i 0
    let dst := dsts.getD i 0
    OR_SKIP (cudaEventRecord start stream) (NAME ++ " failed to record start event") fun _ =>
    OR_SKIP (cudaMemcpyAsync dst src bytes .cudaMemcpyDeviceToDevice stream)
      (NAME ++ " failed to start cudaMemcpyAsync") fun _ =>
    OR_SKIP (cudaEventRecord stop stream) (NAME ++ " failed to record stop event") fun _ =>
    cont ())
  (fun _ =>
  -- Wait for all copies to finish
  forEach stops (fun s (_ : Unit) cont =>
    OR_SKIP (cudaEventSynchronize s) (NAME ++ " failed to synchronize") fun _ =>
    cont ())
  (fun _ =>
  -- Find the longest time between any start and stop
  forEach starts (fun start (maxMillis : ℚ) cont =>
    forEach stops (fun stop (maxMillis : ℚ) cont =>
      OR_SKIP (cudaEventElapsedTime start stop) (NAME ++ " failed to compute elapsed tiume")
        fun millis =>
      cont (max millis maxMillis))
    cont maxMillis)
  (fun maxMillis =>
  exec (SetIterationTime (divf maxMillis 1000)) next) 0) ()) ()

/-- The code of `Comm_Duplex_Memcpy_GPUGPU` behind the measurement loop. -/
def afterLoop (args : Args) (gpu0 gpu1 : Int) (streams starts stops srcs dsts : List Nat)
    (bytes : Nat) : Sys → Sys :=
  exec (SetBytesProcessed
    (mul64 (mul64 (int64_t (iterations args)) (int64_t bytes)) 2)) <|
  exec (setCounter "bytes" (double bytes)) <|
  exec (setCounter "gpu0" gpu0) <|
  exec (setCounter "gpu1" gpu1) <|
  -- float stopSum = 0; float startSum = 0;
  forEach streams (fun _stream (sums : ℚ × ℚ) cont =>
    OR_SKIP (cudaEventElapsedTime (starts.getD 0 0) (starts.getD 1 0))
      (NAME ++ " failed to compare start times") fun startTime1 =>
    OR_SKIP (cudaEventElapsedTime (starts.getD 1 0) (starts.getD 0 0))
      (NAME ++ " failed to compare start times") fun startTime2 =>
    OR_SKIP (cudaEventElapsedTime (stops.getD 0 0) (stops.getD 1 0))
      (NAME ++ " failed to compare stop times") fun stopTime1 =>
    OR_SKIP (cudaEventElapsedTime (stops.getD 1 0) (stops.getD 0 0))
      (NAME ++ " failed to compare stop times") fun stopTime2 =>
    cont (addf sums.1 (max stopTime1 stopTime2), addf sums.2 (max startTime1 startTime2)))
  (fun sums =>
  exec (setCounter "avg_start_spread" (divf sums.2 (float (iterations args)))) <|
  exec (setCounter "avg_stop_spread" (divf sums.1 (float (iterations args)))) <|
  forEach srcs (fun src (_ : Unit) cont => call (cudaFree src) fun _ _ => cont ())
  (fun _ =>
  forEach dsts (fun dst (_ : Unit) cont => call (cudaFree dst) fun _ _ => cont ())
  (fun _ => id) ()) ()) (0, 0)

/-- The benchmark body `Comm_Duplex_Memcpy_GPUGPU`. -/
def Comm_Duplex_Memcpy_GPUGPU (args : Args) : Sys → Sys :=
  if !args.has_cuda then SkipWithError (NAME ++ " no CUDA device found") else
  if args.num_gpus < 2 then SkipWithError (NAME ++ " requires at least 2 GPUs") else
  -- assert(FLAG(cuda_device_ids).size() >= 2)
  match args.cuda_device_ids with
  | gpu0 :: gpu1 :: _ =>
    if gpu0 = gpu1 then SkipWithError (NAME ++ " requires two different GPUs") else
    let bytes := shl_ull 1 (size_t (args.range 0))
    OR_SKIP (cuda_reset_device gpu0) (NAME ++ " failed to reset CUDA device") fun _ =>
    OR_SKIP (cuda_reset_device gpu1) (NAME ++ " failed to reset CUDA device") fun _ =>
    -- Create One stream per copy
    OR_SKIP cudaStreamCreate (NAME ++ "failed to create stream") fun stream1 =>
    OR_SKIP cudaStreamCreate (NAME ++ "failed to create stream") fun stream2 =>
    let streams := [stream1, stream2]
    -- Start and stop events for each copy
    OR_SKIP cudaEventCreate (NAME ++ " failed to create event") fun start1 =>
    OR_SKIP cudaEventCreate (NAME ++ " failed to create event") fun start2 =>
    OR_SKIP cudaEventCreate (NAME ++ " failed to create event") fun stop1 =>
    OR_SKIP cudaEventCreate (NAME ++ " failed to create event") fun stop2 =>
    let starts := [start1, start2]
    let stops := [stop1, stop2]
    -- allocate on gpu0 and enable peer access
    OR_SKIP (cudaSetDevice gpu0) (NAME ++ "failed to set device") fun _ =>
    OR_SKIP (cudaMalloc bytes) (NAME ++ " failed to perform cudaMalloc") fun ptr =>
    let srcs := [ptr]
    OR_SKIP (cudaMemset ptr 0 bytes) (NAME ++ " failed to perform src cudaMemset") fun _ =>
    call (cudaDeviceEnablePeerAccess gpu1) fun err _ =>
    if .cudaSuccess ≠ err ∧ .cudaErrorPeerAccessAlreadyEnabled ≠ err then
      SkipWithError (NAME ++ " failed to ensure peer access") else
    -- allocate on gpu1 and enable peer access
    OR_SKIP (cudaSetDevice gpu1) (NAME ++ "failed to set device") fun _ =>
    OR_SKIP (cudaMalloc bytes) (NAME ++ " failed to perform cudaMalloc") fun ptr =>
    OR_SKIP (cudaMemset ptr 0 bytes) (NAME ++ " failed to perform src cudaMemset") fun _ =>
    let dsts := [ptr]
    call (cudaDeviceEnablePeerAccess gpu0) fun err _ =>
    if .cudaSuccess ≠ err ∧ .cudaErrorPeerAccessAlreadyEnabled ≠ err then
      SkipWithError (NAME ++ " failed to ensure peer access") else
    -- create a source and destination for second copy
    OR_SKIP (cudaSetDevice gpu1) (NAME ++ " failed to set device") fun _ =>
    OR_SKIP (cudaMalloc bytes) (NAME ++ " failed to perform cudaMalloc") fun ptr =>
    OR_SKIP (cudaMemset ptr 0 bytes) (NAME ++ " failed to perform src cudaMemset") fun _ =>
    let srcs := srcs ++ [ptr]
    OR_SKIP (cudaSetDevice gpu1) (NAME ++ " failed to set device") fun _ =>
    OR_SKIP (cudaMalloc bytes) (NAME ++ " failed to perform cudaMalloc") fun ptr =>
    OR_SKIP (cudaMemset ptr 0 bytes) (NAME ++ " failed to perform src cudaMemset") fun _ =>
    let dsts := dsts ++ [ptr]
    forStateLoop args (iteration streams starts stops srcs dsts bytes)
      (afterLoop args gpu0 gpu1 streams starts stops srcs dsts bytes)
  | _ => assertFailed

end Duplex

/-! ## src/numa-memcpy/pinned_to_gpu.cpp -/

namespace Pinned

/-- The macro `NAME` of pinned_to_gpu.cpp. -/
def NAME : String := "Comm/NUMAMemcpy/PinnedToGPU"

/-- The message of the skip for a failed host registration. -/
def registerMessage : String := NAME ++ " failed to register allocation"

/-- The messages of the skips of `Comm_NUMAMemcpy_PinnedToGPU` that return
between the NUMA bind and the measurement loop. -/
def setupMessages : List String :=
  [NAME ++ " failed to reset CUDA device", NAME ++ " failed to register allocation",
   NAME ++ " failed to set CUDA device", NAME ++ " failed to perform cudaMalloc",
   NAME ++ " failed to perform cudaMemset"]

/-- The code of `Comm_NUMAMemcpy_PinnedToGPU` behind the measurement loop,
up to the end of the function body. -/
def afterLoop (args : Args) (bytes : Nat) : Sys → Sys :=
  exec (SetBytesProcessed (mul64 (int64_t (iterations args)) (int64_t bytes))) <|
  exec (setCounter "bytes" (double bytes)) <|
  -- reset to run on any node
  execW (World.numa_bind_node (-1)) id

/-- One iteration of the measurement loop of `Comm_NUMAMemcpy_PinnedToGPU`;
`after` is the code behind the loop, reached by `break`. -/
def iteration (start stop src dst bytes : Nat) (after : Sys → Sys) (next : Sys → Sys) :
    Sys → Sys :=
  call (cudaEventRecord start 0) fun _ _ =>
  call (cudaMemcpy dst src bytes .cudaMemcpyHostToDevice) fun cuda_err _ =>
  call (cudaEventRecord stop 0) fun _ _ =>
  call (cudaEventSynchronize stop) fun _ _ =>
  exec PauseTiming <|
  if PRINT_IF_ERROR cuda_err ≠ .cudaSuccess then
    exec (SkipWithError (NAME ++ " failed to perform memcpy")) after else
  -- float msecTotal = 0.0f;
  call (cudaEventElapsedTime start stop) fun err msecTotal =>
  if PRINT_IF_ERROR err ≠ .cudaSuccess then
    exec (SkipWithError (NAME ++ " failed to get elapsed time")) after else
  exec (SetIterationTime (divf msecTotal 1000)) next

/-- The benchmark body `Comm_NUMAMemcpy_PinnedToGPU`.  The flag vectors are
read at index 0 without a check, as in the source. -/
def Comm_NUMAMemcpy_PinnedToGPU (args : Args) : Sys → Sys :=
  if !args.has_cuda then SkipWithError (NAME ++ " no CUDA device found") else
  if !args.has_numa then SkipWithError (NAME ++ " NUMA not available") else
  let numa_id := args.numa_ids.getD 0 0
  let cuda_id := args.cuda_device_ids.getD 0 0
  let bytes := shl_ull 1 (size_t (args.range 0))
  execW (World.numa_bind_node numa_id) <|
  OR_SKIP (cuda_reset_device cuda_id) (NAME ++ " failed to reset CUDA device") fun _ =>
  -- char *src = new char[bytes]; char *dst = nullptr;
  hostAlloc bytes fun src =>
  OR_SKIP (cudaHostRegister src bytes) (NAME ++ " failed to register allocation") fun _ =>
  defer (call (cudaHostUnregister src) fun _ _ => id) <|
  defer (execW (World.hostFree src) id) <|
  OR_SKIP (cudaSetDevice cuda_id) (NAME ++ " failed to set CUDA device") fun _ =>
  OR_SKIP (cudaMalloc bytes) (NAME ++ " failed to perform cudaMalloc") fun dst =>
  defer (call (cudaFree dst) fun _ _ => id) <|
  OR_SKIP (cudaMemset dst 0 bytes) (NAME ++ " failed to perform cudaMemset") fun _ =>
  call cudaEventCreate fun _ start =>
  call cudaEventCreate fun _ stop =>
  forStateLoop args (iteration start stop src dst bytes (afterLoop args bytes))
    (afterLoop args bytes)

end Pinned

/-! ## src/3d/cudaMemcpy2DAsync/numa_to_gpu.cpp -/

namespace ThreeD

/-- The macro `NAME` of numa_to_gpu.cpp. -/
def NAME : String := "Comm_3d_cudaMemcpy2DAsync_NUMAToGPU"

/-- The messages of the skips of `Comm_3d_cudaMemcpy2DAsync_NUMAToGPU` that
return between the creation of the stream and the measurement loop. -/
def setupMessages : List String :=
  [NAME ++ " failed to create event", NAME ++ "failed to set device",
   "failed to perform cudaMalloc3D", "failed to perform dst cudaMemset", "cudaHostRegister()"]

/-- The code of `Comm_3d_cudaMemcpy2DAsync_NUMAToGPU` behind the measurement loop. -/
def afterLoop (args : Args) (numaId cudaId : Int) (stream start stop : Nat)
    (src dst : cudaPitchedPtr) (copyBytes : Nat) : Sys → Sys :=
  exec (SetBytesProcessed (mul64 (int64_t (iterations args)) (int64_t copyBytes))) <|
  exec (setCounter "bytes" (double copyBytes)) <|
  exec (setCounter "numaId" numaId) <|
  exec (setCounter "cudaId" cudaId) <|
  OR_SKIP (cudaHostUnregister src.ptr) "cudaHostUnregister" fun _ =>
  execW (World.hostFree src.ptr) <|
  OR_SKIP (cudaEventDestroy start) "cudaEventDestroy" fun _ =>
  OR_SKIP (cudaEventDestroy stop) "cudaEventDestroy" fun _ =>
  OR_SKIP (cudaStreamDestroy stream) "cudaStreamDestroy" fun _ =>
  OR_SKIP (cudaFree dst.ptr) (NAME ++ "failed to cudaFree") fun _ =>
  id

/-- One iteration of the measurement loop of `Comm_3d_cudaMemcpy2DAsync_NUMAToGPU`;
`after` is the code behind the loop, reached by `break`. -/
def iteration (params : cudaMemcpy3DParms) (stream start stop : Nat) (after : Sys → Sys)
    (next : Sys → Sys) : Sys → Sys :=
  -- Start copy
  OR_SKIP_AND_BREAK (cudaEventRecord start stream) (NAME ++ " failed to record start event")
    after fun _ =>
  OR_SKIP_AND_BREAK (cudaMemcpy3DAsync params stream)
    (NAME ++ " failed to start cudaMemcpy3DAsync") after fun _ =>
  OR_SKIP_AND_BREAK (cudaEventRecord stop stream) (NAME ++ " failed to record stop event")
    after fun _ =>
  -- Wait for all copies to finish
  OR_SKIP_AND_BREAK (cudaEventSynchronize stop) (NAME ++ " failed to synchronize") after fun _ =>
  -- Get the transfer time
  OR_SKIP_AND_BREAK (cudaEventElapsedTime start stop) (NAME ++ " failed to compute elapsed tiume")
    after fun millis =>
  exec (SetIterationTime (divf millis 1000)) next

/-- The benchmark body `Comm_3d_cudaMemcpy2DAsync_NUMAToGPU`. -/
def Comm_3d_cudaMemcpy2DAsync_NUMAToGPU (args : Args) (numaId cudaId : Int) : Sys → Sys :=
  -- bind to CPU & reset device
  execW (World.numa_bind_node numaId) <|
  OR_SKIP (cuda_reset_device cudaId) "failed to reset GPU" fun _ =>
  -- stream for async copy
  OR_SKIP cudaStreamCreate (NAME ++ "failed to create stream") fun stream =>
  -- Start and stop event for copy
  OR_SKIP cudaEventCreate (NAME ++ " failed to create event") fun start =>
  OR_SKIP cudaEventCreate (NAME ++ " failed to create event") fun stop =>
  -- target size to transfer
  let copyExt : cudaExtent :=
    { width := size_t (args.range 0), height := size_t (args.range 1),
      depth := size_t (args.range 2) }
  let copyBytes := size_t (size_t (copyExt.width * copyExt.height) * copyExt.depth)
  -- properties of the allocation
  let allocExt : cudaExtent := { width := 512, height := 512, depth := 512 }
  -- allocate on cudaId. cudaMalloc3D may adjust the extent to align
  OR_SKIP (cudaSetDevice cudaId) (NAME ++ "failed to set device") fun _ =>
  OR_SKIP (cudaMalloc3D allocExt) "failed to perform cudaMalloc3D" fun dst =>
  let allocExt := { allocExt with width := dst.pitch }
  let allocBytes := size_t (size_t (allocExt.width * allocExt.height) * allocExt.depth)
  OR_SKIP (cudaMemset3D dst 0 allocExt) "failed to perform dst cudaMemset" fun _ =>
  -- allocate on CPU.
  hostAlloc allocBytes fun srcPtr =>
  let src : cudaPitchedPtr :=
    { ptr := srcPtr, pitch := dst.pitch, xsize := dst.xsize, ysize := dst.ysize }
  OR_SKIP (cudaHostRegister src.ptr allocBytes) "cudaHostRegister()" fun _ =>
  let params : cudaMemcpy3DParms :=
    { dstArray := 0, srcArray := 0,
      dstPos := make_cudaPos 0 0 0, srcPos := make_cudaPos 0 0 0,
      dstPtr := dst, srcPtr := src, extent := copyExt, kind := .cudaMemcpyDefault }
  forStateLoop args
    (iteration params stream start stop
      (afterLoop args numaId cudaId stream start stop src dst copyBytes))
    (afterLoop args numaId cudaId stream start stop src dst copyBytes)

end ThreeD

/-! ## Resources a run may hold -/

/-- The resource is one of `rs`, a device allocation at one of the addresses
`ptrs`, or a host buffer at one of the addresses `hostPtrs`. -/
def Owned (rs : List Resource) (ptrs hostPtrs : List Nat) (r : Resource) : Prop :=
  r ∈ rs ∨ (∃ p ∈ ptrs, r.isDeviceMemAt p = true) ∨ (∃ p ∈ hostPtrs, r.isHostMemAt p = true)

/-- The resource is a stream or a device allocation at one of the addresses `ptrs`. -/
def StreamOr (ptrs : List Nat) (r : Resource) : Prop :=
  (∃ h, r = .stream h) ∨ Owned [] ptrs [] r

/-- The device runtime answers every release call (`cudaFree`,
`cudaHostUnregister`) with success. -/
def ReleasesSucceed (env : Env) : Prop :=
  ∀ k ptr, (env k (.cudaFree ptr)).err = .cudaSuccess
    ∧ (env k (.cudaHostUnregister ptr)).err = .cudaSuccess

/-- The device runtime answers every teardown call (`cudaHostUnregister`,
`cudaEventDestroy`, `cudaStreamDestroy`, `cudaFree`) with success. -/
def TeardownSucceeds (env : Env) : Prop :=
  ReleasesSucceed env ∧ ∀ k h, (env k (.cudaEventDestroy h)).err = .cudaSuccess
    ∧ (env k (.cudaStreamDestroy h)).err = .cudaSuccess

/-! ## Calls issued between two states -/

/-- The calls issued on the way from `s` to `s1`, newest first, with their status. -/
def newCalls (s s1 : Sys) : List (Call × cudaError) :=
  s1.world.log.take (s1.world.log.length - s.world.log.length)

/-- Tell whether a call is the blocking copy or an elapsed-time query. -/
def Call.isCopyOrElapsed : Call → Bool
  | .cudaMemcpy _ _ _ _ => true
  | .cudaEventElapsedTime _ _ => true
  | _ => false

/-! ## Sample inputs -/

/-- An environment in which every call succeeds; the `k`-th call is answered
at device time `k` ms, and pitched allocations use a pitch of 512 bytes. -/
def okEnv : Env := fun k _ => { err := .cudaSuccess, stamp := k, pitch := 512 }

/-- As `okEnv`, with pitched allocations padded to a pitch of 1024 bytes. -/
def pitchEnv : Env := fun k _ => { err := .cudaSuccess, stamp := k, pitch := 1024 }

/-- An environment in which every `cudaEventRecord` returns an error and every
other call succeeds. -/
def recordFailEnv : Env := fun k c =>
  match c with
  | .cudaEventRecord _ _ => { err := .cudaErrorUnknown, stamp := k, pitch := 512 }
  | _ => { err := .cudaSuccess, stamp := k, pitch := 512 }

/-- An environment in which every copy returns an error and every other call
succeeds. -/
def copyFailEnv : Env := fun k c =>
  match c with
  | .cudaMemcpy _ _ _ _ => { err := .cudaErrorUnknown, stamp := k, pitch := 512 }
  | .cudaMemcpyAsync _ _ _ _ _ => { err := .cudaErrorUnknown, stamp := k, pitch := 512 }
  | .cudaMemcpy3DAsync _ _ => { err := .cudaErrorUnknown, stamp := k, pitch := 512 }
  | _ => { err := .cudaSuccess, stamp := k, pitch := 512 }

/-- Two devices `0` and `1`, one NUMA node, size exponent 20, one iteration. -/
def sampleArgs : Args :=
  { has_cuda := true, has_numa := true, num_gpus := 2, cuda_device_ids := [0, 1],
    numa_ids := [0], range := fun _ => 20, max_iterations := 1 }

/-- As `sampleArgs`, with two iterations. -/
def twoIterationArgs : Args :=
  { has_cuda := true, has_numa := true, num_gpus := 2, cuda_device_ids := [0, 1],
    numa_ids := [0], range := fun _ => 20, max_iterations := 2 }

/-- A copy descriptor between two pitched pointers of pitch 512. -/
def sampleParams : cudaMemcpy3DParms :=
  { dstArray := 0, srcArray := 0, dstPos := make_cudaPos 0 0 0, srcPos := make_cudaPos 0 0 0,
    dstPtr := ⟨4, 512, 512, 512⟩, srcPtr := ⟨5, 512, 512, 512⟩, extent := ⟨20, 20, 20⟩,
    kind := .cudaMemcpyDefault }

/-- The same device configured twice. -/
def sameGpuArgs : Args :=
  { has_cuda := true, has_numa := true, num_gpus := 2, cuda_device_ids := [3, 3],
    numa_ids := [0], range := fun _ => 20, max_iterations := 1 }

/-! ## Predicates used in the statements -/

/-- The run is not reported as finished without a skip, or it reports `X` bytes. -/
structure ReportsBytes (X : Int) (f : Sys) : Prop where
  ok : f.state.error_message = none → f.state.bytes_processed = some X

/-- The benchmark record reports `X` bytes. -/
def BytesAre (X : Int) (st : State) : Prop := st.bytes_processed = some X

/-- Markers recorded into one stream are reached in the order they were
issued: a later `cudaEventRecord` on a stream gets a time stamp no earlier
than an earlier one on the same stream. -/
def StreamOrdered (env : Env) : Prop :=
  ∀ (k k' event event' stream : Nat), k ≤ k' →
    (env k (.cudaEventRecord event stream)).stamp
      ≤ (env k' (.cudaEventRecord event' stream)).stamp

/-- Every recorded `avg_start_spread` / `avg_stop_spread` counter is nonnegative. -/
structure SpreadCountersNonneg (st : State) : Prop where
  ok : ∀ v, (("avg_start_spread", v) ∈ st.counters ∨ ("avg_stop_spread", v) ∈ st.counters) →
    0 ≤ v

/-- The run's record has only nonnegative spread counters. -/
structure SpreadOK (f : Sys) : Prop where
  ok : SpreadCountersNonneg f.state

/-- Every 3D copy issued so far carries pitch `p` on both endpoints, every
host buffer acquired so far has `p * 512 * 512` bytes, and the device runtime
answers pitched allocations with pitch `p`. -/
structure PitchInv (p : Nat) (w : World) : Prop where
  copies : ∀ params stream err, (Call.cudaMemcpy3DAsync params stream, err) ∈ w.log →
    params.srcPtr.pitch = p ∧ params.dstPtr.pitch = p
  hostBufs : ∀ ptr bytes, Resource.hostMem ptr bytes ∈ w.acquired → bytes = p * 512 * 512
  envPitch : ∀ k ext, (w.env k (.cudaMalloc3D ext)).pitch = p

/-- The world of the run satisfies `PitchInv p`. -/
structure PitchOK (p : Nat) (s : Sys) : Prop where
  ok : PitchInv p s.world

/-- The process is bound to NUMA node `node`. -/
structure BoundTo (node : Int) (s : Sys) : Prop where
  ok : s.world.numa = node

/-- The run was skipped during the setup of `Comm_NUMAMemcpy_PinnedToGPU`, or
the process is bound to "any node". -/
structure NumaReset (f : Sys) : Prop where
  ok : (∃ msg ∈ Pinned.setupMessages, f.state.error_message = some msg) ∨ f.world.numa = -1

/-- Every resource held in `w` satisfies `A`. -/
structure HeldIn (A : Resource → Prop) (w : World) : Prop where
  ok : ∀ r ∈ w.held, A r

/-- The run was skipped, or it holds no resource. -/
structure ReleasedAll (f : Sys) : Prop where
  ok : f.state.error_message = none → f.world.held = []

/-- Every resource held is an event or satisfies `A`, and the device runtime
answers every release call (`cudaFree`, `cudaHostUnregister`) with success. -/
structure Holds (A : Resource → Prop) (s : Sys) : Prop where
  held : ∀ r ∈ s.world.held, A r ∨ ∃ h, r = .event h
  env : ReleasesSucceed s.world.env

/-- The run was skipped for a failed host registration, or it holds only events. -/
structure EventsOnly (f : Sys) : Prop where
  ok : f.state.error_message = some Pinned.registerMessage
    ∨ ∀ r ∈ f.world.held, ∃ h, r = .event h

/-- The run was skipped, or it holds only streams and events. -/
structure HandlesOnly (f : Sys) : Prop where
  ok : f.state.error_message = none →
    ∀ r ∈ f.world.held, (∃ h, r = .stream h) ∨ ∃ h, r = .event h

/-- Tell whether a call is an asynchronous linear copy. -/
def Call.isAsyncCopy : Call → Bool
  | .cudaMemcpyAsync _ _ _ _ _ => true
  | _ => false

/-- Every resource held was acquired. -/
structure HeldAcquired (w : World) : Prop where
  ok : ∀ r ∈ w.held, r ∈ w.acquired

/-- The code `f` keeps `HeldAcquired`. -/
structure Keeps (f : Sys → Sys) : Prop where
  ok : ∀ s, HeldAcquired s.world → HeldAcquired (f s).world

/-- Every resource held satisfies `A`, and the device runtime answers every
teardown call with success. -/
structure Tidy (A : Resource → Prop) (s : Sys) : Prop where
  held : ∀ r ∈ s.world.held, A r
  env : TeardownSucceeds s.world.env

/-- The run holds no resource. -/
structure HoldsNothing (f : Sys) : Prop where
  ok : f.world.held = []

/-- The run was skipped by a setup failure behind the creation of its stream,
or it holds no resource. -/
structure Released (f : Sys) : Prop where
  ok : (∀ msg ∈ ThreeD.setupMessages, f.state.error_message ≠ some msg) → f.world.held = []

/-! ## Unfolding lemmas for the control-flow combinators -/

theorem exec_apply (f k : Sys → Sys) (s : Sys) : exec f k s = k (f s) := rfl

theorem execW_apply (f : World → World) (k : Sys → Sys) (s : Sys) :
    execW f k s = k { s with world := f s.world } := rfl

theorem call_apply {α : Type} (stmt : API α) (k : cudaError → α → Sys → Sys) (s : Sys) :
    call stmt k s = k (stmt s.world).1 (stmt s.world).2.1 { s with world := (stmt s.world).2.2 } :=
  rfl

theorem hostAlloc_apply (bytes : Nat) (k : Nat → Sys → Sys) (s : Sys) :
    hostAlloc bytes k s
      = k (s.world.hostAlloc bytes).1 { s with world := (s.world.hostAlloc bytes).2 } := rfl

theorem OR_SKIP_apply {α : Type} (stmt : API α) (msg : String) (k : α → Sys → Sys) (s : Sys) :
    OR_SKIP stmt msg k s
      = if (stmt s.world).1 ≠ .cudaSuccess
        then SkipWithError msg { s with world := (stmt s.world).2.2 }
        else k (stmt s.world).2.1 { s with world := (stmt s.world).2.2 } := by
  unfold OR_SKIP
  rw [call_apply]
  by_cases h : (stmt s.world).1 = .cudaSuccess <;> simp [PRINT_IF_ERROR, h]

theorem OR_SKIP_AND_BREAK_apply {α : Type} (stmt : API α) (msg : String) (after : Sys → Sys)
    (k : α → Sys → Sys) (s : Sys) :
    OR_SKIP_AND_BREAK stmt msg after k s
      = if (stmt s.world).1 ≠ .cudaSuccess
        then after (SkipWithError msg { s with world := (stmt s.world).2.2 })
        else k (stmt s.world).2.1 { s with world := (stmt s.world).2.2 } := by
  unfold OR_SKIP_AND_BREAK
  rw [call_apply]
  by_cases h : (stmt s.world).1 = .cudaSuccess <;> simp [PRINT_IF_ERROR, h, exec_apply]

theorem defer_apply (stmt rest : Sys → Sys) (s : Sys) : defer stmt rest s = stmt (rest s) := rfl

theorem forEach_nil {α β : Type} (body : α → β → (β → Sys → Sys) → Sys → Sys)
    (after : β → Sys → Sys) (acc : β) : forEach [] body after acc = after acc := rfl

theorem forEach_cons {α β : Type} (x : α) (xs : List α)
    (body : α → β → (β → Sys → Sys) → Sys → Sys) (after : β → Sys → Sys) (acc : β) :
    forEach (x :: xs) body after acc = body x acc (forEach xs body after) := rfl

theorem forStateLoop_apply (args : Args) (body : (Sys → Sys) → Sys → Sys) (after : Sys → Sys)
    (s : Sys) :
    forStateLoop args body after s
      = forState body after (if s.state.error_message.isSome then 0 else args.max_iterations) s :=
  rfl

theorem forState_zero (body : (Sys → Sys) → Sys → Sys) (after : Sys → Sys) :
    forState body after 0 = after := rfl

theorem forState_succ (body : (Sys → Sys) → Sys → Sys) (after : Sys → Sys) (n : Nat) :
    forState body after (n + 1) = body (forState body after n) := rfl

/-! ## C6: fewer than two distinct device ids -/

/-- A list with fewer than two distinct members has equal first two members. -/
theorem eq_of_dedup_length_lt_two (a b : Int) (t : List Int)
    (h : (a :: b :: t).dedup.length < 2) : a = b := by
  by_contra hne
  have hnd : [a, b].Nodup := by simp [hne]
  have hsub : [a, b] ⊆ (a :: b :: t).dedup := by
    intro x hx
    rw [List.mem_dedup]
    simp only [List.mem_cons, List.mem_singleton, List.not_mem_nil, or_false] at hx ⊢
    rcases hx with rfl | rfl <;> simp
  have := (List.subperm_of_subset hnd hsub).length_le
  simp at this
  omega

/-- C6: when the configured device-id list has fewer than two distinct ids
(and the source's assertion `num_gpus() >= 2 → cuda_device_ids.size() >= 2`
holds), a run of `Comm_Duplex_Memcpy_GPUGPU` ends skipped with an error, having
issued no device-runtime call (no reset, no stream or event creation, no
allocation) and acquired no resource. -/
theorem duplex_skips_without_two_distinct_gpus (env : Env) (args : Args)
    (hids : args.cuda_device_ids.dedup.length < 2)
    (hassert : 2 ≤ args.num_gpus → 2 ≤ args.cuda_device_ids.length) :
    (Duplex.Comm_Duplex_Memcpy_GPUGPU args (Sys.init env)).state.error_message.isSome = true
    ∧ (Duplex.Comm_Duplex_Memcpy_GPUGPU args (Sys.init env)).aborted = false
    ∧ (Duplex.Comm_Duplex_Memcpy_GPUGPU args (Sys.init env)).world.log = []
    ∧ (Duplex.Comm_Duplex_Memcpy_GPUGPU args (Sys.init env)).world.acquired = []
    ∧ (Duplex.Comm_Duplex_Memcpy_GPUGPU args (Sys.init env)).world.held = [] := by
  unfold Duplex.Comm_Duplex_Memcpy_GPUGPU
  by_cases hc : args.has_cuda = true
  · by_cases hn : args.num_gpus < 2
    · simp [hc, hn, SkipWithError, Sys.init, World.init]
    · have hlen := hassert (by omega)
      match hl : args.cuda_device_ids, hlen, hids with
      | gpu0 :: gpu1 :: t, _, hids =>
        have heq : gpu0 = gpu1 := eq_of_dedup_length_lt_two gpu0 gpu1 t hids
        simp [hc, hn, heq, SkipWithError, Sys.init, World.init]
  · simp [hc, SkipWithError, Sys.init, World.init]

/-- C6 at a concrete input: the id list `[3, 3]` with two visible devices. -/
theorem duplex_skips_without_two_distinct_gpus_witness :
    sameGpuArgs.cuda_device_ids.dedup.length < 2
    ∧ (2 ≤ sameGpuArgs.num_gpus → 2 ≤ sameGpuArgs.cuda_device_ids.length)
    ∧ (Duplex.Comm_Duplex_Memcpy_GPUGPU sameGpuArgs (Sys.init okEnv)).state.error_message.isSome
        = true
    ∧ (Duplex.Comm_Duplex_Memcpy_GPUGPU sameGpuArgs (Sys.init okEnv)).world.log = [] :=
  ⟨by decide, by decide,
    (duplex_skips_without_two_distinct_gpus okEnv sameGpuArgs (by decide) (by decide)).1,
    (duplex_skips_without_two_distinct_gpus okEnv sameGpuArgs (by decide) (by decide)).2.2.1⟩

/-! ## C1: bytes processed -/

theorem int64_t_congr {a b : Int} (h : a % 2 ^ 64 = b % 2 ^ 64) : int64_t a = int64_t b := by
  unfold int64_t
  omega

theorem int64_t_emod (a : Int) : int64_t a % 2 ^ 64 = a % 2 ^ 64 := by
  unfold int64_t
  omega

theorem int64_t_of_small {z : Int} (h0 : -2 ^ 63 ≤ z) (h1 : z < 2 ^ 63) : int64_t z = z := by
  unfold int64_t
  omega

theorem mul64_int64_t (a b : Int) : mul64 (int64_t a) (int64_t b) = int64_t (a * b) := by
  unfold mul64
  apply int64_t_congr
  rw [Int.mul_emod, int64_t_emod, int64_t_emod, ← Int.mul_emod]

theorem mul64_left (a b : Int) : mul64 (int64_t a) b = int64_t (a * b) := by
  unfold mul64
  apply int64_t_congr
  rw [Int.mul_emod, int64_t_emod, ← Int.mul_emod]

theorem shl_ull_one {e : Nat} (he : e < 64) : shl_ull 1 (size_t e) = 2 ^ e := by
  have h1 : size_t e = e := by
    unfold size_t
    exact Nat.mod_eq_of_lt (by omega)
  rw [h1]
  unfold shl_ull size_t
  rw [Nat.one_mul]
  exact Nat.mod_eq_of_lt (Nat.pow_lt_pow_right (by norm_num) he)

/-! ## Rounding to a floating-point format -/

theorem roundHalfEven_intCast (m : Int) : roundHalfEven (m : ℚ) = m := by
  unfold roundHalfEven
  simp

theorem roundHalfEven_nonneg {q : ℚ} (h : 0 ≤ q) : 0 ≤ roundHalfEven q := by
  have hf : 0 ≤ ⌊q⌋ := Int.floor_nonneg.mpr h
  unfold roundHalfEven
  split_ifs <;> omega

theorem roundBinary_nonneg (p : Nat) (emin : Int) {q : ℚ} (h : 0 ≤ q) :
    0 ≤ roundBinary p emin q := by
  unfold roundBinary
  split_ifs
  · exact le_refl _
  · exact mul_nonneg (Int.cast_nonneg.mpr (roundHalfEven_nonneg (div_nonneg h (by positivity))))
      (by positivity)

theorem log_two_eq {a : ℚ} {e : Int} (hlo : 2 ^ e ≤ a) (hhi : a < 2 ^ (e + 1)) :
    Int.log 2 a = e := by
  have ha : 0 < a := lt_of_lt_of_le (by positivity) hlo
  have h1 : e ≤ Int.log 2 a :=
    (Int.zpow_le_iff_le_log (by norm_num) ha).mp (by exact_mod_cast hlo)
  have h2 : Int.log 2 a < e + 1 :=
    (Int.lt_zpow_iff_log_lt (by norm_num) ha).mp (by exact_mod_cast hhi)
  omega

/-- In the binade `2 ^ e ≤ |q| < 2 ^ (e + 1)` of the normal range, rounding is
rounding to a multiple of `2 ^ (e - (p - 1))`. -/
theorem roundBinary_eq (p : Nat) (emin : Int) {q : ℚ} {e : Int} (hlo : 2 ^ e ≤ |q|)
    (hhi : |q| < 2 ^ (e + 1)) (he : emin ≤ e) :
    roundBinary p emin q = roundHalfEven (q / 2 ^ (e - (p - 1))) * 2 ^ (e - (p - 1)) := by
  have hq : q ≠ 0 := by
    intro h
    rw [h, abs_zero] at hlo
    exact absurd hlo (not_le.mpr (by positivity))
  unfold roundBinary
  rw [if_neg hq, log_two_eq hlo hhi, max_eq_left he]

/-- A value of the format is not changed by rounding. -/
theorem roundBinary_exact (p : Nat) (emin : Int) {q : ℚ} (e m : Int) (hlo : 2 ^ e ≤ |q|)
    (hhi : |q| < 2 ^ (e + 1)) (he : emin ≤ e) (hm : q = m * 2 ^ (e - (p - 1))) :
    roundBinary p emin q = q := by
  rw [roundBinary_eq p emin hlo hhi he]
  have h : q / 2 ^ (e - ((p : Int) - 1)) = m := by
    rw [hm, mul_div_assoc, div_self (by positivity), mul_one]
  rw [h, roundHalfEven_intCast, ← hm]

theorem float_nonneg {q : ℚ} (h : 0 ≤ q) : 0 ≤ float q := roundBinary_nonneg 24 (-126) h

theorem addf_nonneg {a b : ℚ} (ha : 0 ≤ a) (hb : 0 ≤ b) : 0 ≤ addf a b :=
  float_nonneg (add_nonneg ha hb)

theorem divf_nonneg {a b : ℚ} (ha : 0 ≤ a) (hb : 0 ≤ b) : 0 ≤ divf a b :=
  float_nonneg (div_nonneg ha hb)

theorem float_one : float 1 = 1 :=
  roundBinary_exact 24 (-126) 0 (2 ^ 23) (by norm_num) (by norm_num) (by norm_num)
    (by norm_num)

theorem float_three : float 3 = 3 :=
  roundBinary_exact 24 (-126) 1 (3 * 2 ^ 22) (by norm_num) (by norm_num) (by norm_num)
    (by norm_num)

theorem float_six : float 6 = 6 :=
  roundBinary_exact 24 (-126) 2 (3 * 2 ^ 22) (by norm_num) (by norm_num) (by norm_num)
    (by norm_num)

theorem double_two_pow_twenty : double 1048576 = 1048576 :=
  roundBinary_exact 53 (-1022) 20 (2 ^ 52) (by norm_num) (by norm_num) (by norm_num)
    (by norm_num)

/-- The `float` quotient of 5 by 1000 is `0.004999999888241291...`, not `1 / 200`. -/
theorem divf_five_thousand : divf 5 1000 = 5368709 / 1073741824 := by
  unfold divf float
  rw [roundBinary_eq 24 (-126) (e := -8) (by norm_num [abs_of_nonneg])
    (by norm_num [abs_of_nonneg]) (by norm_num)]
  have h : roundHalfEven (5 / 1000 / 2 ^ (-8 - ((24 : Nat) - 1) : Int)) = 10737418 := by
    have hf : ⌊(5 / 1000 / 2 ^ (-8 - ((24 : Nat) - 1) : Int) : ℚ)⌋ = 10737418 := by
      rw [Int.floor_eq_iff]
      norm_num
    unfold roundHalfEven
    rw [hf]
    norm_num
  rw [h]
  norm_num

/-! ## Rules for properties of the benchmark record -/

section StateRules
variable {α β : Type} {P : State → Prop} {Q : Sys → Prop}

theorem call_state (stmt : API α) (k : cudaError → α → Sys → Sys)
    (hk : ∀ e a s, P s.state → Q (k e a s)) (s : Sys) (hs : P s.state) :
    Q (call stmt k s) :=
  hk _ _ _ hs

theorem OR_SKIP_state (stmt : API α) (msg : String) (k : α → Sys → Sys)
    (hskip : ∀ s, P s.state → Q (SkipWithError msg s))
    (hk : ∀ a s, P s.state → Q (k a s)) (s : Sys) (hs : P s.state) :
    Q (OR_SKIP stmt msg k s) := by
  rw [OR_SKIP_apply]
  split
  · exact hskip _ hs
  · exact hk _ _ hs

theorem OR_SKIP_AND_BREAK_state (stmt : API α) (msg : String) (after : Sys → Sys)
    (k : α → Sys → Sys)
    (hskip : ∀ s, P s.state → Q (after (SkipWithError msg s)))
    (hk : ∀ a s, P s.state → Q (k a s)) (s : Sys) (hs : P s.state) :
    Q (OR_SKIP_AND_BREAK stmt msg after k s) := by
  rw [OR_SKIP_AND_BREAK_apply]
  split
  · exact hskip _ hs
  · exact hk _ _ hs

theorem hostAlloc_state (bytes : Nat) (k : Nat → Sys → Sys)
    (hk : ∀ a s, P s.state → Q (k a s)) (s : Sys) (hs : P s.state) :
    Q (hostAlloc bytes k s) :=
  hk _ _ hs

theorem execW_state (f : World → World) (k : Sys → Sys)
    (hk : ∀ s, P s.state → Q (k s)) (s : Sys) (hs : P s.state) :
    Q (execW f k s) :=
  hk _ hs

theorem forEach_state (body : α → β → (β → Sys → Sys) → Sys → Sys) (after : β → Sys → Sys)
    (hbody : ∀ x acc cont, (∀ acc s, P s.state → Q (cont acc s)) →
      ∀ s, P s.state → Q (body x acc cont s))
    (hafter : ∀ acc s, P s.state → Q (after acc s)) :
    ∀ (xs : List α) (acc : β) (s : Sys), P s.state → Q (forEach xs body after acc s)
  | [], acc, s, hs => hafter acc s hs
  | _ :: xs, acc, s, hs =>
    hbody _ acc _ (fun acc s hs => forEach_state body after hbody hafter xs acc s hs) s hs

theorem forState_state (body : (Sys → Sys) → Sys → Sys) (after : Sys → Sys)
    (hbody : ∀ next, (∀ s, P s.state → Q (next s)) → ∀ s, P s.state → Q (body next s))
    (hafter : ∀ s, P s.state → Q (after s)) :
    ∀ (n : Nat) (s : Sys), P s.state → Q (forState body after n s)
  | 0, s, hs => hafter s hs
  | n + 1, s, hs => hbody _ (fun s hs => forState_state body after hbody hafter n s hs) s hs

theorem forStateLoop_state (args : Args) (body : (Sys → Sys) → Sys → Sys) (after : Sys → Sys)
    (hbody : ∀ next, (∀ s, P s.state → Q (next s)) → ∀ s, P s.state → Q (body next s))
    (hafter : ∀ s, P s.state → Q (after s)) (s : Sys) (hs : P s.state) :
    Q (forStateLoop args body after s) :=
  forState_state body after hbody hafter _ s hs

end StateRules

theorem exec_state {P R : State → Prop} {Q : Sys → Prop} (f k : Sys → Sys)
    (hf : ∀ s, P s.state → R (f s).state) (hk : ∀ s, R s.state → Q (k s))
    (s : Sys) (hs : P s.state) : Q (exec f k s) :=
  hk _ (hf s hs)

theorem defer_state {P : State → Prop} {Q M : Sys → Prop} (stmt rest : Sys → Sys)
    (hstmt : ∀ f, M f → Q (stmt f)) (hrest : ∀ s, P s.state → M (rest s))
    (s : Sys) (hs : P s.state) : Q (defer stmt rest s) :=
  hstmt _ (hrest s hs)

theorem ite_state {P : State → Prop} {Q : Sys → Prop} (c : Prop) [Decidable c]
    (f g : Sys → Sys) (hf : c → ∀ s, P s.state → Q (f s)) (hg : ¬c → ∀ s, P s.state → Q (g s))
    (s : Sys) (hs : P s.state) : Q ((if c then f else g) s) := by
  by_cases h : c
  · rw [if_pos h]
    exact hf h s hs
  · rw [if_neg h]
    exact hg h s hs

attribute [irreducible] exec execW call hostAlloc OR_SKIP OR_SKIP_AND_BREAK defer forEach forState
  forStateLoop

theorem ReportsBytes_skip (X : Int) (msg : String) (s : Sys) :
    ReportsBytes X (SkipWithError msg s) := by
  constructor
  intro h
  unfold SkipWithError at h
  cases hm : s.state.error_message <;> simp [hm] at h

theorem ReportsBytes_of_eq (X : Int) (s : Sys) (h : s.state.bytes_processed = some X) :
    ReportsBytes X s := ⟨fun _ => h⟩

theorem duplex_iteration_reports (X : Int) (streams starts stops srcs dsts : List Nat)
    (bytes : Nat) (next : Sys → Sys) (hnext : ∀ s, True → ReportsBytes X (next s)) :
    ∀ s, True → ReportsBytes X (Duplex.iteration streams starts stops srcs dsts bytes next s) := by
  have hskip : ∀ (msg : String) (s : Sys), True → ReportsBytes X (SkipWithError msg s) :=
    fun msg s _ => ReportsBytes_skip X msg s
  unfold Duplex.iteration
  refine forEach_state (P := fun _ => True) _ _ (fun i _ cont hcont => ?_) (fun _ => ?_) _ _
  · repeat refine OR_SKIP_state (P := fun _ => True) _ _ _ (hskip _) fun _ => ?_
    exact hcont ()
  refine forEach_state (P := fun _ => True) _ _ (fun i _ cont hcont => ?_) (fun _ => ?_) _ _
  · repeat refine OR_SKIP_state (P := fun _ => True) _ _ _ (hskip _) fun _ => ?_
    exact hcont ()
  refine forEach_state (P := fun _ => True) _ _ (fun i _ cont hcont => ?_) (fun _ => ?_) _ _
  · refine forEach_state (P := fun _ => True) _ _ (fun i _ cont hcont => ?_) hcont _ _
    repeat (refine OR_SKIP_state (P := fun _ => True) _ _ _ (hskip _) fun _ => ?_)
    exact hcont _
  · exact exec_state (P := fun _ => True) (R := fun _ => True) _ _ (fun _ _ => trivial) hnext

theorem duplex_afterLoop_reports (args : Args) (gpu0 gpu1 : Int)
    (streams starts stops srcs dsts : List Nat) (bytes : Nat) :
    ∀ s, True → ReportsBytes (mul64 (mul64 (int64_t (iterations args)) (int64_t bytes)) 2)
      (Duplex.afterLoop args gpu0 gpu1 streams starts stops srcs dsts bytes s) := by
  have hskip : ∀ (msg : String) (s : Sys),
      BytesAre (mul64 (mul64 (int64_t (iterations args)) (int64_t bytes)) 2) s.state →
      ReportsBytes (mul64 (mul64 (int64_t (iterations args)) (int64_t bytes)) 2)
        (SkipWithError msg s) :=
    fun msg s _ => ReportsBytes_skip _ msg s
  unfold Duplex.afterLoop
  refine exec_state (P := fun _ => True) (R := BytesAre _) _ _ (fun _ _ => rfl) ?_
  repeat (refine exec_state (P := BytesAre _) (R := BytesAre _) _ _ (fun _ h => h) ?_)
  refine forEach_state (P := BytesAre _) _ _ (fun i _ cont hcont => ?_) (fun _ => ?_) _ _
  · repeat (refine OR_SKIP_state (P := BytesAre _) _ _ _ (hskip _) fun _ => ?_)
    exact hcont _
  repeat (refine exec_state (P := BytesAre _) (R := BytesAre _) _ _ (fun _ h => h) ?_)
  refine forEach_state (P := BytesAre _) _ _ (fun i _ cont hcont => ?_) (fun _ => ?_) _ _
  · exact call_state (P := BytesAre _) _ _ fun _ _ => hcont _
  refine forEach_state (P := BytesAre _) _ _ (fun i _ cont hcont => ?_) (fun _ => ?_) _ _
  · exact call_state (P := BytesAre _) _ _ fun _ _ => hcont _
  · exact fun s hs => ReportsBytes_of_eq _ _ hs

theorem duplex_reports (args : Args) (s : Sys)
    (h : (Duplex.Comm_Duplex_Memcpy_GPUGPU args s).aborted = false) :
    ReportsBytes
      (mul64 (mul64 (int64_t (iterations args)) (int64_t (shl_ull 1 (size_t (args.range 0))))) 2)
      (Duplex.Comm_Duplex_Memcpy_GPUGPU args s) := by
  have hskip : ∀ (msg : String) (s : Sys), True → ReportsBytes
      (mul64 (mul64 (int64_t (iterations args))
        (int64_t (shl_ull 1 (size_t (args.range 0))))) 2) (SkipWithError msg s) :=
    fun msg s _ => ReportsBytes_skip _ msg s
  unfold Duplex.Comm_Duplex_Memcpy_GPUGPU at h ⊢
  rcases hl : args.cuda_device_ids with _ | ⟨gpu0, _ | ⟨gpu1, t⟩⟩ <;> simp only [hl] at h ⊢
  · split
    · exact hskip _ s trivial
    split
    · exact hskip _ s trivial
    · rename_i h1 h2
      simp [h1, h2, assertFailed] at h
  · split
    · exact hskip _ s trivial
    split
    · exact hskip _ s trivial
    · rename_i h1 h2
      simp [h1, h2, assertFailed] at h
  · clear h
    refine ite_state (P := fun _ => True) _ _ _ (fun _ => hskip _) (fun _ => ?_) s trivial
    refine ite_state (P := fun _ => True) _ _ _ (fun _ => hskip _) (fun _ => ?_)
    refine ite_state (P := fun _ => True) _ _ _ (fun _ => hskip _) (fun _ => ?_)
    repeat (refine OR_SKIP_state (P := fun _ => True) _ _ _ (hskip _) fun _ => ?_)
    refine call_state (P := fun _ => True) _ _ fun _ _ => ?_
    refine ite_state (P := fun _ => True) _ _ _ (fun _ => hskip _) (fun _ => ?_)
    repeat (refine OR_SKIP_state (P := fun _ => True) _ _ _ (hskip _) fun _ => ?_)
    refine call_state (P := fun _ => True) _ _ fun _ _ => ?_
    refine ite_state (P := fun _ => True) _ _ _ (fun _ => hskip _) (fun _ => ?_)
    repeat (refine OR_SKIP_state (P := fun _ => True) _ _ _ (hskip _) fun _ => ?_)
    exact forStateLoop_state (P := fun _ => True) _ _ _
      (fun next hnext => duplex_iteration_reports _ _ _ _ _ _ _ next hnext)
      (duplex_afterLoop_reports _ _ _ _ _ _ _ _ _)

theorem pinned_afterLoop_reports (args : Args) (bytes : Nat) :
    ∀ s, True → ReportsBytes (mul64 (int64_t (iterations args)) (int64_t bytes))
      (Pinned.afterLoop args bytes s) := by
  unfold Pinned.afterLoop
  refine exec_state (P := fun _ => True) (R := BytesAre _) _ _ (fun _ _ => rfl) ?_
  refine exec_state (P := BytesAre _) (R := BytesAre _) _ _ (fun _ h => h) ?_
  refine execW_state (P := BytesAre _) _ _ ?_
  exact fun s hs => ReportsBytes_of_eq _ _ hs

theorem pinned_iteration_reports (X : Int) (start stop src dst bytes : Nat)
    (after next : Sys → Sys) (hafter : ∀ s, True → ReportsBytes X (after s))
    (hnext : ∀ s, True → ReportsBytes X (next s)) :
    ∀ s, True → ReportsBytes X (Pinned.iteration start stop src dst bytes after next s) := by
  unfold Pinned.iteration
  repeat (refine call_state (P := fun _ => True) _ _ fun _ _ => ?_)
  refine exec_state (P := fun _ => True) (R := fun _ => True) _ _ (fun _ _ => trivial) ?_
  refine ite_state (P := fun _ => True) _ _ _ (fun _ => ?_) (fun _ => ?_)
  · exact exec_state (P := fun _ => True) (R := fun _ => True) _ _ (fun _ _ => trivial) hafter
  refine call_state (P := fun _ => True) _ _ fun _ _ => ?_
  refine ite_state (P := fun _ => True) _ _ _ (fun _ => ?_) (fun _ => ?_)
  · exact exec_state (P := fun _ => True) (R := fun _ => True) _ _ (fun _ _ => trivial) hafter
  · exact exec_state (P := fun _ => True) (R := fun _ => True) _ _ (fun _ _ => trivial) hnext

theorem pinned_reports (args : Args) (s : Sys) :
    ReportsBytes
      (mul64 (int64_t (iterations args)) (int64_t (shl_ull 1 (size_t (args.range 0)))))
      (Pinned.Comm_NUMAMemcpy_PinnedToGPU args s) := by
  have hskip : ∀ (msg : String) (s : Sys), True → ReportsBytes
      (mul64 (int64_t (iterations args)) (int64_t (shl_ull 1 (size_t (args.range 0)))))
      (SkipWithError msg s) :=
    fun msg s _ => ReportsBytes_skip _ msg s
  have hworld : ∀ (stmt : API Unit) (f : Sys), ReportsBytes
      (mul64 (int64_t (iterations args)) (int64_t (shl_ull 1 (size_t (args.range 0))))) f →
      ReportsBytes
      (mul64 (int64_t (iterations args)) (int64_t (shl_ull 1 (size_t (args.range 0)))))
      (call stmt (fun _ _ => id) f) := by
    intro stmt f hf
    rw [call_apply]
    exact ⟨hf.ok⟩
  have hworld2 : ∀ (g : World → World) (f : Sys), ReportsBytes
      (mul64 (int64_t (iterations args)) (int64_t (shl_ull 1 (size_t (args.range 0))))) f →
      ReportsBytes
      (mul64 (int64_t (iterations args)) (int64_t (shl_ull 1 (size_t (args.range 0)))))
      (execW g id f) := by
    intro g f hf
    rw [execW_apply]
    exact ⟨hf.ok⟩
  unfold Pinned.Comm_NUMAMemcpy_PinnedToGPU
  refine ite_state (P := fun _ => True) _ _ _ (fun _ => hskip _) (fun _ => ?_) s trivial
  refine ite_state (P := fun _ => True) _ _ _ (fun _ => hskip _) (fun _ => ?_)
  refine execW_state (P := fun _ => True) _ _ ?_
  refine OR_SKIP_state (P := fun _ => True) _ _ _ (hskip _) fun _ => ?_
  refine hostAlloc_state (P := fun _ => True) _ _ fun src => ?_
  refine OR_SKIP_state (P := fun _ => True) _ _ _ (hskip _) fun _ => ?_
  refine defer_state (P := fun _ => True) _ _ (hworld _) ?_
  refine defer_state (P := fun _ => True) _ _ (hworld2 _) ?_
  refine OR_SKIP_state (P := fun _ => True) _ _ _ (hskip _) fun _ => ?_
  refine OR_SKIP_state (P := fun _ => True) _ _ _ (hskip _) fun dst => ?_
  refine defer_state (P := fun _ => True) _ _ (hworld _) ?_
  refine OR_SKIP_state (P := fun _ => True) _ _ _ (hskip _) fun _ => ?_
  refine call_state (P := fun _ => True) _ _ fun _ start => ?_
  refine call_state (P := fun _ => True) _ _ fun _ stop => ?_
  exact forStateLoop_state (P := fun _ => True) _ _ _
    (fun next hnext => pinned_iteration_reports _ _ _ _ _ _ _ next
      (pinned_afterLoop_reports _ _) hnext)
    (pinned_afterLoop_reports _ _)

/-- C1: a run that finishes without skipping reports `n * S * path-count`
bytes, in 64-bit signed arithmetic, where `S = 2 ^ e` is the size for the
exponent `e = state.range(0) < 64` and `n` the iteration count: `n * S * 2`
for `Comm_Duplex_Memcpy_GPUGPU`, `n * S` for `Comm_NUMAMemcpy_PinnedToGPU`;
the 64-bit value is the exact product whenever that is below `2 ^ 63`. -/
theorem bytes_processed_eq (env : Env) (args : Args) (he : args.range 0 < 64) :
    ((Duplex.Comm_Duplex_Memcpy_GPUGPU args (Sys.init env)).state.error_message = none →
      (Duplex.Comm_Duplex_Memcpy_GPUGPU args (Sys.init env)).aborted = false →
      (Duplex.Comm_Duplex_Memcpy_GPUGPU args (Sys.init env)).state.bytes_processed
        = some (int64_t ((args.max_iterations : Int) * 2 ^ args.range 0 * 2)))
    ∧ ((Pinned.Comm_NUMAMemcpy_PinnedToGPU args (Sys.init env)).state.error_message = none →
      (Pinned.Comm_NUMAMemcpy_PinnedToGPU args (Sys.init env)).state.bytes_processed
        = some (int64_t ((args.max_iterations : Int) * 2 ^ args.range 0)))
    ∧ ((args.max_iterations : Int) * 2 ^ args.range 0 * 2 < 2 ^ 63 →
      int64_t ((args.max_iterations : Int) * 2 ^ args.range 0 * 2)
        = (args.max_iterations : Int) * 2 ^ args.range 0 * 2
      ∧ int64_t ((args.max_iterations : Int) * 2 ^ args.range 0)
        = (args.max_iterations : Int) * 2 ^ args.range 0) := by
  have hpos : (0 : Int) ≤ (args.max_iterations : Int) * 2 ^ args.range 0 := by positivity
  refine ⟨fun herr hab => ?_, fun herr => ?_, fun hlt => ⟨?_, ?_⟩⟩
  · rw [(duplex_reports args (Sys.init env) hab).ok herr, shl_ull_one he, mul64_int64_t,
      mul64_left]
    push_cast
    rfl
  · rw [(pinned_reports args (Sys.init env)).ok herr, shl_ull_one he, mul64_int64_t]
    push_cast
    rfl
  · exact int64_t_of_small (by omega) hlt
  · exact int64_t_of_small (by omega) (by omega)

/-- The sample duplex run finishes without skipping. -/
theorem duplex_sample_finishes :
    (Duplex.Comm_Duplex_Memcpy_GPUGPU sampleArgs (Sys.init okEnv)).state.error_message = none
    ∧ (Duplex.Comm_Duplex_Memcpy_GPUGPU sampleArgs (Sys.init okEnv)).aborted = false := by
  simp only [Duplex.Comm_Duplex_Memcpy_GPUGPU, Duplex.iteration, Duplex.afterLoop, sampleArgs,
    Sys.init, World.init, okEnv, OR_SKIP_apply, call_apply, exec_apply, forStateLoop_apply,
    forState_zero, forState_succ, forEach_nil, forEach_cons, cuda_reset_device, cudaStreamCreate, cudaEventCreate, cudaSetDevice, cudaMalloc,
    cudaMemset, cudaDeviceEnablePeerAccess, cudaEventRecord, cudaMemcpyAsync,
    cudaEventSynchronize, cudaEventElapsedTime, cudaFree, World.call, World.acquire,
    World.release, SetIterationTime, SetBytesProcessed, setCounter, List.range,
    List.range.loop, List.length, List.getD_cons_zero, List.getD_cons_succ, ne_eq,
    not_true_eq_false, not_false_eq_true, Bool.not_true, Bool.false_eq_true, reduceCtorEq,
    and_false, false_and, and_self, ↓reduceIte, Nat.reduceLT, Int.reduceEq, Option.isSome, id,
    List.cons_append, List.nil_append]

/-- The sample single-path run finishes without skipping. -/
theorem pinned_sample_finishes :
    (Pinned.Comm_NUMAMemcpy_PinnedToGPU sampleArgs (Sys.init okEnv)).state.error_message
      = none := by
  simp only [Pinned.Comm_NUMAMemcpy_PinnedToGPU, Pinned.iteration, Pinned.afterLoop, sampleArgs,
    Sys.init, World.init, okEnv, OR_SKIP_apply, call_apply, exec_apply, execW_apply,
    hostAlloc_apply, defer_apply, forStateLoop_apply, forState_zero, forState_succ,
    cuda_reset_device, cudaHostRegister,
    cudaHostUnregister, cudaEventCreate, cudaSetDevice, cudaMalloc, cudaMemset, cudaEventRecord,
    cudaMemcpy, cudaEventSynchronize, cudaEventElapsedTime, cudaFree, World.call,
    World.acquire, World.release, World.hostAlloc, World.hostFree, World.numa_bind_node,
    SetIterationTime, SetBytesProcessed, setCounter, PauseTiming, PRINT_IF_ERROR, ne_eq,
    not_true_eq_false, Bool.not_true, Bool.false_eq_true, reduceCtorEq, ↓reduceIte,
    Option.isSome, id]

/-- C1 at a concrete input: exponent 20 and one iteration give `2 * 2 ^ 20`
bytes for the duplex run and `2 ^ 20` for the single-path run. -/
theorem bytes_processed_eq_witness :
    sampleArgs.range 0 < 64
    ∧ (Duplex.Comm_Duplex_Memcpy_GPUGPU sampleArgs (Sys.init okEnv)).state.bytes_processed
        = some (2 * 2 ^ 20)
    ∧ (Pinned.Comm_NUMAMemcpy_PinnedToGPU sampleArgs (Sys.init okEnv)).state.bytes_processed
        = some (2 ^ 20) := by
  have h := bytes_processed_eq okEnv sampleArgs (by decide)
  have hlt : (sampleArgs.max_iterations : Int) * 2 ^ sampleArgs.range 0 * 2 < 2 ^ 63 := by
    simp only [sampleArgs]
    norm_num
  refine ⟨by decide, ?_, ?_⟩
  · rw [h.1 duplex_sample_finishes.1 duplex_sample_finishes.2, (h.2.2 hlt).1]
    simp only [sampleArgs]
    norm_num
  · rw [h.2.1 pinned_sample_finishes, (h.2.2 hlt).2]
    simp only [sampleArgs]
    norm_num

/-! ## C2: iteration time of the duplex run -/

/-- The accumulator of the "longest time" loop, started at `0`, is the
maximum of the four elapsed times as soon as one of them is not negative. -/
theorem max_fold_four (a b c d : ℚ) (h : 0 ≤ a) :
    max d (max c (max b (max a 0))) = max (max a b) (max c d) := by
  rw [max_eq_left h]
  simp only [max_comm, max_left_comm, max_assoc]

/-- C2: in an iteration of `Comm_Duplex_Memcpy_GPUGPU` in which every call
succeeds, the iteration time handed to the runtime is the maximum of
`elapsed(starts[i] → stops[j])` over the four pairs of the two streams'
markers, converted from milliseconds to seconds by the source's `float`
division by 1000.  The four markers are distinct handles, and each stream
reaches its markers in issue order. -/
theorem duplex_iteration_time (s : Sys)
    (stream0 stream1 start0 start1 stop0 stop1 src0 src1 dst0 dst1 bytes : Nat)
    (next : Sys → Sys)
    (hnd : [start0, start1, stop0, stop1].Nodup)
    (hok : ∀ k c, s.world.log.length ≤ k → k < s.world.log.length + 12 →
      (s.world.env k c).err = .cudaSuccess)
    (hfifo : StreamOrdered s.world.env) :
    ∃ s', Duplex.iteration [stream0, stream1] [start0, start1] [stop0, stop1] [src0, src1]
        [dst0, dst1] bytes next s = next s'
      ∧ s'.state.iteration_times = s.state.iteration_times ++
        [divf (max (max (s'.world.elapsed start0 stop0) (s'.world.elapsed start0 stop1))
             (max (s'.world.elapsed start1 stop0) (s'.world.elapsed start1 stop1))) 1000] := by
  simp only [List.nodup_cons, List.mem_cons, List.mem_singleton, List.not_mem_nil, not_or,
    or_false, List.nodup_nil, and_true, not_false_eq_true] at hnd
  obtain ⟨⟨h01, h02, h03⟩, ⟨h12, h13⟩, h23⟩ := hnd
  have e0 : ∀ c, (s.world.env s.world.log.length c).err = .cudaSuccess :=
    fun c => hok _ c (by omega) (by omega)
  have e1 : ∀ c, (s.world.env (s.world.log.length + 1) c).err = .cudaSuccess :=
    fun c => hok _ c (by omega) (by omega)
  have e2 : ∀ c, (s.world.env (s.world.log.length + 1 + 1) c).err = .cudaSuccess :=
    fun c => hok _ c (by omega) (by omega)
  have e3 : ∀ c, (s.world.env (s.world.log.length + 1 + 1 + 1) c).err = .cudaSuccess :=
    fun c => hok _ c (by omega) (by omega)
  have e4 : ∀ c, (s.world.env (s.world.log.length + 1 + 1 + 1 + 1) c).err = .cudaSuccess :=
    fun c => hok _ c (by omega) (by omega)
  have e5 : ∀ c, (s.world.env (s.world.log.length + 1 + 1 + 1 + 1 + 1) c).err
      = .cudaSuccess := fun c => hok _ c (by omega) (by omega)
  have e6 : ∀ c, (s.world.env (s.world.log.length + 1 + 1 + 1 + 1 + 1 + 1) c).err
      = .cudaSuccess := fun c => hok _ c (by omega) (by omega)
  have e7 : ∀ c, (s.world.env (s.world.log.length + 1 + 1 + 1 + 1 + 1 + 1 + 1) c).err
      = .cudaSuccess := fun c => hok _ c (by omega) (by omega)
  have e8 : ∀ c, (s.world.env (s.world.log.length + 1 + 1 + 1 + 1 + 1 + 1 + 1 + 1) c).err
      = .cudaSuccess := fun c => hok _ c (by omega) (by omega)
  have e9 : ∀ c, (s.world.env (s.world.log.length + 1 + 1 + 1 + 1 + 1 + 1 + 1 + 1 + 1) c).err
      = .cudaSuccess := fun c => hok _ c (by omega) (by omega)
  have e10 : ∀ c, (s.world.env
      (s.world.log.length + 1 + 1 + 1 + 1 + 1 + 1 + 1 + 1 + 1 + 1) c).err
      = .cudaSuccess := fun c => hok _ c (by omega) (by omega)
  have e11 : ∀ c, (s.world.env
      (s.world.log.length + 1 + 1 + 1 + 1 + 1 + 1 + 1 + 1 + 1 + 1 + 1) c).err
      = .cudaSuccess := fun c => hok _ c (by omega) (by omega)
  have hord := hfifo s.world.log.length (s.world.log.length + 1 + 1) start0 stop0 stream0
    (by omega)
  simp only [Duplex.iteration, forEach_nil, forEach_cons, OR_SKIP_apply, exec_apply,
    cudaEventRecord, cudaMemcpyAsync, cudaEventSynchronize, cudaEventElapsedTime, World.call,
    World.elapsed, List.length_cons, List.length_nil, List.range, List.range.loop,
    List.getD_cons_zero, List.getD_cons_succ, e0, e1, e2, e3, e4, e5, e6, e7, e8, e9, e10, e11,
    ne_eq, not_true_eq_false, ↓reduceIte, zero_add]
  refine ⟨_, rfl, ?_⟩
  simp only [SetIterationTime, World.elapsed, h01, h02, h03, h12, h13, h23, Ne.symm h01,
    Ne.symm h02, Ne.symm h03, Ne.symm h12, Ne.symm h13, Ne.symm h23, ↓reduceIte, ne_eq,
    not_false_eq_true]
  rw [max_fold_four _ _ _ _ (sub_nonneg.mpr hord)]

theorem okEnv_streamOrdered : StreamOrdered okEnv := by
  intro k k' _ _ _ h
  simp only [okEnv]
  exact_mod_cast h

/-- The first iteration of the duplex loop on `okEnv`, with markers `3, 4, 5, 6`:
the longest span is 5 ms, and the time handed to the runtime is its `float`
quotient by 1000. -/
theorem duplex_sample_iteration_time :
    (Duplex.iteration [1, 2] [3, 4] [5, 6] [7, 9] [8, 10] 1024 id
      (Sys.init okEnv)).state.iteration_times = [5368709 / 1073741824] := by
  simp only [Duplex.iteration, forEach_nil, forEach_cons, OR_SKIP_apply, exec_apply,
    cudaEventRecord, cudaMemcpyAsync, cudaEventSynchronize, cudaEventElapsedTime, World.call,
    World.elapsed, Sys.init, World.init, okEnv, SetIterationTime, List.length_cons,
    List.length_nil, List.range, List.range.loop, List.getD_cons_zero, List.getD_cons_succ,
    ne_eq, not_true_eq_false, not_false_eq_true, reduceCtorEq, ↓reduceIte, id,
    List.nil_append]
  norm_num [divf_five_thousand]

/-- C2 at a concrete input: the first iteration after an empty log, with
markers `3, 4, 5, 6`; the longest span is 5 ms, from the start of stream 1
(time 0) to the stop of stream 2 (time 5), and the recorded time is the `float`
quotient `5 / 1000 = 0.004999999888...`. -/
theorem duplex_iteration_time_witness :
    [3, 4, 5, 6].Nodup
    ∧ (∀ k c, (Sys.init okEnv).world.log.length ≤ k →
        k < (Sys.init okEnv).world.log.length + 12 →
        ((Sys.init okEnv).world.env k c).err = .cudaSuccess)
    ∧ StreamOrdered (Sys.init okEnv).world.env
    ∧ (∃ s', Duplex.iteration [1, 2] [3, 4] [5, 6] [7, 9] [8, 10] 1024 id (Sys.init okEnv)
        = id s'
      ∧ s'.state.iteration_times = (Sys.init okEnv).state.iteration_times ++
        [divf (max (max (s'.world.elapsed 3 5) (s'.world.elapsed 3 6))
             (max (s'.world.elapsed 4 5) (s'.world.elapsed 4 6))) 1000])
    ∧ (Duplex.iteration [1, 2] [3, 4] [5, 6] [7, 9] [8, 10] 1024 id
        (Sys.init okEnv)).state.iteration_times = [5368709 / 1073741824] :=
  ⟨by decide, fun _ _ _ _ => rfl, okEnv_streamOrdered,
    duplex_iteration_time (Sys.init okEnv) 1 2 3 4 5 6 7 9 8 10 1024 id (by decide)
      (fun _ _ _ _ => rfl) okEnv_streamOrdered,
    duplex_sample_iteration_time⟩

/-! ## C5: start and stop spread -/

theorem SpreadCountersNonneg_of_eq (st st' : State) (h : st'.counters = st.counters)
    (hst : SpreadCountersNonneg st) : SpreadCountersNonneg st' :=
  ⟨fun v hv => hst.ok v (h ▸ hv)⟩

theorem SpreadCountersNonneg_setCounter (name : String) (v : ℚ) (s : Sys)
    (hv : name = "avg_start_spread" ∨ name = "avg_stop_spread" → 0 ≤ v)
    (hs : SpreadCountersNonneg s.state) : SpreadCountersNonneg (setCounter name v s).state := by
  constructor
  intro u hu
  simp only [setCounter, List.mem_cons, Prod.mk.injEq] at hu
  rcases hu with (⟨h1, h2⟩ | hu) | (⟨h1, h2⟩ | hu)
  · rw [h2]
    exact hv (Or.inl h1.symm)
  · exact hs.ok u (Or.inl hu)
  · rw [h2]
    exact hv (Or.inr h1.symm)
  · exact hs.ok u (Or.inr hu)

theorem OR_SKIP_elapsed {P : State → Prop} {Q : Sys → Prop} (t : Nat → ℚ) (a b : Nat)
    (msg : String) (k : ℚ → Sys → Sys)
    (hskip : ∀ s, P s.state → Q (SkipWithError msg s))
    (hk : ∀ s, P s.state → s.world.stamps = t → Q (k (t b - t a) s)) :
    ∀ s, P s.state → s.world.stamps = t → Q (OR_SKIP (cudaEventElapsedTime a b) msg k s) := by
  intro s hs ht
  rw [OR_SKIP_apply]
  split
  · exact hskip _ hs
  · have hv : (cudaEventElapsedTime a b s.world).2.1 = t b - t a := by
      simp only [cudaEventElapsedTime, World.elapsed, ht]
    rw [hv]
    exact hk _ hs (by simp only [cudaEventElapsedTime, World.call, ht])

theorem forEach_acc {α β : Type} {P : State → Prop} {Q : Sys → Prop} (A : β → Prop)
    (body : α → β → (β → Sys → Sys) → Sys → Sys) (after : β → Sys → Sys)
    (hbody : ∀ x acc cont, A acc → (∀ acc s, A acc → P s.state → Q (cont acc s)) →
      ∀ s, P s.state → Q (body x acc cont s))
    (hafter : ∀ acc s, A acc → P s.state → Q (after acc s)) :
    ∀ (xs : List α) (acc : β) (s : Sys), A acc → P s.state → Q (forEach xs body after acc s)
  | [], acc, s, ha, hs => by
    rw [forEach_nil]
    exact hafter acc s ha hs
  | x :: xs, acc, s, ha, hs => by
    rw [forEach_cons]
    exact hbody x acc _ ha
      (fun acc s ha hs => forEach_acc A body after hbody hafter xs acc s ha hs) s hs

theorem spread_nonneg (t : Nat → ℚ) (a b : Nat) : 0 ≤ max (t b - t a) (t a - t b) := by
  rcases le_total (t a) (t b) with h | h
  · exact le_max_of_le_left (sub_nonneg.mpr h)
  · exact le_max_of_le_right (sub_nonneg.mpr h)

theorem SpreadOK_skip (msg : String) (s : Sys) (hs : SpreadCountersNonneg s.state) :
    SpreadOK (SkipWithError msg s) :=
  ⟨SpreadCountersNonneg_of_eq s.state _ rfl hs⟩

theorem duplex_afterLoop_spread (args : Args) (gpu0 gpu1 : Int)
    (streams starts stops srcs dsts : List Nat) (bytes : Nat) :
    ∀ s, SpreadCountersNonneg s.state → SpreadOK
      (Duplex.afterLoop args gpu0 gpu1 streams starts stops srcs dsts bytes s) := by
  have hskip : ∀ (msg : String) (s : Sys), SpreadCountersNonneg s.state →
      SpreadOK (SkipWithError msg s) := SpreadOK_skip
  unfold Duplex.afterLoop
  refine exec_state (P := SpreadCountersNonneg) (R := SpreadCountersNonneg) _ _
    (fun s hs => SpreadCountersNonneg_of_eq s.state _ rfl hs) ?_
  repeat (refine exec_state (P := SpreadCountersNonneg) (R := SpreadCountersNonneg) _ _
            (fun _ hs => SpreadCountersNonneg_setCounter _ _ _
              (fun h => absurd h (by decide)) hs) ?_)
  intro s hs
  refine forEach_acc (P := SpreadCountersNonneg) (fun sums : ℚ × ℚ => 0 ≤ sums.1 ∧ 0 ≤ sums.2)
    _ _ (fun i sums cont hsums hcont => ?_) (fun sums => ?_) _ (0, 0) s
    ⟨le_refl _, le_refl _⟩ hs
  · intro s hs
    refine OR_SKIP_elapsed (P := SpreadCountersNonneg) s.world.stamps _ _ _ _ (hskip _) ?_ s
      hs rfl
    refine OR_SKIP_elapsed (P := SpreadCountersNonneg) s.world.stamps _ _ _ _ (hskip _) ?_
    refine OR_SKIP_elapsed (P := SpreadCountersNonneg) s.world.stamps _ _ _ _ (hskip _) ?_
    refine OR_SKIP_elapsed (P := SpreadCountersNonneg) s.world.stamps _ _ _ _ (hskip _) ?_
    intro s' hs' _
    exact hcont _ s' ⟨addf_nonneg hsums.1 (spread_nonneg _ _ _),
      addf_nonneg hsums.2 (spread_nonneg _ _ _)⟩ hs'
  · intro s hsums hs
    revert s
    refine exec_state (P := SpreadCountersNonneg) (R := SpreadCountersNonneg) _ _
      (fun _ hs => SpreadCountersNonneg_setCounter _ _ _
        (fun _ => divf_nonneg hsums.2 (float_nonneg (Nat.cast_nonneg _))) hs) ?_
    refine exec_state (P := SpreadCountersNonneg) (R := SpreadCountersNonneg) _ _
      (fun _ hs => SpreadCountersNonneg_setCounter _ _ _
        (fun _ => divf_nonneg hsums.1 (float_nonneg (Nat.cast_nonneg _))) hs) ?_
    refine forEach_state (P := SpreadCountersNonneg) _ _ (fun i _ cont hcont => ?_)
      (fun _ => ?_) _ _
    · exact call_state (P := SpreadCountersNonneg) _ _ fun _ _ => hcont _
    refine forEach_state (P := SpreadCountersNonneg) _ _ (fun i _ cont hcont => ?_)
      (fun _ => ?_) _ _
    · exact call_state (P := SpreadCountersNonneg) _ _ fun _ _ => hcont _
    · exact fun s hs => ⟨hs⟩

/-- A property of the benchmark record that no `SetIterationTime` disturbs
holds through an iteration of the duplex loop. -/
theorem duplex_iteration_state {P : State → Prop} {Q : Sys → Prop}
    (hskip : ∀ (msg : String) (s : Sys), P s.state → Q (SkipWithError msg s))
    (hiter : ∀ (t : ℚ) (s : Sys), P s.state → P (SetIterationTime t s).state)
    (streams starts stops srcs dsts : List Nat) (bytes : Nat) (next : Sys → Sys)
    (hnext : ∀ s, P s.state → Q (next s)) :
    ∀ s, P s.state → Q (Duplex.iteration streams starts stops srcs dsts bytes next s) := by
  unfold Duplex.iteration
  refine forEach_state (P := P) _ _ (fun i _ cont hcont => ?_) (fun _ => ?_) _ _
  · repeat (refine OR_SKIP_state (P := P) _ _ _ (hskip _) fun _ => ?_)
    exact hcont ()
  refine forEach_state (P := P) _ _ (fun i _ cont hcont => ?_) (fun _ => ?_) _ _
  · repeat (refine OR_SKIP_state (P := P) _ _ _ (hskip _) fun _ => ?_)
    exact hcont ()
  refine forEach_state (P := P) _ _ (fun i _ cont hcont => ?_) (fun _ => ?_) _ _
  · refine forEach_state (P := P) _ _ (fun i _ cont hcont => ?_) hcont _ _
    repeat (refine OR_SKIP_state (P := P) _ _ _ (hskip _) fun _ => ?_)
    exact hcont _
  · exact exec_state (P := P) (R := P) _ _ (hiter _) hnext

/-- A property of the benchmark record holds at the end of a duplex run when
it holds at every skip, at a failed assertion, through the loop and through
the code behind the loop. -/
theorem duplex_run_state {P : State → Prop} {Q : Sys → Prop} (args : Args)
    (hskip : ∀ (msg : String) (s : Sys), P s.state → Q (SkipWithError msg s))
    (hassert : ∀ s : Sys, P s.state → Q (assertFailed s))
    (hiter : ∀ (t : ℚ) (s : Sys), P s.state → P (SetIterationTime t s).state)
    (hafter : ∀ (gpu0 gpu1 : Int) (streams starts stops srcs dsts : List Nat) (bytes : Nat)
      (s : Sys), P s.state →
      Q (Duplex.afterLoop args gpu0 gpu1 streams starts stops srcs dsts bytes s)) :
    ∀ s, P s.state → Q (Duplex.Comm_Duplex_Memcpy_GPUGPU args s) := by
  unfold Duplex.Comm_Duplex_Memcpy_GPUGPU
  refine ite_state (P := P) _ _ _ (fun _ => hskip _) (fun _ => ?_)
  refine ite_state (P := P) _ _ _ (fun _ => hskip _) (fun _ => ?_)
  rcases hl : args.cuda_device_ids with _ | ⟨gpu0, _ | ⟨gpu1, t⟩⟩
  · exact hassert
  · exact hassert
  simp only []
  refine ite_state (P := P) _ _ _ (fun _ => hskip _) (fun _ => ?_)
  repeat (refine OR_SKIP_state (P := P) _ _ _ (hskip _) fun _ => ?_)
  refine call_state (P := P) _ _ fun _ _ => ?_
  refine ite_state (P := P) _ _ _ (fun _ => hskip _) (fun _ => ?_)
  repeat (refine OR_SKIP_state (P := P) _ _ _ (hskip _) fun _ => ?_)
  refine call_state (P := P) _ _ fun _ _ => ?_
  refine ite_state (P := P) _ _ _ (fun _ => hskip _) (fun _ => ?_)
  repeat (refine OR_SKIP_state (P := P) _ _ _ (hskip _) fun _ => ?_)
  exact forStateLoop_state (P := P) _ _ _
    (fun next hnext => duplex_iteration_state hskip hiter _ _ _ _ _ _ next hnext)
    (hafter _ _ _ _ _ _ _ _)

/-- C5: whichever stream's marker is earlier, the start spread
`max(elapsed(start0→start1), elapsed(start1→start0))` and the stop spread
`max(elapsed(stop0→stop1), elapsed(stop1→stop0))` are nonnegative for all
marker time stamps, and so is every `avg_start_spread` / `avg_stop_spread`
counter reported by a run of `Comm_Duplex_Memcpy_GPUGPU`. -/
theorem spread_counters_nonneg (env : Env) (args : Args) (w : World)
    (start0 start1 stop0 stop1 : Nat) :
    0 ≤ max (w.elapsed start0 start1) (w.elapsed start1 start0)
    ∧ 0 ≤ max (w.elapsed stop0 stop1) (w.elapsed stop1 stop0)
    ∧ ∀ v, (("avg_start_spread", v)
          ∈ (Duplex.Comm_Duplex_Memcpy_GPUGPU args (Sys.init env)).state.counters
        ∨ ("avg_stop_spread", v)
          ∈ (Duplex.Comm_Duplex_Memcpy_GPUGPU args (Sys.init env)).state.counters) →
        0 ≤ v := by
  refine ⟨spread_nonneg _ _ _, spread_nonneg _ _ _, ?_⟩
  have hinit : SpreadCountersNonneg (Sys.init env).state :=
    ⟨fun v hv => by simp [Sys.init] at hv⟩
  exact (duplex_run_state (P := SpreadCountersNonneg) (Q := SpreadOK) args SpreadOK_skip
    (fun s hs => ⟨SpreadCountersNonneg_of_eq s.state _ rfl hs⟩)
    (fun t s hs => SpreadCountersNonneg_of_eq s.state _ rfl hs)
    (duplex_afterLoop_spread args) (Sys.init env) hinit).ok.ok

/-! ## C10: pitched copies use the allocated pitch -/

/-- A call that is not a 3D copy and acquires no host buffer keeps `PitchInv`. -/
theorem PitchInv_step (p : Nat) (w w' : World) (c : Call) (e : cudaError)
    (henv : w'.env = w.env) (hlog : w'.log = (c, e) :: w.log)
    (hc : ∀ params stream, c = .cudaMemcpy3DAsync params stream →
      params.srcPtr.pitch = p ∧ params.dstPtr.pitch = p)
    (hacq : ∀ r ∈ w'.acquired, r ∈ w.acquired ∨ ∀ ptr bytes, r ≠ .hostMem ptr bytes)
    (h : PitchInv p w) : PitchInv p w' := by
  constructor
  · intro params stream err hmem
    rw [hlog, List.mem_cons] at hmem
    rcases hmem with heq | hmem
    · exact hc params stream (by injection heq with h1 _; exact h1.symm)
    · exact h.copies params stream err hmem
  · intro ptr bytes hmem
    rcases hacq _ hmem with h1 | h1
    · exact h.hostBufs ptr bytes h1
    · exact absurd rfl (h1 ptr bytes)
  · rw [henv]
    exact h.envPitch

theorem PitchInv_cuda_reset_device (p : Nat) (dev : Int) (w : World) (h : PitchInv p w) :
    PitchInv p (cuda_reset_device dev w).2.2 := by
  refine PitchInv_step p w _ (.cuda_reset_device dev) (w.env w.log.length (.cuda_reset_device dev)).err ?_ ?_ ?_ ?_ h
  · simp only [cuda_reset_device, World.call]
  · simp only [cuda_reset_device, World.call]
  · intro _ _ hc
    cases hc
  · intro r hr
    exact Or.inl hr

theorem PitchInv_cudaStreamCreate (p : Nat) (w : World) (h : PitchInv p w) :
    PitchInv p (cudaStreamCreate w).2.2 := by
  refine PitchInv_step p w _ (.cudaStreamCreate) (w.env w.log.length (.cudaStreamCreate)).err ?_ ?_ ?_ ?_ h
  · simp only [cudaStreamCreate, World.call, World.acquire]
    split <;> rfl
  · simp only [cudaStreamCreate, World.call, World.acquire]
    split <;> rfl
  · intro _ _ hc
    cases hc
  · intro r hr
    simp only [cudaStreamCreate, World.call, World.acquire] at hr
    split at hr
    · simp only [List.mem_cons] at hr
      rcases hr with rfl | hr
      · exact Or.inr fun _ _ hc => by cases hc
      · exact Or.inl hr
    · exact Or.inl hr

theorem PitchInv_cudaEventCreate (p : Nat) (w : World) (h : PitchInv p w) :
    PitchInv p (cudaEventCreate w).2.2 := by
  refine PitchInv_step p w _ (.cudaEventCreate) (w.env w.log.length (.cudaEventCreate)).err ?_ ?_ ?_ ?_ h
  · simp only [cudaEventCreate, World.call, World.acquire]
    split <;> rfl
  · simp only [cudaEventCreate, World.call, World.acquire]
    split <;> rfl
  · intro _ _ hc
    cases hc
  · intro r hr
    simp only [cudaEventCreate, World.call, World.acquire] at hr
    split at hr
    · simp only [List.mem_cons] at hr
      rcases hr with rfl | hr
      · exact Or.inr fun _ _ hc => by cases hc
      · exact Or.inl hr
    · exact Or.inl hr

theorem PitchInv_cudaSetDevice (p : Nat) (dev : Int) (w : World) (h : PitchInv p w) :
    PitchInv p (cudaSetDevice dev w).2.2 := by
  refine PitchInv_step p w _ (.cudaSetDevice dev) (w.env w.log.length (.cudaSetDevice dev)).err ?_ ?_ ?_ ?_ h
  · simp only [cudaSetDevice, World.call, World.release]
    split <;> rfl
  · simp only [cudaSetDevice, World.call, World.release]
    split <;> rfl
  · intro _ _ hc
    cases hc
  · intro r hr
    simp only [cudaSetDevice, World.call, World.release] at hr
    split at hr <;> exact Or.inl hr

theorem PitchInv_cudaMalloc3D (p : Nat) (extent : cudaExtent) (w : World) (h : PitchInv p w) :
    PitchInv p (cudaMalloc3D extent w).2.2 := by
  refine PitchInv_step p w _ (.cudaMalloc3D extent) (w.env w.log.length (.cudaMalloc3D extent)).err ?_ ?_ ?_ ?_ h
  · simp only [cudaMalloc3D, World.call, World.acquire]
    split <;> rfl
  · simp only [cudaMalloc3D, World.call, World.acquire]
    split <;> rfl
  · intro _ _ hc
    cases hc
  · intro r hr
    simp only [cudaMalloc3D, World.call, World.acquire] at hr
    split at hr
    · simp only [List.mem_cons] at hr
      rcases hr with rfl | hr
      · exact Or.inr fun _ _ hc => by cases hc
      · exact Or.inl hr
    · exact Or.inl hr

theorem PitchInv_cudaMemset3D (p : Nat) (q : cudaPitchedPtr) (value : Nat) (extent : cudaExtent) (w : World) (h : PitchInv p w) :
    PitchInv p (cudaMemset3D q value extent w).2.2 := by
  refine PitchInv_step p w _ (.cudaMemset3D q value extent) (w.env w.log.length (.cudaMemset3D q value extent)).err ?_ ?_ ?_ ?_ h
  · simp only [cudaMemset3D, World.call]
  · simp only [cudaMemset3D, World.call]
  · intro _ _ hc
    cases hc
  · intro r hr
    exact Or.inl hr

theorem PitchInv_cudaHostRegister (p : Nat) (ptr bytes : Nat) (w : World) (h : PitchInv p w) :
    PitchInv p (cudaHostRegister ptr bytes w).2.2 := by
  refine PitchInv_step p w _ (.cudaHostRegister ptr bytes) (w.env w.log.length (.cudaHostRegister ptr bytes)).err ?_ ?_ ?_ ?_ h
  · simp only [cudaHostRegister, World.call, World.acquire]
    split <;> rfl
  · simp only [cudaHostRegister, World.call, World.acquire]
    split <;> rfl
  · intro _ _ hc
    cases hc
  · intro r hr
    simp only [cudaHostRegister, World.call, World.acquire] at hr
    split at hr
    · simp only [List.mem_cons] at hr
      rcases hr with rfl | hr
      · exact Or.inr fun _ _ hc => by cases hc
      · exact Or.inl hr
    · exact Or.inl hr

theorem PitchInv_cudaHostUnregister (p : Nat) (ptr : Nat) (w : World) (h : PitchInv p w) :
    PitchInv p (cudaHostUnregister ptr w).2.2 := by
  refine PitchInv_step p w _ (.cudaHostUnregister ptr) (w.env w.log.length (.cudaHostUnregister ptr)).err ?_ ?_ ?_ ?_ h
  · simp only [cudaHostUnregister, World.call, World.release]
    split <;> rfl
  · simp only [cudaHostUnregister, World.call, World.release]
    split <;> rfl
  · intro _ _ hc
    cases hc
  · intro r hr
    simp only [cudaHostUnregister, World.call, World.release] at hr
    split at hr <;> exact Or.inl hr

theorem PitchInv_cudaEventRecord (p : Nat) (event stream : Nat) (w : World) (h : PitchInv p w) :
    PitchInv p (cudaEventRecord event stream w).2.2 := by
  refine PitchInv_step p w _ (.cudaEventRecord event stream) (w.env w.log.length (.cudaEventRecord event stream)).err ?_ ?_ ?_ ?_ h
  · simp only [cudaEventRecord, World.call, World.release]
    split <;> rfl
  · simp only [cudaEventRecord, World.call, World.release]
    split <;> rfl
  · intro _ _ hc
    cases hc
  · intro r hr
    simp only [cudaEventRecord, World.call, World.release] at hr
    split at hr <;> exact Or.inl hr

theorem PitchInv_cudaEventSynchronize (p : Nat) (event : Nat) (w : World) (h : PitchInv p w) :
    PitchInv p (cudaEventSynchronize event w).2.2 := by
  refine PitchInv_step p w _ (.cudaEventSynchronize event) (w.env w.log.length (.cudaEventSynchronize event)).err ?_ ?_ ?_ ?_ h
  · simp only [cudaEventSynchronize, World.call]
  · simp only [cudaEventSynchronize, World.call]
  · intro _ _ hc
    cases hc
  · intro r hr
    exact Or.inl hr

theorem PitchInv_cudaEventElapsedTime (p : Nat) (start stop : Nat) (w : World) (h : PitchInv p w) :
    PitchInv p (cudaEventElapsedTime start stop w).2.2 := by
  refine PitchInv_step p w _ (.cudaEventElapsedTime start stop) (w.env w.log.length (.cudaEventElapsedTime start stop)).err ?_ ?_ ?_ ?_ h
  · simp only [cudaEventElapsedTime, World.call]
  · simp only [cudaEventElapsedTime, World.call]
  · intro _ _ hc
    cases hc
  · intro r hr
    exact Or.inl hr

theorem PitchInv_cudaEventDestroy (p : Nat) (event : Nat) (w : World) (h : PitchInv p w) :
    PitchInv p (cudaEventDestroy event w).2.2 := by
  refine PitchInv_step p w _ (.cudaEventDestroy event) (w.env w.log.length (.cudaEventDestroy event)).err ?_ ?_ ?_ ?_ h
  · simp only [cudaEventDestroy, World.call, World.release]
    split <;> rfl
  · simp only [cudaEventDestroy, World.call, World.release]
    split <;> rfl
  · intro _ _ hc
    cases hc
  · intro r hr
    simp only [cudaEventDestroy, World.call, World.release] at hr
    split at hr <;> exact Or.inl hr

theorem PitchInv_cudaStreamDestroy (p : Nat) (stream : Nat) (w : World) (h : PitchInv p w) :
    PitchInv p (cudaStreamDestroy stream w).2.2 := by
  refine PitchInv_step p w _ (.cudaStreamDestroy stream) (w.env w.log.length (.cudaStreamDestroy stream)).err ?_ ?_ ?_ ?_ h
  · simp only [cudaStreamDestroy, World.call, World.release]
    split <;> rfl
  · simp only [cudaStreamDestroy, World.call, World.release]
    split <;> rfl
  · intro _ _ hc
    cases hc
  · intro r hr
    simp only [cudaStreamDestroy, World.call, World.release] at hr
    split at hr <;> exact Or.inl hr

theorem PitchInv_cudaFree (p : Nat) (ptr : Nat) (w : World) (h : PitchInv p w) :
    PitchInv p (cudaFree ptr w).2.2 := by
  refine PitchInv_step p w _ (.cudaFree ptr) (w.env w.log.length (.cudaFree ptr)).err ?_ ?_ ?_ ?_ h
  · simp only [cudaFree, World.call, World.release]
    split <;> rfl
  · simp only [cudaFree, World.call, World.release]
    split <;> rfl
  · intro _ _ hc
    cases hc
  · intro r hr
    simp only [cudaFree, World.call, World.release] at hr
    split at hr <;> exact Or.inl hr

theorem PitchInv_cudaMemcpy3DAsync (p : Nat) (params : cudaMemcpy3DParms) (stream : Nat)
    (hparams : params.srcPtr.pitch = p ∧ params.dstPtr.pitch = p) (w : World)
    (h : PitchInv p w) : PitchInv p (cudaMemcpy3DAsync params stream w).2.2 := by
  refine PitchInv_step p w _ (.cudaMemcpy3DAsync params stream)
    (w.env w.log.length (.cudaMemcpy3DAsync params stream)).err ?_ ?_ ?_ ?_ h
  · simp only [cudaMemcpy3DAsync, World.call]
  · simp only [cudaMemcpy3DAsync, World.call]
  · intro _ _ hc
    injection hc with h1 _
    rw [← h1]
    exact hparams
  · intro r hr
    exact Or.inl hr

/-! ### Rules for properties of the whole state -/

section SysRules
variable {α β : Type} {J Q : Sys → Prop}

theorem call_sys (R : cudaError → α → Prop) (stmt : API α) (k : cudaError → α → Sys → Sys)
    (hstmt : ∀ s, J s →
      J { s with world := (stmt s.world).2.2 } ∧ R (stmt s.world).1 (stmt s.world).2.1)
    (hk : ∀ e a, R e a → ∀ s, J s → Q (k e a s)) : ∀ s, J s → Q (call stmt k s) := by
  intro s hs
  rw [call_apply]
  exact hk _ _ (hstmt s hs).2 _ (hstmt s hs).1

theorem OR_SKIP_sys (R : α → Prop) (stmt : API α) (msg : String) (k : α → Sys → Sys)
    (hstmt : ∀ s, J s → J { s with world := (stmt s.world).2.2 } ∧ R (stmt s.world).2.1)
    (hskip : ∀ s, J s → Q (SkipWithError msg s))
    (hk : ∀ a, R a → ∀ s, J s → Q (k a s)) : ∀ s, J s → Q (OR_SKIP stmt msg k s) := by
  intro s hs
  rw [OR_SKIP_apply]
  split
  · exact hskip _ (hstmt s hs).1
  · exact hk _ (hstmt s hs).2 _ (hstmt s hs).1

theorem OR_SKIP_AND_BREAK_sys (R : α → Prop) (stmt : API α) (msg : String)
    (after : Sys → Sys) (k : α → Sys → Sys)
    (hstmt : ∀ s, J s → J { s with world := (stmt s.world).2.2 } ∧ R (stmt s.world).2.1)
    (hskip : ∀ s, J s → Q (after (SkipWithError msg s)))
    (hk : ∀ a, R a → ∀ s, J s → Q (k a s)) :
    ∀ s, J s → Q (OR_SKIP_AND_BREAK stmt msg after k s) := by
  intro s hs
  rw [OR_SKIP_AND_BREAK_apply]
  split
  · exact hskip _ (hstmt s hs).1
  · exact hk _ (hstmt s hs).2 _ (hstmt s hs).1

theorem hostAlloc_sys (bytes : Nat) (k : Nat → Sys → Sys)
    (hstmt : ∀ s, J s → J { s with world := (s.world.hostAlloc bytes).2 })
    (hk : ∀ a s, J s → Q (k a s)) : ∀ s, J s → Q (hostAlloc bytes k s) := by
  intro s hs
  rw [hostAlloc_apply]
  exact hk _ _ (hstmt s hs)

theorem execW_sys (f : World → World) (k : Sys → Sys)
    (hf : ∀ s, J s → J { s with world := f s.world })
    (hk : ∀ s, J s → Q (k s)) : ∀ s, J s → Q (execW f k s) := by
  intro s hs
  rw [execW_apply]
  exact hk _ (hf s hs)

theorem exec_sys (f k : Sys → Sys) (hf : ∀ s, J s → J (f s)) (hk : ∀ s, J s → Q (k s)) :
    ∀ s, J s → Q (exec f k s) := by
  intro s hs
  rw [exec_apply]
  exact hk _ (hf s hs)

theorem forState_sys (body : (Sys → Sys) → Sys → Sys) (after : Sys → Sys)
    (hbody : ∀ next, (∀ s, J s → Q (next s)) → ∀ s, J s → Q (body next s))
    (hafter : ∀ s, J s → Q (after s)) :
    ∀ (n : Nat) (s : Sys), J s → Q (forState body after n s)
  | 0, s, hs => by
    rw [forState_zero]
    exact hafter s hs
  | n + 1, s, hs => by
    rw [forState_succ]
    exact hbody _ (fun s hs => forState_sys body after hbody hafter n s hs) s hs

theorem forStateLoop_sys (args : Args) (body : (Sys → Sys) → Sys → Sys) (after : Sys → Sys)
    (hbody : ∀ next, (∀ s, J s → Q (next s)) → ∀ s, J s → Q (body next s))
    (hafter : ∀ s, J s → Q (after s)) : ∀ s, J s → Q (forStateLoop args body after s) := by
  intro s hs
  rw [forStateLoop_apply]
  exact forState_sys body after hbody hafter _ s hs

end SysRules

theorem threeD_afterLoop_pitch (p : Nat) (args : Args) (numaId cudaId : Int)
    (stream start stop : Nat) (src dst : cudaPitchedPtr) (copyBytes : Nat) :
    ∀ s, PitchOK p s → PitchOK p
      (ThreeD.afterLoop args numaId cudaId stream start stop src dst copyBytes s) := by
  have hskip : ∀ (msg : String) (s : Sys), PitchOK p s → PitchOK p (SkipWithError msg s) :=
    fun _ _ h => ⟨h.ok⟩
  unfold ThreeD.afterLoop
  repeat (refine exec_sys (J := PitchOK p) (Q := PitchOK p) _ _ (fun s h => ⟨h.ok⟩) ?_)
  refine OR_SKIP_sys (J := PitchOK p) (Q := PitchOK p) (fun _ => True) _ _ _
    (fun s h => ⟨⟨PitchInv_cudaHostUnregister p _ _ h.ok⟩, trivial⟩) (hskip _) fun _ _ => ?_
  refine execW_sys (J := PitchOK p) (Q := PitchOK p) _ _
    (fun s h => ⟨⟨h.ok.copies, h.ok.hostBufs, h.ok.envPitch⟩⟩) ?_
  refine OR_SKIP_sys (J := PitchOK p) (Q := PitchOK p) (fun _ => True) _ _ _
    (fun s h => ⟨⟨PitchInv_cudaEventDestroy p _ _ h.ok⟩, trivial⟩) (hskip _) fun _ _ => ?_
  refine OR_SKIP_sys (J := PitchOK p) (Q := PitchOK p) (fun _ => True) _ _ _
    (fun s h => ⟨⟨PitchInv_cudaEventDestroy p _ _ h.ok⟩, trivial⟩) (hskip _) fun _ _ => ?_
  refine OR_SKIP_sys (J := PitchOK p) (Q := PitchOK p) (fun _ => True) _ _ _
    (fun s h => ⟨⟨PitchInv_cudaStreamDestroy p _ _ h.ok⟩, trivial⟩) (hskip _) fun _ _ => ?_
  refine OR_SKIP_sys (J := PitchOK p) (Q := PitchOK p) (fun _ => True) _ _ _
    (fun s h => ⟨⟨PitchInv_cudaFree p _ _ h.ok⟩, trivial⟩) (hskip _) fun _ _ => ?_
  exact fun s h => h

theorem threeD_iteration_pitch (p : Nat) (params : cudaMemcpy3DParms) (stream start stop : Nat)
    (hparams : params.srcPtr.pitch = p ∧ params.dstPtr.pitch = p)
    (after next : Sys → Sys) (hafter : ∀ s, PitchOK p s → PitchOK p (after s))
    (hnext : ∀ s, PitchOK p s → PitchOK p (next s)) :
    ∀ s, PitchOK p s → PitchOK p (ThreeD.iteration params stream start stop after next s) := by
  have hskip : ∀ (msg : String) (s : Sys), PitchOK p s →
      PitchOK p (after (SkipWithError msg s)) :=
    fun _ _ h => hafter _ ⟨h.ok⟩
  unfold ThreeD.iteration
  refine OR_SKIP_AND_BREAK_sys (J := PitchOK p) (Q := PitchOK p) (fun _ => True) _ _ _ _
    (fun s h => ⟨⟨PitchInv_cudaEventRecord p _ _ _ h.ok⟩, trivial⟩) (hskip _) fun _ _ => ?_
  refine OR_SKIP_AND_BREAK_sys (J := PitchOK p) (Q := PitchOK p) (fun _ => True) _ _ _ _
    (fun s h => ⟨⟨PitchInv_cudaMemcpy3DAsync p _ _ hparams _ h.ok⟩, trivial⟩) (hskip _)
    fun _ _ => ?_
  refine OR_SKIP_AND_BREAK_sys (J := PitchOK p) (Q := PitchOK p) (fun _ => True) _ _ _ _
    (fun s h => ⟨⟨PitchInv_cudaEventRecord p _ _ _ h.ok⟩, trivial⟩) (hskip _) fun _ _ => ?_
  refine OR_SKIP_AND_BREAK_sys (J := PitchOK p) (Q := PitchOK p) (fun _ => True) _ _ _ _
    (fun s h => ⟨⟨PitchInv_cudaEventSynchronize p _ _ h.ok⟩, trivial⟩) (hskip _) fun _ _ => ?_
  refine OR_SKIP_AND_BREAK_sys (J := PitchOK p) (Q := PitchOK p) (fun _ => True) _ _ _ _
    (fun s h => ⟨⟨PitchInv_cudaEventElapsedTime p _ _ _ h.ok⟩, trivial⟩) (hskip _)
    fun _ _ => ?_
  exact exec_sys (J := PitchOK p) (Q := PitchOK p) _ _ (fun s h => ⟨h.ok⟩) hnext

theorem threeD_run_pitch (p : Nat) (args : Args) (numaId cudaId : Int)
    (hsz : p * 512 * 512 < 2 ^ 64) :
    ∀ s, PitchOK p s →
      PitchOK p (ThreeD.Comm_3d_cudaMemcpy2DAsync_NUMAToGPU args numaId cudaId s) := by
  have hskip : ∀ (msg : String) (s : Sys), PitchOK p s → PitchOK p (SkipWithError msg s) :=
    fun _ _ h => ⟨h.ok⟩
  have h1 : p * 512 % 2 ^ 64 = p * 512 := Nat.mod_eq_of_lt (by omega)
  have hbytes : size_t (size_t (p * 512) * 512) = p * 512 * 512 := by
    unfold size_t
    rw [h1, Nat.mod_eq_of_lt hsz]
  unfold ThreeD.Comm_3d_cudaMemcpy2DAsync_NUMAToGPU
  refine execW_sys (J := PitchOK p) (Q := PitchOK p) _ _
    (fun s h => ⟨⟨h.ok.copies, h.ok.hostBufs, h.ok.envPitch⟩⟩) ?_
  refine OR_SKIP_sys (J := PitchOK p) (Q := PitchOK p) (fun _ => True) _ _ _
    (fun s h => ⟨⟨PitchInv_cuda_reset_device p _ _ h.ok⟩, trivial⟩) (hskip _) fun _ _ => ?_
  refine OR_SKIP_sys (J := PitchOK p) (Q := PitchOK p) (fun _ => True) _ _ _
    (fun s h => ⟨⟨PitchInv_cudaStreamCreate p _ h.ok⟩, trivial⟩) (hskip _) fun stream _ => ?_
  refine OR_SKIP_sys (J := PitchOK p) (Q := PitchOK p) (fun _ => True) _ _ _
    (fun s h => ⟨⟨PitchInv_cudaEventCreate p _ h.ok⟩, trivial⟩) (hskip _) fun start _ => ?_
  refine OR_SKIP_sys (J := PitchOK p) (Q := PitchOK p) (fun _ => True) _ _ _
    (fun s h => ⟨⟨PitchInv_cudaEventCreate p _ h.ok⟩, trivial⟩) (hskip _) fun stop _ => ?_
  refine OR_SKIP_sys (J := PitchOK p) (Q := PitchOK p) (fun _ => True) _ _ _
    (fun s h => ⟨⟨PitchInv_cudaSetDevice p _ _ h.ok⟩, trivial⟩) (hskip _) fun _ _ => ?_
  refine OR_SKIP_sys (J := PitchOK p) (Q := PitchOK p) (fun dst => dst.pitch = p) _ _ _
    (fun s h => ⟨⟨PitchInv_cudaMalloc3D p _ _ h.ok⟩, h.ok.envPitch _ _⟩) (hskip _)
    fun dst hdst => ?_
  simp only [hdst, hbytes]
  refine OR_SKIP_sys (J := PitchOK p) (Q := PitchOK p) (fun _ => True) _ _ _
    (fun s h => ⟨⟨PitchInv_cudaMemset3D p _ _ _ _ h.ok⟩, trivial⟩) (hskip _) fun _ _ => ?_
  refine hostAlloc_sys (J := PitchOK p) (Q := PitchOK p) _ _ (fun s h => ⟨⟨h.ok.copies, ?_,
    h.ok.envPitch⟩⟩) fun srcPtr => ?_
  · intro ptr bytes hmem
    simp only [World.hostAlloc, World.acquire, List.mem_cons, Resource.hostMem.injEq] at hmem
    rcases hmem with ⟨_, hb⟩ | hmem
    · exact hb
    · exact h.ok.hostBufs ptr bytes hmem
  refine OR_SKIP_sys (J := PitchOK p) (Q := PitchOK p) (fun _ => True) _ _ _
    (fun s h => ⟨⟨PitchInv_cudaHostRegister p _ _ _ h.ok⟩, trivial⟩) (hskip _) fun _ _ => ?_
  exact forStateLoop_sys (J := PitchOK p) (Q := PitchOK p) _ _ _
    (fun next hnext => threeD_iteration_pitch p _ _ _ _ ⟨rfl, hdst⟩ _ next
      (threeD_afterLoop_pitch p _ _ _ _ _ _ _ _ _) hnext)
    (threeD_afterLoop_pitch p _ _ _ _ _ _ _ _ _)

/-- C10: when the device runtime answers the pitched allocation of
`Comm_3d_cudaMemcpy2DAsync_NUMAToGPU` with pitch `p` (and the `p * 512 * 512`
bytes of that allocation fit `size_t`), every copy descriptor passed to
`cudaMemcpy3DAsync` carries pitch `p` for both the source and the destination
endpoint, and the host source buffer has `p * 512 * 512` bytes. -/
theorem pitched_copy_uses_allocated_pitch (env : Env) (args : Args) (numaId cudaId : Int)
    (p : Nat) (hp : ∀ k ext, (env k (.cudaMalloc3D ext)).pitch = p)
    (hsz : p * 512 * 512 < 2 ^ 64) :
    (∀ params stream err, (Call.cudaMemcpy3DAsync params stream, err)
        ∈ (ThreeD.Comm_3d_cudaMemcpy2DAsync_NUMAToGPU args numaId cudaId
            (Sys.init env)).world.log →
      params.srcPtr.pitch = p ∧ params.dstPtr.pitch = p)
    ∧ (∀ ptr bytes, Resource.hostMem ptr bytes
        ∈ (ThreeD.Comm_3d_cudaMemcpy2DAsync_NUMAToGPU args numaId cudaId
            (Sys.init env)).world.acquired →
      bytes = p * 512 * 512) := by
  have hinit : PitchOK p (Sys.init env) :=
    ⟨⟨fun _ _ _ h => by simp [Sys.init, World.init] at h,
      fun _ _ h => by simp [Sys.init, World.init] at h, hp⟩⟩
  have h := (threeD_run_pitch p args numaId cudaId hsz (Sys.init env) hinit).ok
  exact ⟨h.copies, h.hostBufs⟩

/-- The sample 3D run with pitch 1024 acquires, in this order, a stream, two
events, a pitched device allocation and a host buffer of `1024 * 512 * 512`
bytes, which it registers. -/
theorem threeD_sample_acquired :
    (ThreeD.Comm_3d_cudaMemcpy2DAsync_NUMAToGPU sampleArgs 0 0 (Sys.init pitchEnv)).world.acquired
      = [.hostRegistration 5, .hostMem 5 (1024 * 512 * 512),
         .deviceMem 4 0 (1024 * 512 * 512), .event 3, .event 2, .stream 1] := by
  simp only [ThreeD.Comm_3d_cudaMemcpy2DAsync_NUMAToGPU, ThreeD.iteration, ThreeD.afterLoop,
    sampleArgs, Sys.init, World.init, pitchEnv, OR_SKIP_apply, OR_SKIP_AND_BREAK_apply,
    exec_apply, execW_apply, hostAlloc_apply, forStateLoop_apply, forState_zero, forState_succ,
    cuda_reset_device, cudaStreamCreate, cudaEventCreate, cudaSetDevice, cudaMalloc3D,
    cudaMemset3D, cudaHostRegister, cudaHostUnregister, cudaEventRecord, cudaMemcpy3DAsync,
    cudaEventSynchronize, cudaEventElapsedTime, cudaEventDestroy, cudaStreamDestroy, cudaFree,
    World.call, World.acquire, World.release, World.hostAlloc, World.hostFree,
    World.numa_bind_node, SetIterationTime, SetBytesProcessed, setCounter, size_t, ne_eq,
    not_true_eq_false, not_false_eq_true, Bool.false_eq_true, reduceCtorEq, ↓reduceIte,
    Option.isSome, id]
  norm_num

/-- C10 at a concrete input: a device runtime that pads the 512-byte rows to
a pitch of 1024 bytes. -/
theorem pitched_copy_uses_allocated_pitch_witness :
    (∀ k ext, (pitchEnv k (.cudaMalloc3D ext)).pitch = 1024)
    ∧ 1024 * 512 * 512 < 2 ^ 64
    ∧ (∀ params stream err, (Call.cudaMemcpy3DAsync params stream, err)
        ∈ (ThreeD.Comm_3d_cudaMemcpy2DAsync_NUMAToGPU sampleArgs 0 0
            (Sys.init pitchEnv)).world.log →
      params.srcPtr.pitch = 1024 ∧ params.dstPtr.pitch = 1024)
    ∧ (∀ ptr bytes, Resource.hostMem ptr bytes
        ∈ (ThreeD.Comm_3d_cudaMemcpy2DAsync_NUMAToGPU sampleArgs 0 0
            (Sys.init pitchEnv)).world.acquired →
      bytes = 1024 * 512 * 512) :=
  ⟨fun _ _ => rfl, by norm_num,
    pitched_copy_uses_allocated_pitch pitchEnv sampleArgs 0 0 1024 (fun _ _ => rfl)
      (by norm_num)⟩

/-! ## C8: NUMA binding at return -/

theorem numa_cuda_reset_device (dev : Int) (w : World) : (cuda_reset_device dev w).2.2.numa = w.numa := by
  simp only [cuda_reset_device, World.call]

theorem numa_cudaStreamCreate (w : World) : (cudaStreamCreate w).2.2.numa = w.numa := by
  simp only [cudaStreamCreate, World.call, World.acquire, World.release]
  split <;> rfl

theorem numa_cudaEventCreate (w : World) : (cudaEventCreate w).2.2.numa = w.numa := by
  simp only [cudaEventCreate, World.call, World.acquire, World.release]
  split <;> rfl

theorem numa_cudaSetDevice (dev : Int) (w : World) : (cudaSetDevice dev w).2.2.numa = w.numa := by
  simp only [cudaSetDevice, World.call, World.acquire, World.release]
  split <;> rfl

theorem numa_cudaMalloc (bytes : Nat) (w : World) : (cudaMalloc bytes w).2.2.numa = w.numa := by
  simp only [cudaMalloc, World.call, World.acquire, World.release]
  split <;> rfl

theorem numa_cudaMalloc3D (extent : cudaExtent) (w : World) : (cudaMalloc3D extent w).2.2.numa = w.numa := by
  simp only [cudaMalloc3D, World.call, World.acquire, World.release]
  split <;> rfl

theorem numa_cudaMemset (ptr value bytes : Nat) (w : World) : (cudaMemset ptr value bytes w).2.2.numa = w.numa := by
  simp only [cudaMemset, World.call]

theorem numa_cudaMemset3D (q : cudaPitchedPtr) (value : Nat) (extent : cudaExtent) (w : World) : (cudaMemset3D q value extent w).2.2.numa = w.numa := by
  simp only [cudaMemset3D, World.call]

theorem numa_cudaHostRegister (ptr bytes : Nat) (w : World) : (cudaHostRegister ptr bytes w).2.2.numa = w.numa := by
  simp only [cudaHostRegister, World.call, World.acquire, World.release]
  split <;> rfl

theorem numa_cudaHostUnregister (ptr : Nat) (w : World) : (cudaHostUnregister ptr w).2.2.numa = w.numa := by
  simp only [cudaHostUnregister, World.call, World.acquire, World.release]
  split <;> rfl

theorem numa_cudaEventRecord (event stream : Nat) (w : World) : (cudaEventRecord event stream w).2.2.numa = w.numa := by
  simp only [cudaEventRecord, World.call, World.acquire, World.release]
  split <;> rfl

theorem numa_cudaMemcpy (dst src bytes : Nat) (kind : cudaMemcpyKind) (w : World) : (cudaMemcpy dst src bytes kind w).2.2.numa = w.numa := by
  simp only [cudaMemcpy, World.call]

theorem numa_cudaMemcpy3DAsync (params : cudaMemcpy3DParms) (stream : Nat) (w : World) : (cudaMemcpy3DAsync params stream w).2.2.numa = w.numa := by
  simp only [cudaMemcpy3DAsync, World.call]

theorem numa_cudaEventSynchronize (event : Nat) (w : World) : (cudaEventSynchronize event w).2.2.numa = w.numa := by
  simp only [cudaEventSynchronize, World.call]

theorem numa_cudaEventElapsedTime (start stop : Nat) (w : World) : (cudaEventElapsedTime start stop w).2.2.numa = w.numa := by
  simp only [cudaEventElapsedTime, World.call]

theorem numa_cudaEventDestroy (event : Nat) (w : World) : (cudaEventDestroy event w).2.2.numa = w.numa := by
  simp only [cudaEventDestroy, World.call, World.acquire, World.release]
  split <;> rfl

theorem numa_cudaStreamDestroy (stream : Nat) (w : World) : (cudaStreamDestroy stream w).2.2.numa = w.numa := by
  simp only [cudaStreamDestroy, World.call, World.acquire, World.release]
  split <;> rfl

theorem numa_cudaFree (ptr : Nat) (w : World) : (cudaFree ptr w).2.2.numa = w.numa := by
  simp only [cudaFree, World.call, World.acquire, World.release]
  split <;> rfl

theorem BoundTo_step (node : Int) (s : Sys) (w : World) (hw : w.numa = s.world.numa)
    (h : BoundTo node s) : BoundTo node { s with world := w } :=
  ⟨hw.trans h.ok⟩

theorem threeD_afterLoop_numa (node : Int) (args : Args) (numaId cudaId : Int)
    (stream start stop : Nat) (src dst : cudaPitchedPtr) (copyBytes : Nat) :
    ∀ s, BoundTo node s → BoundTo node
      (ThreeD.afterLoop args numaId cudaId stream start stop src dst copyBytes s) := by
  have hskip : ∀ (msg : String) (s : Sys), BoundTo node s → BoundTo node (SkipWithError msg s) :=
    fun _ _ h => ⟨h.ok⟩
  unfold ThreeD.afterLoop
  repeat (refine exec_sys (J := BoundTo node) (Q := BoundTo node) _ _ (fun s h => ⟨h.ok⟩) ?_)
  refine OR_SKIP_sys (J := BoundTo node) (Q := BoundTo node) (fun _ => True) _ _ _
    (fun s h => ⟨BoundTo_step node s _ (numa_cudaHostUnregister _ _) h, trivial⟩) (hskip _)
    fun _ _ => ?_
  refine execW_sys (J := BoundTo node) (Q := BoundTo node) _ _ (fun s h => ⟨h.ok⟩) ?_
  refine OR_SKIP_sys (J := BoundTo node) (Q := BoundTo node) (fun _ => True) _ _ _
    (fun s h => ⟨BoundTo_step node s _ (numa_cudaEventDestroy _ _) h, trivial⟩) (hskip _)
    fun _ _ => ?_
  refine OR_SKIP_sys (J := BoundTo node) (Q := BoundTo node) (fun _ => True) _ _ _
    (fun s h => ⟨BoundTo_step node s _ (numa_cudaEventDestroy _ _) h, trivial⟩) (hskip _)
    fun _ _ => ?_
  refine OR_SKIP_sys (J := BoundTo node) (Q := BoundTo node) (fun _ => True) _ _ _
    (fun s h => ⟨BoundTo_step node s _ (numa_cudaStreamDestroy _ _) h, trivial⟩) (hskip _)
    fun _ _ => ?_
  refine OR_SKIP_sys (J := BoundTo node) (Q := BoundTo node) (fun _ => True) _ _ _
    (fun s h => ⟨BoundTo_step node s _ (numa_cudaFree _ _) h, trivial⟩) (hskip _)
    fun _ _ => ?_
  exact fun s h => h

theorem threeD_iteration_numa (node : Int) (params : cudaMemcpy3DParms)
    (stream start stop : Nat) (after next : Sys → Sys)
    (hafter : ∀ s, BoundTo node s → BoundTo node (after s))
    (hnext : ∀ s, BoundTo node s → BoundTo node (next s)) :
    ∀ s, BoundTo node s →
      BoundTo node (ThreeD.iteration params stream start stop after next s) := by
  have hskip : ∀ (msg : String) (s : Sys), BoundTo node s →
      BoundTo node (after (SkipWithError msg s)) :=
    fun _ _ h => hafter _ ⟨h.ok⟩
  unfold ThreeD.iteration
  refine OR_SKIP_AND_BREAK_sys (J := BoundTo node) (Q := BoundTo node) (fun _ => True) _ _ _ _
    (fun s h => ⟨BoundTo_step node s _ (numa_cudaEventRecord _ _ _) h, trivial⟩) (hskip _)
    fun _ _ => ?_
  refine OR_SKIP_AND_BREAK_sys (J := BoundTo node) (Q := BoundTo node) (fun _ => True) _ _ _ _
    (fun s h => ⟨BoundTo_step node s _ (numa_cudaMemcpy3DAsync _ _ _) h, trivial⟩) (hskip _)
    fun _ _ => ?_
  refine OR_SKIP_AND_BREAK_sys (J := BoundTo node) (Q := BoundTo node) (fun _ => True) _ _ _ _
    (fun s h => ⟨BoundTo_step node s _ (numa_cudaEventRecord _ _ _) h, trivial⟩) (hskip _)
    fun _ _ => ?_
  refine OR_SKIP_AND_BREAK_sys (J := BoundTo node) (Q := BoundTo node) (fun _ => True) _ _ _ _
    (fun s h => ⟨BoundTo_step node s _ (numa_cudaEventSynchronize _ _) h, trivial⟩) (hskip _)
    fun _ _ => ?_
  refine OR_SKIP_AND_BREAK_sys (J := BoundTo node) (Q := BoundTo node) (fun _ => True) _ _ _ _
    (fun s h => ⟨BoundTo_step node s _ (numa_cudaEventElapsedTime _ _ _) h, trivial⟩) (hskip _)
    fun _ _ => ?_
  exact exec_sys (J := BoundTo node) (Q := BoundTo node) _ _ (fun s h => ⟨h.ok⟩) hnext

/-- `Comm_3d_cudaMemcpy2DAsync_NUMAToGPU` returns, on every path, with the
process still bound to the NUMA node it was given. -/
theorem threeD_numa_at_return (args : Args) (numaId cudaId : Int) (s : Sys) :
    (ThreeD.Comm_3d_cudaMemcpy2DAsync_NUMAToGPU args numaId cudaId s).world.numa = numaId := by
  have hskip : ∀ (msg : String) (s : Sys), BoundTo numaId s →
      BoundTo numaId (SkipWithError msg s) := fun _ _ h => ⟨h.ok⟩
  refine BoundTo.ok (?_ : BoundTo numaId _)
  unfold ThreeD.Comm_3d_cudaMemcpy2DAsync_NUMAToGPU
  rw [execW_apply]
  have hs : BoundTo numaId { s with world := World.numa_bind_node numaId s.world } := ⟨rfl⟩
  revert hs
  generalize ({ s with world := World.numa_bind_node numaId s.world } : Sys) = s'
  revert s'
  refine OR_SKIP_sys (J := BoundTo numaId) (Q := BoundTo numaId) (fun _ => True) _ _ _
    (fun s h => ⟨BoundTo_step _ s _ (numa_cuda_reset_device _ _) h, trivial⟩) (hskip _)
    fun _ _ => ?_
  refine OR_SKIP_sys (J := BoundTo numaId) (Q := BoundTo numaId) (fun _ => True) _ _ _
    (fun s h => ⟨BoundTo_step _ s _ (numa_cudaStreamCreate _) h, trivial⟩) (hskip _)
    fun _ _ => ?_
  refine OR_SKIP_sys (J := BoundTo numaId) (Q := BoundTo numaId) (fun _ => True) _ _ _
    (fun s h => ⟨BoundTo_step _ s _ (numa_cudaEventCreate _) h, trivial⟩) (hskip _)
    fun _ _ => ?_
  refine OR_SKIP_sys (J := BoundTo numaId) (Q := BoundTo numaId) (fun _ => True) _ _ _
    (fun s h => ⟨BoundTo_step _ s _ (numa_cudaEventCreate _) h, trivial⟩) (hskip _)
    fun _ _ => ?_
  refine OR_SKIP_sys (J := BoundTo numaId) (Q := BoundTo numaId) (fun _ => True) _ _ _
    (fun s h => ⟨BoundTo_step _ s _ (numa_cudaSetDevice _ _) h, trivial⟩) (hskip _)
    fun _ _ => ?_
  refine OR_SKIP_sys (J := BoundTo numaId) (Q := BoundTo numaId) (fun _ => True) _ _ _
    (fun s h => ⟨BoundTo_step _ s _ (numa_cudaMalloc3D _ _) h, trivial⟩) (hskip _)
    fun _ _ => ?_
  refine OR_SKIP_sys (J := BoundTo numaId) (Q := BoundTo numaId) (fun _ => True) _ _ _
    (fun s h => ⟨BoundTo_step _ s _ (numa_cudaMemset3D _ _ _ _) h, trivial⟩) (hskip _)
    fun _ _ => ?_
  refine hostAlloc_sys (J := BoundTo numaId) (Q := BoundTo numaId) _ _ (fun s h => ⟨h.ok⟩)
    fun _ => ?_
  refine OR_SKIP_sys (J := BoundTo numaId) (Q := BoundTo numaId) (fun _ => True) _ _ _
    (fun s h => ⟨BoundTo_step _ s _ (numa_cudaHostRegister _ _ _) h, trivial⟩) (hskip _)
    fun _ _ => ?_
  exact forStateLoop_sys (J := BoundTo numaId) (Q := BoundTo numaId) _ _ _
    (fun next hnext => threeD_iteration_numa numaId _ _ _ _ _ next
      (threeD_afterLoop_numa numaId _ _ _ _ _ _ _ _ _) hnext)
    (threeD_afterLoop_numa numaId _ _ _ _ _ _ _ _ _)

theorem NumaReset_world (f : Sys) (w : World) (hw : w.numa = f.world.numa)
    (h : NumaReset f) : NumaReset { f with world := w } := by
  rcases h.ok with h1 | h1
  · exact ⟨Or.inl h1⟩
  · exact ⟨Or.inr (hw.trans h1)⟩

theorem NumaReset_skip (msg : String) (hmsg : msg ∈ Pinned.setupMessages) (s : Sys)
    (hs : s.state.error_message = none) : NumaReset (SkipWithError msg s) := by
  refine ⟨Or.inl ⟨msg, hmsg, ?_⟩⟩
  simp only [SkipWithError, hs]

theorem pinned_afterLoop_numa (args : Args) (bytes : Nat) (s : Sys) :
    NumaReset (Pinned.afterLoop args bytes s) := by
  refine ⟨Or.inr ?_⟩
  simp only [Pinned.afterLoop, exec_apply, execW_apply, World.numa_bind_node, id]

theorem pinned_iteration_numa (args : Args) (start stop src dst bytes : Nat)
    (next : Sys → Sys) (hnext : ∀ s, True → NumaReset (next s)) :
    ∀ s, True → NumaReset
      (Pinned.iteration start stop src dst bytes (Pinned.afterLoop args bytes) next s) := by
  have hafter : ∀ s, True → NumaReset (Pinned.afterLoop args bytes s) :=
    fun s _ => pinned_afterLoop_numa args bytes s
  unfold Pinned.iteration
  repeat (refine call_state (P := fun _ => True) _ _ fun _ _ => ?_)
  refine exec_state (P := fun _ => True) (R := fun _ => True) _ _ (fun _ _ => trivial) ?_
  refine ite_state (P := fun _ => True) _ _ _ (fun _ => ?_) (fun _ => ?_)
  · exact exec_state (P := fun _ => True) (R := fun _ => True) _ _ (fun _ _ => trivial) hafter
  refine call_state (P := fun _ => True) _ _ fun _ _ => ?_
  refine ite_state (P := fun _ => True) _ _ _ (fun _ => ?_) (fun _ => ?_)
  · exact exec_state (P := fun _ => True) (R := fun _ => True) _ _ (fun _ _ => trivial) hafter
  · exact exec_state (P := fun _ => True) (R := fun _ => True) _ _ (fun _ _ => trivial) hnext

/-- Unless `Comm_NUMAMemcpy_PinnedToGPU` is skipped during its setup, it
returns with the process bound to "any node". -/
theorem pinned_numa_at_return (args : Args) (s : Sys) (hs : s.state.error_message = none)
    (hnuma : s.world.numa = -1) : NumaReset (Pinned.Comm_NUMAMemcpy_PinnedToGPU args s) := by
  have hskip : ∀ (msg : String), msg ∈ Pinned.setupMessages → ∀ (s : Sys),
      s.state.error_message = none → NumaReset (SkipWithError msg s) := NumaReset_skip
  have hcall : ∀ (stmt : API Unit), (∀ w, (stmt w).2.2.numa = w.numa) → ∀ (f : Sys),
      NumaReset f → NumaReset (call stmt (fun _ _ => id) f) := by
    intro stmt hstmt f hf
    rw [call_apply]
    exact NumaReset_world f _ (hstmt _) hf
  have hfree : ∀ (ptr : Nat) (f : Sys),
      NumaReset f → NumaReset (execW (World.hostFree ptr) id f) := by
    intro ptr f hf
    rw [execW_apply]
    exact NumaReset_world f _ rfl hf
  unfold Pinned.Comm_NUMAMemcpy_PinnedToGPU
  by_cases h1 : (!args.has_cuda) = true
  · rw [if_pos h1]
    exact ⟨Or.inr hnuma⟩
  rw [if_neg h1]
  by_cases h2 : (!args.has_numa) = true
  · rw [if_pos h2]
    exact ⟨Or.inr hnuma⟩
  rw [if_neg h2]
  clear hnuma
  revert s
  refine execW_state (P := fun st => st.error_message = none) _ _ ?_
  refine OR_SKIP_state (P := fun st => st.error_message = none) _ _ _
    (hskip _ (by simp [Pinned.setupMessages])) fun _ => ?_
  refine hostAlloc_state (P := fun st => st.error_message = none) _ _ fun src => ?_
  refine OR_SKIP_state (P := fun st => st.error_message = none) _ _ _
    (hskip _ (by simp [Pinned.setupMessages])) fun _ => ?_
  refine defer_state (P := fun st => st.error_message = none) (M := NumaReset) _ _
    (hcall _ (numa_cudaHostUnregister _)) ?_
  refine defer_state (P := fun st => st.error_message = none) (M := NumaReset) _ _
    (hfree _) ?_
  refine OR_SKIP_state (P := fun st => st.error_message = none) _ _ _
    (hskip _ (by simp [Pinned.setupMessages])) fun _ => ?_
  refine OR_SKIP_state (P := fun st => st.error_message = none) _ _ _
    (hskip _ (by simp [Pinned.setupMessages])) fun dst => ?_
  refine defer_state (P := fun st => st.error_message = none) (M := NumaReset) _ _
    (hcall _ (numa_cudaFree _)) ?_
  refine OR_SKIP_state (P := fun st => st.error_message = none) _ _ _
    (hskip _ (by simp [Pinned.setupMessages])) fun _ => ?_
  refine call_state (P := fun st => st.error_message = none) _ _ fun _ start => ?_
  refine call_state (P := fun st => st.error_message = none) _ _ fun _ stop => ?_
  exact fun s _ => forStateLoop_state (P := fun _ => True) _ _ _
    (fun next hnext => pinned_iteration_numa args _ _ _ _ _ next hnext)
    (fun s _ => pinned_afterLoop_numa args _ s) s trivial

/-- The sample 3D run finishes without skipping. -/
theorem threeD_sample_finishes :
    (ThreeD.Comm_3d_cudaMemcpy2DAsync_NUMAToGPU sampleArgs 0 0
      (Sys.init okEnv)).state.error_message = none := by
  simp only [ThreeD.Comm_3d_cudaMemcpy2DAsync_NUMAToGPU, ThreeD.iteration, ThreeD.afterLoop,
    sampleArgs, Sys.init, World.init, okEnv, OR_SKIP_apply, OR_SKIP_AND_BREAK_apply,
    exec_apply, execW_apply, hostAlloc_apply, forStateLoop_apply, forState_zero, forState_succ,
    cuda_reset_device, cudaStreamCreate, cudaEventCreate, cudaSetDevice, cudaMalloc3D,
    cudaMemset3D, cudaHostRegister, cudaHostUnregister, cudaEventRecord, cudaMemcpy3DAsync,
    cudaEventSynchronize, cudaEventElapsedTime, cudaEventDestroy, cudaStreamDestroy, cudaFree,
    World.call, World.acquire, World.release, World.hostAlloc, World.hostFree,
    World.numa_bind_node, SetIterationTime, SetBytesProcessed, setCounter, ne_eq,
    not_true_eq_false, not_false_eq_true, Bool.false_eq_true, reduceCtorEq, ↓reduceIte,
    Option.isSome, id]

/-- C8 as stated fails: the sample run of `Comm_3d_cudaMemcpy2DAsync_NUMAToGPU`
on NUMA node 0 completes without a skip and returns still bound to node 0. -/
theorem numa_binding_reset_counterexample :
    (ThreeD.Comm_3d_cudaMemcpy2DAsync_NUMAToGPU sampleArgs 0 0
      (Sys.init okEnv)).state.error_message = none
    ∧ ¬ (ThreeD.Comm_3d_cudaMemcpy2DAsync_NUMAToGPU sampleArgs 0 0
      (Sys.init okEnv)).world.numa = -1 := by
  refine ⟨threeD_sample_finishes, ?_⟩
  rw [threeD_numa_at_return]
  decide

/-- C8, amended: `Comm_3d_cudaMemcpy2DAsync_NUMAToGPU` never resets the NUMA
binding: on every path it returns still bound to the node `numaId` it was
given.  `Comm_NUMAMemcpy_PinnedToGPU` returns with the binding reset to the
any-node value `-1` on every path that reaches its measurement loop, that is,
whenever the run is not skipped by one of its setup failures: on normal
completion and after a skip inside the loop. -/
theorem numa_binding_at_return (env : Env) (args : Args) (numaId cudaId : Int) :
    (ThreeD.Comm_3d_cudaMemcpy2DAsync_NUMAToGPU args numaId cudaId (Sys.init env)).world.numa
      = numaId
    ∧ ((∀ msg ∈ Pinned.setupMessages,
          (Pinned.Comm_NUMAMemcpy_PinnedToGPU args (Sys.init env)).state.error_message
            ≠ some msg) →
        (Pinned.Comm_NUMAMemcpy_PinnedToGPU args (Sys.init env)).world.numa = -1) := by
  refine ⟨threeD_numa_at_return args numaId cudaId _, fun h => ?_⟩
  rcases (pinned_numa_at_return args (Sys.init env) rfl rfl).ok with ⟨msg, hmsg, heq⟩ | hn
  · exact absurd heq (h msg hmsg)
  · exact hn

/-- C8, amended, at a concrete input: the sample single-path run is not skipped
and ends bound to any node; the sample 3D run on node 0 ends bound to node 0. -/
theorem numa_binding_at_return_witness :
    (∀ msg ∈ Pinned.setupMessages,
        (Pinned.Comm_NUMAMemcpy_PinnedToGPU sampleArgs (Sys.init okEnv)).state.error_message
          ≠ some msg)
    ∧ (Pinned.Comm_NUMAMemcpy_PinnedToGPU sampleArgs (Sys.init okEnv)).world.numa = -1
    ∧ (ThreeD.Comm_3d_cudaMemcpy2DAsync_NUMAToGPU sampleArgs 0 0 (Sys.init okEnv)).world.numa
        = 0 :=
  have h : ∀ msg ∈ Pinned.setupMessages,
      (Pinned.Comm_NUMAMemcpy_PinnedToGPU sampleArgs (Sys.init okEnv)).state.error_message
        ≠ some msg := fun msg _ heq => by
    rw [pinned_sample_finishes] at heq
    cases heq
  ⟨h, (numa_binding_at_return okEnv sampleArgs 0 0).2 h,
    (numa_binding_at_return okEnv sampleArgs 0 0).1⟩

/-! ## The effect of each call on the log and the environment -/

theorem err_cuda_reset_device (dev : Int) (w : World) :
    (cuda_reset_device dev w).1 = (w.env w.log.length (.cuda_reset_device dev)).err := rfl

theorem log_cuda_reset_device (dev : Int) (w : World) :
    (cuda_reset_device dev w).2.2.log = ((.cuda_reset_device dev), (w.env w.log.length (.cuda_reset_device dev)).err) :: w.log := by
  simp only [cuda_reset_device, World.call]

theorem env_cuda_reset_device (dev : Int) (w : World) : (cuda_reset_device dev w).2.2.env = w.env := by
  simp only [cuda_reset_device, World.call]

theorem err_cudaStreamCreate (w : World) :
    (cudaStreamCreate w).1 = (w.env w.log.length (.cudaStreamCreate)).err := rfl

theorem log_cudaStreamCreate (w : World) :
    (cudaStreamCreate w).2.2.log = ((.cudaStreamCreate), (w.env w.log.length (.cudaStreamCreate)).err) :: w.log := by
  simp only [cudaStreamCreate, World.call, World.acquire, World.release]
  split <;> rfl

theorem env_cudaStreamCreate (w : World) : (cudaStreamCreate w).2.2.env = w.env := by
  simp only [cudaStreamCreate, World.call, World.acquire, World.release]
  split <;> rfl

theorem err_cudaEventCreate (w : World) :
    (cudaEventCreate w).1 = (w.env w.log.length (.cudaEventCreate)).err := rfl

theorem log_cudaEventCreate (w : World) :
    (cudaEventCreate w).2.2.log = ((.cudaEventCreate), (w.env w.log.length (.cudaEventCreate)).err) :: w.log := by
  simp only [cudaEventCreate, World.call, World.acquire, World.release]
  split <;> rfl

theorem env_cudaEventCreate (w : World) : (cudaEventCreate w).2.2.env = w.env := by
  simp only [cudaEventCreate, World.call, World.acquire, World.release]
  split <;> rfl

theorem err_cudaSetDevice (dev : Int) (w : World) :
    (cudaSetDevice dev w).1 = (w.env w.log.length (.cudaSetDevice dev)).err := rfl

theorem log_cudaSetDevice (dev : Int) (w : World) :
    (cudaSetDevice dev w).2.2.log = ((.cudaSetDevice dev), (w.env w.log.length (.cudaSetDevice dev)).err) :: w.log := by
  simp only [cudaSetDevice, World.call, World.acquire, World.release]
  split <;> rfl

theorem env_cudaSetDevice (dev : Int) (w : World) : (cudaSetDevice dev w).2.2.env = w.env := by
  simp only [cudaSetDevice, World.call, World.acquire, World.release]
  split <;> rfl

theorem err_cudaMalloc (bytes : Nat) (w : World) :
    (cudaMalloc bytes w).1 = (w.env w.log.length (.cudaMalloc bytes)).err := rfl

theorem log_cudaMalloc (bytes : Nat) (w : World) :
    (cudaMalloc bytes w).2.2.log = ((.cudaMalloc bytes), (w.env w.log.length (.cudaMalloc bytes)).err) :: w.log := by
  simp only [cudaMalloc, World.call, World.acquire, World.release]
  split <;> rfl

theorem env_cudaMalloc (bytes : Nat) (w : World) : (cudaMalloc bytes w).2.2.env = w.env := by
  simp only [cudaMalloc, World.call, World.acquire, World.release]
  split <;> rfl

theorem err_cudaMalloc3D (extent : cudaExtent) (w : World) :
    (cudaMalloc3D extent w).1 = (w.env w.log.length (.cudaMalloc3D extent)).err := rfl

theorem log_cudaMalloc3D (extent : cudaExtent) (w : World) :
    (cudaMalloc3D extent w).2.2.log = ((.cudaMalloc3D extent), (w.env w.log.length (.cudaMalloc3D extent)).err) :: w.log := by
  simp only [cudaMalloc3D, World.call, World.acquire, World.release]
  split <;> rfl

theorem env_cudaMalloc3D (extent : cudaExtent) (w : World) : (cudaMalloc3D extent w).2.2.env = w.env := by
  simp only [cudaMalloc3D, World.call, World.acquire, World.release]
  split <;> rfl

theorem err_cudaMemset (ptr value bytes : Nat) (w : World) :
    (cudaMemset ptr value bytes w).1 = (w.env w.log.length (.cudaMemset ptr value bytes)).err := rfl

theorem log_cudaMemset (ptr value bytes : Nat) (w : World) :
    (cudaMemset ptr value bytes w).2.2.log = ((.cudaMemset ptr value bytes), (w.env w.log.length (.cudaMemset ptr value bytes)).err) :: w.log := by
  simp only [cudaMemset, World.call]

theorem env_cudaMemset (ptr value bytes : Nat) (w : World) : (cudaMemset ptr value bytes w).2.2.env = w.env := by
  simp only [cudaMemset, World.call]

theorem err_cudaMemset3D (q : cudaPitchedPtr) (value : Nat) (extent : cudaExtent) (w : World) :
    (cudaMemset3D q value extent w).1 = (w.env w.log.length (.cudaMemset3D q value extent)).err := rfl

theorem log_cudaMemset3D (q : cudaPitchedPtr) (value : Nat) (extent : cudaExtent) (w : World) :
    (cudaMemset3D q value extent w).2.2.log = ((.cudaMemset3D q value extent), (w.env w.log.length (.cudaMemset3D q value extent)).err) :: w.log := by
  simp only [cudaMemset3D, World.call]

theorem env_cudaMemset3D (q : cudaPitchedPtr) (value : Nat) (extent : cudaExtent) (w : World) : (cudaMemset3D q value extent w).2.2.env = w.env := by
  simp only [cudaMemset3D, World.call]

theorem err_cudaDeviceEnablePeerAccess (peer : Int) (w : World) :
    (cudaDeviceEnablePeerAccess peer w).1 = (w.env w.log.length (.cudaDeviceEnablePeerAccess peer)).err := rfl

theorem log_cudaDeviceEnablePeerAccess (peer : Int) (w : World) :
    (cudaDeviceEnablePeerAccess peer w).2.2.log = ((.cudaDeviceEnablePeerAccess peer), (w.env w.log.length (.cudaDeviceEnablePeerAccess peer)).err) :: w.log := by
  simp only [cudaDeviceEnablePeerAccess, World.call]

theorem env_cudaDeviceEnablePeerAccess (peer : Int) (w : World) : (cudaDeviceEnablePeerAccess peer w).2.2.env = w.env := by
  simp only [cudaDeviceEnablePeerAccess, World.call]

theorem err_cudaHostRegister (ptr bytes : Nat) (w : World) :
    (cudaHostRegister ptr bytes w).1 = (w.env w.log.length (.cudaHostRegister ptr bytes)).err := rfl

theorem log_cudaHostRegister (ptr bytes : Nat) (w : World) :
    (cudaHostRegister ptr bytes w).2.2.log = ((.cudaHostRegister ptr bytes), (w.env w.log.length (.cudaHostRegister ptr bytes)).err) :: w.log := by
  simp only [cudaHostRegister, World.call, World.acquire, World.release]
  split <;> rfl

theorem env_cudaHostRegister (ptr bytes : Nat) (w : World) : (cudaHostRegister ptr bytes w).2.2.env = w.env := by
  simp only [cudaHostRegister, World.call, World.acquire, World.release]
  split <;> rfl

theorem err_cudaHostUnregister (ptr : Nat) (w : World) :
    (cudaHostUnregister ptr w).1 = (w.env w.log.length (.cudaHostUnregister ptr)).err := rfl

theorem log_cudaHostUnregister (ptr : Nat) (w : World) :
    (cudaHostUnregister ptr w).2.2.log = ((.cudaHostUnregister ptr), (w.env w.log.length (.cudaHostUnregister ptr)).err) :: w.log := by
  simp only [cudaHostUnregister, World.call, World.acquire, World.release]
  split <;> rfl

theorem env_cudaHostUnregister (ptr : Nat) (w : World) : (cudaHostUnregister ptr w).2.2.env = w.env := by
  simp only [cudaHostUnregister, World.call, World.acquire, World.release]
  split <;> rfl

theorem err_cudaEventRecord (event stream : Nat) (w : World) :
    (cudaEventRecord event stream w).1 = (w.env w.log.length (.cudaEventRecord event stream)).err := rfl

theorem log_cudaEventRecord (event stream : Nat) (w : World) :
    (cudaEventRecord event stream w).2.2.log = ((.cudaEventRecord event stream), (w.env w.log.length (.cudaEventRecord event stream)).err) :: w.log := by
  simp only [cudaEventRecord, World.call, World.acquire, World.release]
  split <;> rfl

theorem env_cudaEventRecord (event stream : Nat) (w : World) : (cudaEventRecord event stream w).2.2.env = w.env := by
  simp only [cudaEventRecord, World.call, World.acquire, World.release]
  split <;> rfl

theorem err_cudaMemcpyAsync (dst src bytes : Nat) (kind : cudaMemcpyKind) (stream : Nat) (w : World) :
    (cudaMemcpyAsync dst src bytes kind stream w).1 = (w.env w.log.length (.cudaMemcpyAsync dst src bytes kind stream)).err := rfl

theorem log_cudaMemcpyAsync (dst src bytes : Nat) (kind : cudaMemcpyKind) (stream : Nat) (w : World) :
    (cudaMemcpyAsync dst src bytes kind stream w).2.2.log = ((.cudaMemcpyAsync dst src bytes kind stream), (w.env w.log.length (.cudaMemcpyAsync dst src bytes kind stream)).err) :: w.log := by
  simp only [cudaMemcpyAsync, World.call]

theorem env_cudaMemcpyAsync (dst src bytes : Nat) (kind : cudaMemcpyKind) (stream : Nat) (w : World) : (cudaMemcpyAsync dst src bytes kind stream w).2.2.env = w.env := by
  simp only [cudaMemcpyAsync, World.call]

theorem err_cudaMemcpy (dst src bytes : Nat) (kind : cudaMemcpyKind) (w : World) :
    (cudaMemcpy dst src bytes kind w).1 = (w.env w.log.length (.cudaMemcpy dst src bytes kind)).err := rfl

theorem log_cudaMemcpy (dst src bytes : Nat) (kind : cudaMemcpyKind) (w : World) :
    (cudaMemcpy dst src bytes kind w).2.2.log = ((.cudaMemcpy dst src bytes kind), (w.env w.log.length (.cudaMemcpy dst src bytes kind)).err) :: w.log := by
  simp only [cudaMemcpy, World.call]

theorem env_cudaMemcpy (dst src bytes : Nat) (kind : cudaMemcpyKind) (w : World) : (cudaMemcpy dst src bytes kind w).2.2.env = w.env := by
  simp only [cudaMemcpy, World.call]

theorem err_cudaMemcpy3DAsync (params : cudaMemcpy3DParms) (stream : Nat) (w : World) :
    (cudaMemcpy3DAsync params stream w).1 = (w.env w.log.length (.cudaMemcpy3DAsync params stream)).err := rfl

theorem log_cudaMemcpy3DAsync (params : cudaMemcpy3DParms) (stream : Nat) (w : World) :
    (cudaMemcpy3DAsync params stream w).2.2.log = ((.cudaMemcpy3DAsync params stream), (w.env w.log.length (.cudaMemcpy3DAsync params stream)).err) :: w.log := by
  simp only [cudaMemcpy3DAsync, World.call]

theorem env_cudaMemcpy3DAsync (params : cudaMemcpy3DParms) (stream : Nat) (w : World) : (cudaMemcpy3DAsync params stream w).2.2.env = w.env := by
  simp only [cudaMemcpy3DAsync, World.call]

theorem err_cudaEventSynchronize (event : Nat) (w : World) :
    (cudaEventSynchronize event w).1 = (w.env w.log.length (.cudaEventSynchronize event)).err := rfl

theorem log_cudaEventSynchronize (event : Nat) (w : World) :
    (cudaEventSynchronize event w).2.2.log = ((.cudaEventSynchronize event), (w.env w.log.length (.cudaEventSynchronize event)).err) :: w.log := by
  simp only [cudaEventSynchronize, World.call]

theorem env_cudaEventSynchronize (event : Nat) (w : World) : (cudaEventSynchronize event w).2.2.env = w.env := by
  simp only [cudaEventSynchronize, World.call]

theorem err_cudaEventElapsedTime (start stop : Nat) (w : World) :
    (cudaEventElapsedTime start stop w).1 = (w.env w.log.length (.cudaEventElapsedTime start stop)).err := rfl

theorem log_cudaEventElapsedTime (start stop : Nat) (w : World) :
    (cudaEventElapsedTime start stop w).2.2.log = ((.cudaEventElapsedTime start stop), (w.env w.log.length (.cudaEventElapsedTime start stop)).err) :: w.log := by
  simp only [cudaEventElapsedTime, World.call]

theorem env_cudaEventElapsedTime (start stop : Nat) (w : World) : (cudaEventElapsedTime start stop w).2.2.env = w.env := by
  simp only [cudaEventElapsedTime, World.call]

theorem err_cudaEventDestroy (event : Nat) (w : World) :
    (cudaEventDestroy event w).1 = (w.env w.log.length (.cudaEventDestroy event)).err := rfl

theorem log_cudaEventDestroy (event : Nat) (w : World) :
    (cudaEventDestroy event w).2.2.log = ((.cudaEventDestroy event), (w.env w.log.length (.cudaEventDestroy event)).err) :: w.log := by
  simp only [cudaEventDestroy, World.call, World.acquire, World.release]
  split <;> rfl

theorem env_cudaEventDestroy (event : Nat) (w : World) : (cudaEventDestroy event w).2.2.env = w.env := by
  simp only [cudaEventDestroy, World.call, World.acquire, World.release]
  split <;> rfl

theorem err_cudaStreamDestroy (stream : Nat) (w : World) :
    (cudaStreamDestroy stream w).1 = (w.env w.log.length (.cudaStreamDestroy stream)).err := rfl

theorem log_cudaStreamDestroy (stream : Nat) (w : World) :
    (cudaStreamDestroy stream w).2.2.log = ((.cudaStreamDestroy stream), (w.env w.log.length (.cudaStreamDestroy stream)).err) :: w.log := by
  simp only [cudaStreamDestroy, World.call, World.acquire, World.release]
  split <;> rfl

theorem env_cudaStreamDestroy (stream : Nat) (w : World) : (cudaStreamDestroy stream w).2.2.env = w.env := by
  simp only [cudaStreamDestroy, World.call, World.acquire, World.release]
  split <;> rfl

theorem err_cudaFree (ptr : Nat) (w : World) :
    (cudaFree ptr w).1 = (w.env w.log.length (.cudaFree ptr)).err := rfl

theorem log_cudaFree (ptr : Nat) (w : World) :
    (cudaFree ptr w).2.2.log = ((.cudaFree ptr), (w.env w.log.length (.cudaFree ptr)).err) :: w.log := by
  simp only [cudaFree, World.call, World.acquire, World.release]
  split <;> rfl

theorem env_cudaFree (ptr : Nat) (w : World) : (cudaFree ptr w).2.2.env = w.env := by
  simp only [cudaFree, World.call, World.acquire, World.release]
  split <;> rfl

/-! ## C9: a failing call ends the measurement loop -/

theorem take_succ_sub_cons {α : Type} (n m : Nat) (a : α) (l : List α) (h : m ≤ n) :
    List.take (n + 1 - m) (a :: l) = a :: List.take (n - m) l := by
  rw [Nat.succ_sub h]
  rfl

theorem SkipWithError_isSome (msg : String) (s : Sys) :
    (SkipWithError msg s).state.error_message.isSome = true := by
  unfold SkipWithError
  cases s.state.error_message <;> rfl

theorem SkipWithError_times (msg : String) (s : Sys) :
    (SkipWithError msg s).state.iteration_times = s.state.iteration_times := rfl

/-- In an iteration of the duplex loop in which any call returns an error, the
run returns at once (whatever the rest of the loop is), skipped with an error
and with no iteration time recorded. -/
theorem duplex_iteration_failure (s : Sys)
    (stream0 stream1 start0 start1 stop0 stop1 src0 src1 dst0 dst1 bytes : Nat) :
    (∃ e ∈ newCalls s (Duplex.iteration [stream0, stream1] [start0, start1] [stop0, stop1]
        [src0, src1] [dst0, dst1] bytes id s), e.2 ≠ .cudaSuccess) →
    (∀ next, Duplex.iteration [stream0, stream1] [start0, start1] [stop0, stop1]
        [src0, src1] [dst0, dst1] bytes next s
      = Duplex.iteration [stream0, stream1] [start0, start1] [stop0, stop1]
        [src0, src1] [dst0, dst1] bytes id s)
    ∧ (Duplex.iteration [stream0, stream1] [start0, start1] [stop0, stop1]
        [src0, src1] [dst0, dst1] bytes id s).state.error_message.isSome = true
    ∧ (Duplex.iteration [stream0, stream1] [start0, start1] [stop0, stop1]
        [src0, src1] [dst0, dst1] bytes id s).state.iteration_times
      = s.state.iteration_times := by
  intro hfail
  by_cases h0 : (s.world.env (s.world.log.length)
      (.cudaEventRecord start0 stream0)).err = .cudaSuccess
  · by_cases h1 : (s.world.env (s.world.log.length + 1)
        (.cudaMemcpyAsync dst0 src0 bytes .cudaMemcpyDeviceToDevice stream0)).err = .cudaSuccess
    · by_cases h2 : (s.world.env (s.world.log.length + 1 + 1)
          (.cudaEventRecord stop0 stream0)).err = .cudaSuccess
      · by_cases h3 : (s.world.env (s.world.log.length + 1 + 1 + 1)
            (.cudaEventRecord start1 stream1)).err = .cudaSuccess
        · by_cases h4 : (s.world.env (s.world.log.length + 1 + 1 + 1 + 1)
              (.cudaMemcpyAsync dst1 src1 bytes .cudaMemcpyDeviceToDevice stream1)).err = .cudaSuccess
          · by_cases h5 : (s.world.env (s.world.log.length + 1 + 1 + 1 + 1 + 1)
                (.cudaEventRecord stop1 stream1)).err = .cudaSuccess
            · by_cases h6 : (s.world.env (s.world.log.length + 1 + 1 + 1 + 1 + 1 + 1)
                  (.cudaEventSynchronize stop0)).err = .cudaSuccess
              · by_cases h7 : (s.world.env (s.world.log.length + 1 + 1 + 1 + 1 + 1 + 1 + 1)
                    (.cudaEventSynchronize stop1)).err = .cudaSuccess
                · by_cases h8 : (s.world.env (s.world.log.length + 1 + 1 + 1 + 1 + 1 + 1 + 1 + 1)
                      (.cudaEventElapsedTime start0 stop0)).err = .cudaSuccess
                  · by_cases h9 : (s.world.env (s.world.log.length + 1 + 1 + 1 + 1 + 1 + 1 + 1 + 1 + 1)
                        (.cudaEventElapsedTime start0 stop1)).err = .cudaSuccess
                    · by_cases h10 : (s.world.env (s.world.log.length + 1 + 1 + 1 + 1 + 1 + 1 + 1 + 1 + 1 + 1)
                          (.cudaEventElapsedTime start1 stop0)).err = .cudaSuccess
                      · by_cases h11 : (s.world.env (s.world.log.length + 1 + 1 + 1 + 1 + 1 + 1 + 1 + 1 + 1 + 1 + 1)
                            (.cudaEventElapsedTime start1 stop1)).err = .cudaSuccess
                        · exfalso
                          have key : ∀ e ∈ newCalls s
                              (Duplex.iteration [stream0, stream1] [start0, start1] [stop0, stop1] [src0, src1]
        [dst0, dst1] bytes id s),
                              e.2 = .cudaSuccess := by
                            simp only [newCalls, Duplex.iteration, forEach_nil, forEach_cons,
                              OR_SKIP_apply, exec_apply, List.range, List.range.loop,
                              List.length_nil, List.getD_cons_zero, List.getD_cons_succ,
                              zero_add, err_cudaEventRecord, log_cudaEventRecord,
                              env_cudaEventRecord, err_cudaMemcpyAsync, log_cudaMemcpyAsync,
                              env_cudaMemcpyAsync, err_cudaEventSynchronize,
                              log_cudaEventSynchronize, env_cudaEventSynchronize,
                              err_cudaEventElapsedTime, log_cudaEventElapsedTime,
                              env_cudaEventElapsedTime, err_cudaMemcpy, log_cudaMemcpy,
                              env_cudaMemcpy, err_cudaMemcpy3DAsync, log_cudaMemcpy3DAsync,
                              env_cudaMemcpy3DAsync, List.length_cons, h0, h1, h2, h3, h4, h5,
                              h6, h7, h8, h9, h10, h11, ne_eq, not_true_eq_false,
                              not_false_eq_true, ↓reduceIte, id, SetIterationTime]
                            simp (disch := omega) only [take_succ_sub_cons, Nat.sub_self, List.take_zero]
                            simp only [List.mem_cons, List.mem_singleton, List.not_mem_nil,
                              forall_eq_or_imp, forall_eq, h0, h1, h2, h3, h4, h5, h6, h7, h8,
                              h9, h10, h11, ne_eq, not_true_eq_false, Call.isCopyOrElapsed,
                              implies_true, and_self, or_false, false_implies,
                              IsEmpty.forall_iff]
                          obtain ⟨e, he, hne⟩ := hfail
                          exact hne (key e he)
                        · refine ⟨?_, ?_, ?_⟩ <;>
                            simp only [Duplex.iteration, forEach_nil, forEach_cons,
                              OR_SKIP_apply, exec_apply, List.range, List.range.loop,
                              List.length_nil, List.getD_cons_zero, List.getD_cons_succ,
                              zero_add, err_cudaEventRecord, log_cudaEventRecord,
                              env_cudaEventRecord, err_cudaMemcpyAsync, log_cudaMemcpyAsync,
                              env_cudaMemcpyAsync, err_cudaEventSynchronize,
                              log_cudaEventSynchronize, env_cudaEventSynchronize,
                              err_cudaEventElapsedTime, log_cudaEventElapsedTime,
                              env_cudaEventElapsedTime, err_cudaMemcpy, log_cudaMemcpy,
                              env_cudaMemcpy, err_cudaMemcpy3DAsync, log_cudaMemcpy3DAsync,
                              env_cudaMemcpy3DAsync, List.length_cons, h0, h1, h2, h3, h4, h5,
                              h6, h7, h8, h9, h10, h11, ne_eq, not_true_eq_false,
                              not_false_eq_true, ↓reduceIte, id, SkipWithError_isSome,
                              SkipWithError_times, implies_true]
                      · refine ⟨?_, ?_, ?_⟩ <;>
                          simp only [Duplex.iteration, forEach_nil, forEach_cons, OR_SKIP_apply,
                            exec_apply, List.range, List.range.loop, List.length_nil,
                            List.getD_cons_zero, List.getD_cons_succ, zero_add,
                            err_cudaEventRecord, log_cudaEventRecord, env_cudaEventRecord,
                            err_cudaMemcpyAsync, log_cudaMemcpyAsync, env_cudaMemcpyAsync,
                            err_cudaEventSynchronize, log_cudaEventSynchronize,
                            env_cudaEventSynchronize, err_cudaEventElapsedTime,
                            log_cudaEventElapsedTime, env_cudaEventElapsedTime, err_cudaMemcpy,
                            log_cudaMemcpy, env_cudaMemcpy, err_cudaMemcpy3DAsync,
                            log_cudaMemcpy3DAsync, env_cudaMemcpy3DAsync, List.length_cons, h0,
                            h1, h2, h3, h4, h5, h6, h7, h8, h9, h10, ne_eq, not_true_eq_false,
                            not_false_eq_true, ↓reduceIte, id, SkipWithError_isSome,
                            SkipWithError_times, implies_true]
                    · refine ⟨?_, ?_, ?_⟩ <;>
                        simp only [Duplex.iteration, forEach_nil, forEach_cons, OR_SKIP_apply,
                          exec_apply, List.range, List.range.loop, List.length_nil,
                          List.getD_cons_zero, List.getD_cons_succ, zero_add,
                          err_cudaEventRecord, log_cudaEventRecord, env_cudaEventRecord,
                          err_cudaMemcpyAsync, log_cudaMemcpyAsync, env_cudaMemcpyAsync,
                          err_cudaEventSynchronize, log_cudaEventSynchronize,
                          env_cudaEventSynchronize, err_cudaEventElapsedTime,
                          log_cudaEventElapsedTime, env_cudaEventElapsedTime, err_cudaMemcpy,
                          log_cudaMemcpy, env_cudaMemcpy, err_cudaMemcpy3DAsync,
                          log_cudaMemcpy3DAsync, env_cudaMemcpy3DAsync, List.length_cons, h0, h1,
                          h2, h3, h4, h5, h6, h7, h8, h9, ne_eq, not_true_eq_false,
                          not_false_eq_true, ↓reduceIte, id, SkipWithError_isSome,
                          SkipWithError_times, implies_true]
                  · refine ⟨?_, ?_, ?_⟩ <;>
                      simp only [Duplex.iteration, forEach_nil, forEach_cons, OR_SKIP_apply,
                        exec_apply, List.range, List.range.loop, List.length_nil,
                        List.getD_cons_zero, List.getD_cons_succ, zero_add, err_cudaEventRecord,
                        log_cudaEventRecord, env_cudaEventRecord, err_cudaMemcpyAsync,
                        log_cudaMemcpyAsync, env_cudaMemcpyAsync, err_cudaEventSynchronize,
                        log_cudaEventSynchronize, env_cudaEventSynchronize,
                        err_cudaEventElapsedTime, log_cudaEventElapsedTime,
                        env_cudaEventElapsedTime, err_cudaMemcpy, log_cudaMemcpy, env_cudaMemcpy,
                        err_cudaMemcpy3DAsync, log_cudaMemcpy3DAsync, env_cudaMemcpy3DAsync,
                        List.length_cons, h0, h1, h2, h3, h4, h5, h6, h7, h8, ne_eq,
                        not_true_eq_false, not_false_eq_true, ↓reduceIte, id,
                        SkipWithError_isSome, SkipWithError_times, implies_true]
                · refine ⟨?_, ?_, ?_⟩ <;>
                    simp only [Duplex.iteration, forEach_nil, forEach_cons, OR_SKIP_apply,
                      exec_apply, List.range, List.range.loop, List.length_nil,
                      List.getD_cons_zero, List.getD_cons_succ, zero_add, err_cudaEventRecord,
                      log_cudaEventRecord, env_cudaEventRecord, err_cudaMemcpyAsync,
                      log_cudaMemcpyAsync, env_cudaMemcpyAsync, err_cudaEventSynchronize,
                      log_cudaEventSynchronize, env_cudaEventSynchronize,
                      err_cudaEventElapsedTime, log_cudaEventElapsedTime,
                      env_cudaEventElapsedTime, err_cudaMemcpy, log_cudaMemcpy, env_cudaMemcpy,
                      err_cudaMemcpy3DAsync, log_cudaMemcpy3DAsync, env_cudaMemcpy3DAsync,
                      List.length_cons, h0, h1, h2, h3, h4, h5, h6, h7, ne_eq, not_true_eq_false,
                      not_false_eq_true, ↓reduceIte, id, SkipWithError_isSome,
                      SkipWithError_times, implies_true]
              · refine ⟨?_, ?_, ?_⟩ <;>
                  simp only [Duplex.iteration, forEach_nil, forEach_cons, OR_SKIP_apply,
                    exec_apply, List.range, List.range.loop, List.length_nil,
                    List.getD_cons_zero, List.getD_cons_succ, zero_add, err_cudaEventRecord,
                    log_cudaEventRecord, env_cudaEventRecord, err_cudaMemcpyAsync,
                    log_cudaMemcpyAsync, env_cudaMemcpyAsync, err_cudaEventSynchronize,
                    log_cudaEventSynchronize, env_cudaEventSynchronize, err_cudaEventElapsedTime,
                    log_cudaEventElapsedTime, env_cudaEventElapsedTime, err_cudaMemcpy,
                    log_cudaMemcpy, env_cudaMemcpy, err_cudaMemcpy3DAsync, log_cudaMemcpy3DAsync,
                    env_cudaMemcpy3DAsync, List.length_cons, h0, h1, h2, h3, h4, h5, h6, ne_eq,
                    not_true_eq_false, not_false_eq_true, ↓reduceIte, id, SkipWithError_isSome,
                    SkipWithError_times, implies_true]
            · refine ⟨?_, ?_, ?_⟩ <;>
                simp only [Duplex.iteration, forEach_nil, forEach_cons, OR_SKIP_apply,
                  exec_apply, List.range, List.range.loop, List.length_nil, List.getD_cons_zero,
                  List.getD_cons_succ, zero_add, err_cudaEventRecord, log_cudaEventRecord,
                  env_cudaEventRecord, err_cudaMemcpyAsync, log_cudaMemcpyAsync,
                  env_cudaMemcpyAsync, err_cudaEventSynchronize, log_cudaEventSynchronize,
                  env_cudaEventSynchronize, err_cudaEventElapsedTime, log_cudaEventElapsedTime,
                  env_cudaEventElapsedTime, err_cudaMemcpy, log_cudaMemcpy, env_cudaMemcpy,
                  err_cudaMemcpy3DAsync, log_cudaMemcpy3DAsync, env_cudaMemcpy3DAsync,
                  List.length_cons, h0, h1, h2, h3, h4, h5, ne_eq, not_true_eq_false,
                  not_false_eq_true, ↓reduceIte, id, SkipWithError_isSome, SkipWithError_times,
                  implies_true]
          · refine ⟨?_, ?_, ?_⟩ <;>
              simp only [Duplex.iteration, forEach_nil, forEach_cons, OR_SKIP_apply, exec_apply,
                List.range, List.range.loop, List.length_nil, List.getD_cons_zero,
                List.getD_cons_succ, zero_add, err_cudaEventRecord, log_cudaEventRecord,
                env_cudaEventRecord, err_cudaMemcpyAsync, log_cudaMemcpyAsync,
                env_cudaMemcpyAsync, err_cudaEventSynchronize, log_cudaEventSynchronize,
                env_cudaEventSynchronize, err_cudaEventElapsedTime, log_cudaEventElapsedTime,
                env_cudaEventElapsedTime, err_cudaMemcpy, log_cudaMemcpy, env_cudaMemcpy,
                err_cudaMemcpy3DAsync, log_cudaMemcpy3DAsync, env_cudaMemcpy3DAsync,
                List.length_cons, h0, h1, h2, h3, h4, ne_eq, not_true_eq_false,
                not_false_eq_true, ↓reduceIte, id, SkipWithError_isSome, SkipWithError_times,
                implies_true]
        · refine ⟨?_, ?_, ?_⟩ <;>
            simp only [Duplex.iteration, forEach_nil, forEach_cons, OR_SKIP_apply, exec_apply,
              List.range, List.range.loop, List.length_nil, List.getD_cons_zero,
              List.getD_cons_succ, zero_add, err_cudaEventRecord, log_cudaEventRecord,
              env_cudaEventRecord, err_cudaMemcpyAsync, log_cudaMemcpyAsync, env_cudaMemcpyAsync,
              err_cudaEventSynchronize, log_cudaEventSynchronize, env_cudaEventSynchronize,
              err_cudaEventElapsedTime, log_cudaEventElapsedTime, env_cudaEventElapsedTime,
              err_cudaMemcpy, log_cudaMemcpy, env_cudaMemcpy, err_cudaMemcpy3DAsync,
              log_cudaMemcpy3DAsync, env_cudaMemcpy3DAsync, List.length_cons, h0, h1, h2, h3,
              ne_eq, not_true_eq_false, not_false_eq_true, ↓reduceIte, id, SkipWithError_isSome,
              SkipWithError_times, implies_true]
      · refine ⟨?_, ?_, ?_⟩ <;>
          simp only [Duplex.iteration, forEach_nil, forEach_cons, OR_SKIP_apply, exec_apply,
            List.range, List.range.loop, List.length_nil, List.getD_cons_zero,
            List.getD_cons_succ, zero_add, err_cudaEventRecord, log_cudaEventRecord,
            env_cudaEventRecord, err_cudaMemcpyAsync, log_cudaMemcpyAsync, env_cudaMemcpyAsync,
            err_cudaEventSynchronize, log_cudaEventSynchronize, env_cudaEventSynchronize,
            err_cudaEventElapsedTime, log_cudaEventElapsedTime, env_cudaEventElapsedTime,
            err_cudaMemcpy, log_cudaMemcpy, env_cudaMemcpy, err_cudaMemcpy3DAsync,
            log_cudaMemcpy3DAsync, env_cudaMemcpy3DAsync, List.length_cons, h0, h1, h2, ne_eq,
            not_true_eq_false, not_false_eq_true, ↓reduceIte, id, SkipWithError_isSome,
            SkipWithError_times, implies_true]
    · refine ⟨?_, ?_, ?_⟩ <;>
        simp only [Duplex.iteration, forEach_nil, forEach_cons, OR_SKIP_apply, exec_apply,
          List.range, List.range.loop, List.length_nil, List.getD_cons_zero, List.getD_cons_succ,
          zero_add, err_cudaEventRecord, log_cudaEventRecord, env_cudaEventRecord,
          err_cudaMemcpyAsync, log_cudaMemcpyAsync, env_cudaMemcpyAsync,
          err_cudaEventSynchronize, log_cudaEventSynchronize, env_cudaEventSynchronize,
          err_cudaEventElapsedTime, log_cudaEventElapsedTime, env_cudaEventElapsedTime,
          err_cudaMemcpy, log_cudaMemcpy, env_cudaMemcpy, err_cudaMemcpy3DAsync,
          log_cudaMemcpy3DAsync, env_cudaMemcpy3DAsync, List.length_cons, h0, h1, ne_eq,
          not_true_eq_false, not_false_eq_true, ↓reduceIte, id, SkipWithError_isSome,
          SkipWithError_times, implies_true]
  · refine ⟨?_, ?_, ?_⟩ <;>
      simp only [Duplex.iteration, forEach_nil, forEach_cons, OR_SKIP_apply, exec_apply,
        List.range, List.range.loop, List.length_nil, List.getD_cons_zero, List.getD_cons_succ,
        zero_add, err_cudaEventRecord, log_cudaEventRecord, env_cudaEventRecord,
        err_cudaMemcpyAsync, log_cudaMemcpyAsync, env_cudaMemcpyAsync, err_cudaEventSynchronize,
        log_cudaEventSynchronize, env_cudaEventSynchronize, err_cudaEventElapsedTime,
        log_cudaEventElapsedTime, env_cudaEventElapsedTime, err_cudaMemcpy, log_cudaMemcpy,
        env_cudaMemcpy, err_cudaMemcpy3DAsync, log_cudaMemcpy3DAsync, env_cudaMemcpy3DAsync,
        List.length_cons, h0, ne_eq, not_true_eq_false, not_false_eq_true, ↓reduceIte, id,
        SkipWithError_isSome, SkipWithError_times, implies_true]

/-- In an iteration of the 3D loop in which any call returns an error, the loop
is left at once (the code behind the loop runs next), the run is skipped with
an error and no iteration time is recorded. -/
theorem threeD_iteration_failure (s : Sys) (params : cudaMemcpy3DParms)
    (stream start stop : Nat) :
    (∃ e ∈ newCalls s (ThreeD.iteration params stream start stop id id s),
        e.2 ≠ .cudaSuccess) →
    (∀ after next, ThreeD.iteration params stream start stop after next s
      = after (ThreeD.iteration params stream start stop id id s))
    ∧ (ThreeD.iteration params stream start stop id id s).state.error_message.isSome = true
    ∧ (ThreeD.iteration params stream start stop id id s).state.iteration_times
      = s.state.iteration_times := by
  intro hfail
  by_cases h0 : (s.world.env (s.world.log.length)
      (.cudaEventRecord start stream)).err = .cudaSuccess
  · by_cases h1 : (s.world.env (s.world.log.length + 1)
        (.cudaMemcpy3DAsync params stream)).err = .cudaSuccess
    · by_cases h2 : (s.world.env (s.world.log.length + 1 + 1)
          (.cudaEventRecord stop stream)).err = .cudaSuccess
      · by_cases h3 : (s.world.env (s.world.log.length + 1 + 1 + 1)
            (.cudaEventSynchronize stop)).err = .cudaSuccess
        · by_cases h4 : (s.world.env (s.world.log.length + 1 + 1 + 1 + 1)
              (.cudaEventElapsedTime start stop)).err = .cudaSuccess
          · exfalso
            have key : ∀ e ∈ newCalls s
                (ThreeD.iteration params stream start stop id id s),
                e.2 = .cudaSuccess := by
              simp only [newCalls, ThreeD.iteration, OR_SKIP_AND_BREAK_apply, exec_apply,
                err_cudaEventRecord, log_cudaEventRecord, env_cudaEventRecord,
                err_cudaMemcpyAsync, log_cudaMemcpyAsync, env_cudaMemcpyAsync,
                err_cudaEventSynchronize, log_cudaEventSynchronize, env_cudaEventSynchronize,
                err_cudaEventElapsedTime, log_cudaEventElapsedTime, env_cudaEventElapsedTime,
                err_cudaMemcpy, log_cudaMemcpy, env_cudaMemcpy, err_cudaMemcpy3DAsync,
                log_cudaMemcpy3DAsync, env_cudaMemcpy3DAsync, List.length_cons, h0, h1, h2, h3,
                h4, ne_eq, not_true_eq_false, not_false_eq_true, ↓reduceIte, id,
                SetIterationTime]
              simp (disch := omega) only [take_succ_sub_cons, Nat.sub_self, List.take_zero]
              simp only [List.mem_cons, List.mem_singleton, List.not_mem_nil, forall_eq_or_imp,
                forall_eq, h0, h1, h2, h3, h4, ne_eq, not_true_eq_false, Call.isCopyOrElapsed,
                implies_true, and_self, or_false, false_implies, IsEmpty.forall_iff]
            obtain ⟨e, he, hne⟩ := hfail
            exact hne (key e he)
          · refine ⟨?_, ?_, ?_⟩ <;>
              simp only [ThreeD.iteration, OR_SKIP_AND_BREAK_apply, exec_apply,
                err_cudaEventRecord, log_cudaEventRecord, env_cudaEventRecord,
                err_cudaMemcpyAsync, log_cudaMemcpyAsync, env_cudaMemcpyAsync,
                err_cudaEventSynchronize, log_cudaEventSynchronize, env_cudaEventSynchronize,
                err_cudaEventElapsedTime, log_cudaEventElapsedTime, env_cudaEventElapsedTime,
                err_cudaMemcpy, log_cudaMemcpy, env_cudaMemcpy, err_cudaMemcpy3DAsync,
                log_cudaMemcpy3DAsync, env_cudaMemcpy3DAsync, List.length_cons, h0, h1, h2, h3,
                h4, ne_eq, not_true_eq_false, not_false_eq_true, ↓reduceIte, id,
                SkipWithError_isSome, SkipWithError_times, implies_true]
        · refine ⟨?_, ?_, ?_⟩ <;>
            simp only [ThreeD.iteration, OR_SKIP_AND_BREAK_apply, exec_apply,
              err_cudaEventRecord, log_cudaEventRecord, env_cudaEventRecord, err_cudaMemcpyAsync,
              log_cudaMemcpyAsync, env_cudaMemcpyAsync, err_cudaEventSynchronize,
              log_cudaEventSynchronize, env_cudaEventSynchronize, err_cudaEventElapsedTime,
              log_cudaEventElapsedTime, env_cudaEventElapsedTime, err_cudaMemcpy, log_cudaMemcpy,
              env_cudaMemcpy, err_cudaMemcpy3DAsync, log_cudaMemcpy3DAsync,
              env_cudaMemcpy3DAsync, List.length_cons, h0, h1, h2, h3, ne_eq, not_true_eq_false,
              not_false_eq_true, ↓reduceIte, id, SkipWithError_isSome, SkipWithError_times,
              implies_true]
      · refine ⟨?_, ?_, ?_⟩ <;>
          simp only [ThreeD.iteration, OR_SKIP_AND_BREAK_apply, exec_apply, err_cudaEventRecord,
            log_cudaEventRecord, env_cudaEventRecord, err_cudaMemcpyAsync, log_cudaMemcpyAsync,
            env_cudaMemcpyAsync, err_cudaEventSynchronize, log_cudaEventSynchronize,
            env_cudaEventSynchronize, err_cudaEventElapsedTime, log_cudaEventElapsedTime,
            env_cudaEventElapsedTime, err_cudaMemcpy, log_cudaMemcpy, env_cudaMemcpy,
            err_cudaMemcpy3DAsync, log_cudaMemcpy3DAsync, env_cudaMemcpy3DAsync,
            List.length_cons, h0, h1, h2, ne_eq, not_true_eq_false, not_false_eq_true,
            ↓reduceIte, id, SkipWithError_isSome, SkipWithError_times, implies_true]
    · refine ⟨?_, ?_, ?_⟩ <;>
        simp only [ThreeD.iteration, OR_SKIP_AND_BREAK_apply, exec_apply, err_cudaEventRecord,
          log_cudaEventRecord, env_cudaEventRecord, err_cudaMemcpyAsync, log_cudaMemcpyAsync,
          env_cudaMemcpyAsync, err_cudaEventSynchronize, log_cudaEventSynchronize,
          env_cudaEventSynchronize, err_cudaEventElapsedTime, log_cudaEventElapsedTime,
          env_cudaEventElapsedTime, err_cudaMemcpy, log_cudaMemcpy, env_cudaMemcpy,
          err_cudaMemcpy3DAsync, log_cudaMemcpy3DAsync, env_cudaMemcpy3DAsync, List.length_cons,
          h0, h1, ne_eq, not_true_eq_false, not_false_eq_true, ↓reduceIte, id,
          SkipWithError_isSome, SkipWithError_times, implies_true]
  · refine ⟨?_, ?_, ?_⟩ <;>
      simp only [ThreeD.iteration, OR_SKIP_AND_BREAK_apply, exec_apply, err_cudaEventRecord,
        log_cudaEventRecord, env_cudaEventRecord, err_cudaMemcpyAsync, log_cudaMemcpyAsync,
        env_cudaMemcpyAsync, err_cudaEventSynchronize, log_cudaEventSynchronize,
        env_cudaEventSynchronize, err_cudaEventElapsedTime, log_cudaEventElapsedTime,
        env_cudaEventElapsedTime, err_cudaMemcpy, log_cudaMemcpy, env_cudaMemcpy,
        err_cudaMemcpy3DAsync, log_cudaMemcpy3DAsync, env_cudaMemcpy3DAsync, List.length_cons,
        h0, ne_eq, not_true_eq_false, not_false_eq_true, ↓reduceIte, id, SkipWithError_isSome,
        SkipWithError_times, implies_true]

/-- In an iteration of the single-path loop in which the copy or the
elapsed-time query returns an error, the loop is left at once, the run is
skipped with an error and no iteration time is recorded. -/
theorem pinned_iteration_failure (s : Sys) (start stop src dst bytes : Nat) :
    (∃ e ∈ newCalls s (Pinned.iteration start stop src dst bytes id id s),
        e.2 ≠ .cudaSuccess ∧ e.1.isCopyOrElapsed = true) →
    (∀ after next, Pinned.iteration start stop src dst bytes after next s
      = after (Pinned.iteration start stop src dst bytes id id s))
    ∧ (Pinned.iteration start stop src dst bytes id id s).state.error_message.isSome = true
    ∧ (Pinned.iteration start stop src dst bytes id id s).state.iteration_times
      = s.state.iteration_times := by
  intro hfail
  by_cases h1 : (s.world.env (s.world.log.length + 1)
      (.cudaMemcpy dst src bytes .cudaMemcpyHostToDevice)).err = .cudaSuccess
  · by_cases h4 : (s.world.env (s.world.log.length + 1 + 1 + 1 + 1)
        (.cudaEventElapsedTime start stop)).err = .cudaSuccess
    · exfalso
      have key : ∀ e ∈ newCalls s
          (Pinned.iteration start stop src dst bytes id id s),
          e.2 ≠ .cudaSuccess → e.1.isCopyOrElapsed = false := by
        simp only [newCalls, Pinned.iteration, call_apply, exec_apply, PauseTiming,
          PRINT_IF_ERROR, err_cudaEventRecord, log_cudaEventRecord, env_cudaEventRecord,
          err_cudaMemcpyAsync, log_cudaMemcpyAsync, env_cudaMemcpyAsync,
          err_cudaEventSynchronize, log_cudaEventSynchronize, env_cudaEventSynchronize,
          err_cudaEventElapsedTime, log_cudaEventElapsedTime, env_cudaEventElapsedTime,
          err_cudaMemcpy, log_cudaMemcpy, env_cudaMemcpy, err_cudaMemcpy3DAsync,
          log_cudaMemcpy3DAsync, env_cudaMemcpy3DAsync, List.length_cons, h1, h4, ne_eq,
          not_true_eq_false, not_false_eq_true, ↓reduceIte, id, SetIterationTime]
        simp (disch := omega) only [take_succ_sub_cons, Nat.sub_self, List.take_zero]
        simp only [List.mem_cons, List.mem_singleton, List.not_mem_nil, forall_eq_or_imp,
          forall_eq, h1, h4, ne_eq, not_true_eq_false, Call.isCopyOrElapsed, implies_true,
          and_self, or_false, false_implies, IsEmpty.forall_iff]
      obtain ⟨e, he, hne, hk⟩ := hfail
      rw [key e he hne] at hk
      cases hk
    · refine ⟨?_, ?_, ?_⟩ <;>
        simp only [Pinned.iteration, call_apply, exec_apply, PauseTiming, PRINT_IF_ERROR,
          err_cudaEventRecord, log_cudaEventRecord, env_cudaEventRecord, err_cudaMemcpyAsync,
          log_cudaMemcpyAsync, env_cudaMemcpyAsync, err_cudaEventSynchronize,
          log_cudaEventSynchronize, env_cudaEventSynchronize, err_cudaEventElapsedTime,
          log_cudaEventElapsedTime, env_cudaEventElapsedTime, err_cudaMemcpy, log_cudaMemcpy,
          env_cudaMemcpy, err_cudaMemcpy3DAsync, log_cudaMemcpy3DAsync, env_cudaMemcpy3DAsync,
          List.length_cons, h1, h4, ne_eq, not_true_eq_false, not_false_eq_true, ↓reduceIte, id,
          SkipWithError_isSome, SkipWithError_times, implies_true]
  · refine ⟨?_, ?_, ?_⟩ <;>
      simp only [Pinned.iteration, call_apply, exec_apply, PauseTiming, PRINT_IF_ERROR,
        err_cudaEventRecord, log_cudaEventRecord, env_cudaEventRecord, err_cudaMemcpyAsync,
        log_cudaMemcpyAsync, env_cudaMemcpyAsync, err_cudaEventSynchronize,
        log_cudaEventSynchronize, env_cudaEventSynchronize, err_cudaEventElapsedTime,
        log_cudaEventElapsedTime, env_cudaEventElapsedTime, err_cudaMemcpy, log_cudaMemcpy,
        env_cudaMemcpy, err_cudaMemcpy3DAsync, log_cudaMemcpy3DAsync, env_cudaMemcpy3DAsync,
        List.length_cons, h1, ne_eq, not_true_eq_false, not_false_eq_true, ↓reduceIte, id,
        SkipWithError_isSome, SkipWithError_times, implies_true]

/-- C9 as stated fails for the single-path loop: when every `cudaEventRecord`
returns an error and all other calls succeed, a run of two iterations is not
skipped and records an iteration time for both iterations. -/
theorem loop_stops_on_error_counterexample :
    (∃ e ∈ (Pinned.Comm_NUMAMemcpy_PinnedToGPU twoIterationArgs
        (Sys.init recordFailEnv)).world.log, e = (.cudaEventRecord 3 0, .cudaErrorUnknown))
    ∧ (Pinned.Comm_NUMAMemcpy_PinnedToGPU twoIterationArgs
        (Sys.init recordFailEnv)).state.error_message = none
    ∧ (Pinned.Comm_NUMAMemcpy_PinnedToGPU twoIterationArgs
        (Sys.init recordFailEnv)).state.iteration_times.length = 2 := by
  refine ⟨?_, ?_, ?_⟩ <;>
    simp [Pinned.Comm_NUMAMemcpy_PinnedToGPU, Pinned.iteration, Pinned.afterLoop,
      twoIterationArgs, Sys.init, World.init, recordFailEnv, OR_SKIP_apply, call_apply,
      exec_apply, execW_apply, hostAlloc_apply, defer_apply, forStateLoop_apply, forState_zero,
      forState_succ, cuda_reset_device, cudaHostRegister, cudaHostUnregister, cudaEventCreate,
      cudaSetDevice, cudaMalloc, cudaMemset, cudaEventRecord, cudaMemcpy, cudaEventSynchronize,
      cudaEventElapsedTime, cudaFree, World.call, World.acquire, World.release,
      World.hostAlloc, World.hostFree, World.numa_bind_node, SetIterationTime,
      SetBytesProcessed, setCounter, PauseTiming, PRINT_IF_ERROR]

/-- C9, amended: in the measurement loops of `Comm_Duplex_Memcpy_GPUGPU` and
`Comm_3d_cudaMemcpy2DAsync_NUMAToGPU`, an iteration in which any marker-record,
copy, synchronize or elapsed-time call returns an error performs no further
iteration, ends the run skipped with an error and records no iteration time.
In the loop of `Comm_NUMAMemcpy_PinnedToGPU` the same holds for an iteration in
which the copy or the elapsed-time call returns an error; the status of its
marker-record and synchronize calls is not examined. -/
theorem loop_stops_on_checked_error :
    (∀ (s : Sys) (stream0 stream1 start0 start1 stop0 stop1 src0 src1 dst0 dst1 bytes : Nat),
      (∃ e ∈ newCalls s (Duplex.iteration [stream0, stream1] [start0, start1] [stop0, stop1]
          [src0, src1] [dst0, dst1] bytes id s), e.2 ≠ .cudaSuccess) →
      (∀ next, Duplex.iteration [stream0, stream1] [start0, start1] [stop0, stop1]
          [src0, src1] [dst0, dst1] bytes next s
        = Duplex.iteration [stream0, stream1] [start0, start1] [stop0, stop1]
          [src0, src1] [dst0, dst1] bytes id s)
      ∧ (Duplex.iteration [stream0, stream1] [start0, start1] [stop0, stop1]
          [src0, src1] [dst0, dst1] bytes id s).state.error_message.isSome = true
      ∧ (Duplex.iteration [stream0, stream1] [start0, start1] [stop0, stop1]
          [src0, src1] [dst0, dst1] bytes id s).state.iteration_times
        = s.state.iteration_times)
    ∧ (∀ (s : Sys) (params : cudaMemcpy3DParms) (stream start stop : Nat),
      (∃ e ∈ newCalls s (ThreeD.iteration params stream start stop id id s),
          e.2 ≠ .cudaSuccess) →
      (∀ after next, ThreeD.iteration params stream start stop after next s
        = after (ThreeD.iteration params stream start stop id id s))
      ∧ (ThreeD.iteration params stream start stop id id s).state.error_message.isSome = true
      ∧ (ThreeD.iteration params stream start stop id id s).state.iteration_times
        = s.state.iteration_times)
    ∧ (∀ (s : Sys) (start stop src dst bytes : Nat),
      (∃ e ∈ newCalls s (Pinned.iteration start stop src dst bytes id id s),
          e.2 ≠ .cudaSuccess ∧ e.1.isCopyOrElapsed = true) →
      (∀ after next, Pinned.iteration start stop src dst bytes after next s
        = after (Pinned.iteration start stop src dst bytes id id s))
      ∧ (Pinned.iteration start stop src dst bytes id id s).state.error_message.isSome = true
      ∧ (Pinned.iteration start stop src dst bytes id id s).state.iteration_times
        = s.state.iteration_times) :=
  ⟨duplex_iteration_failure, threeD_iteration_failure, pinned_iteration_failure⟩

/-- In the first iteration on `copyFailEnv` the copy of each loop fails. -/
theorem copyFailEnv_fails :
    (∃ e ∈ newCalls (Sys.init copyFailEnv) (Duplex.iteration [1, 2] [3, 4] [5, 6] [7, 9]
        [8, 10] 1024 id (Sys.init copyFailEnv)), e.2 ≠ .cudaSuccess)
    ∧ (∃ e ∈ newCalls (Sys.init copyFailEnv)
        (ThreeD.iteration sampleParams 1 2 3 id id (Sys.init copyFailEnv)),
        e.2 ≠ .cudaSuccess)
    ∧ (∃ e ∈ newCalls (Sys.init copyFailEnv)
        (Pinned.iteration 3 4 1 2 1024 id id (Sys.init copyFailEnv)),
        e.2 ≠ .cudaSuccess ∧ e.1.isCopyOrElapsed = true) := by
  refine ⟨?_, ?_, ?_⟩ <;>
    simp [newCalls, Duplex.iteration, ThreeD.iteration, Pinned.iteration, forEach_nil,
      forEach_cons, OR_SKIP_apply, OR_SKIP_AND_BREAK_apply, call_apply, exec_apply,
      List.range, List.range.loop, Sys.init, World.init, copyFailEnv, sampleParams,
      cudaEventRecord, cudaMemcpyAsync, cudaMemcpy, cudaMemcpy3DAsync, cudaEventSynchronize,
      World.call, SkipWithError, PauseTiming, PRINT_IF_ERROR, Call.isCopyOrElapsed]

/-- C9, amended, at a concrete input: with a failing copy, the first iteration
of each of the three loops ends the run skipped with an error. -/
theorem loop_stops_on_checked_error_witness :
    ((∃ e ∈ newCalls (Sys.init copyFailEnv) (Duplex.iteration [1, 2] [3, 4] [5, 6] [7, 9]
        [8, 10] 1024 id (Sys.init copyFailEnv)), e.2 ≠ .cudaSuccess)
      ∧ (Duplex.iteration [1, 2] [3, 4] [5, 6] [7, 9] [8, 10] 1024 id
          (Sys.init copyFailEnv)).state.error_message.isSome = true)
    ∧ ((∃ e ∈ newCalls (Sys.init copyFailEnv)
        (ThreeD.iteration sampleParams 1 2 3 id id (Sys.init copyFailEnv)),
        e.2 ≠ .cudaSuccess)
      ∧ (ThreeD.iteration sampleParams 1 2 3 id id
          (Sys.init copyFailEnv)).state.error_message.isSome = true)
    ∧ ((∃ e ∈ newCalls (Sys.init copyFailEnv)
        (Pinned.iteration 3 4 1 2 1024 id id (Sys.init copyFailEnv)),
        e.2 ≠ .cudaSuccess ∧ e.1.isCopyOrElapsed = true)
      ∧ (Pinned.iteration 3 4 1 2 1024 id id
          (Sys.init copyFailEnv)).state.error_message.isSome = true) :=
  ⟨⟨copyFailEnv_fails.1,
      (loop_stops_on_checked_error.1 (Sys.init copyFailEnv) 1 2 3 4 5 6 7 9 8 10 1024
        copyFailEnv_fails.1).2.1⟩,
    ⟨copyFailEnv_fails.2.1,
      (loop_stops_on_checked_error.2.1 (Sys.init copyFailEnv) sampleParams 1 2 3
        copyFailEnv_fails.2.1).2.1⟩,
    ⟨copyFailEnv_fails.2.2,
      (loop_stops_on_checked_error.2.2 (Sys.init copyFailEnv) 3 4 1 2 1024
        copyFailEnv_fails.2.2).2.1⟩⟩

/-! ## The effect of each call on the held resources -/

theorem held_cuda_reset_device (dev : Int) (w : World) : (cuda_reset_device dev w).2.2.held = w.held := by
  simp only [cuda_reset_device, World.call]

theorem held_cudaSetDevice (dev : Int) (w : World) : (cudaSetDevice dev w).2.2.held = w.held := by
  simp only [cudaSetDevice, World.call]
  split <;> rfl

theorem held_cudaMemset (ptr value bytes : Nat) (w : World) : (cudaMemset ptr value bytes w).2.2.held = w.held := by
  simp only [cudaMemset, World.call]

theorem held_cudaMemset3D (q : cudaPitchedPtr) (value : Nat) (extent : cudaExtent) (w : World) : (cudaMemset3D q value extent w).2.2.held = w.held := by
  simp only [cudaMemset3D, World.call]

theorem held_cudaDeviceEnablePeerAccess (peer : Int) (w : World) : (cudaDeviceEnablePeerAccess peer w).2.2.held = w.held := by
  simp only [cudaDeviceEnablePeerAccess, World.call]

theorem held_cudaEventRecord (event stream : Nat) (w : World) : (cudaEventRecord event stream w).2.2.held = w.held := by
  simp only [cudaEventRecord, World.call]
  split <;> rfl

theorem held_cudaMemcpyAsync (dst src bytes : Nat) (kind : cudaMemcpyKind) (stream : Nat) (w : World) : (cudaMemcpyAsync dst src bytes kind stream w).2.2.held = w.held := by
  simp only [cudaMemcpyAsync, World.call]

theorem held_cudaMemcpy (dst src bytes : Nat) (kind : cudaMemcpyKind) (w : World) : (cudaMemcpy dst src bytes kind w).2.2.held = w.held := by
  simp only [cudaMemcpy, World.call]

theorem held_cudaMemcpy3DAsync (params : cudaMemcpy3DParms) (stream : Nat) (w : World) : (cudaMemcpy3DAsync params stream w).2.2.held = w.held := by
  simp only [cudaMemcpy3DAsync, World.call]

theorem held_cudaEventSynchronize (event : Nat) (w : World) : (cudaEventSynchronize event w).2.2.held = w.held := by
  simp only [cudaEventSynchronize, World.call]

theorem held_cudaEventElapsedTime (start stop : Nat) (w : World) : (cudaEventElapsedTime start stop w).2.2.held = w.held := by
  simp only [cudaEventElapsedTime, World.call]

theorem held_cudaStreamCreate (w : World) (h : (cudaStreamCreate w).1 = .cudaSuccess) :
    (cudaStreamCreate w).2.2.held
      = .stream (cudaStreamCreate w).2.1 :: w.held := by
  simp only [cudaStreamCreate, World.call] at h ⊢
  rw [if_pos h]
  rfl

theorem held_cudaStreamCreate_sub (w : World) :
    ∀ r ∈ (cudaStreamCreate w).2.2.held, r ∈ w.held
      ∨ r = .stream (cudaStreamCreate w).2.1 := by
  intro r hr
  simp only [cudaStreamCreate, World.call] at hr ⊢
  split at hr
  · simp only [World.acquire, List.mem_cons] at hr
    rcases hr with rfl | hr
    · exact Or.inr rfl
    · exact Or.inl hr
  · exact Or.inl hr

theorem held_cudaEventCreate (w : World) (h : (cudaEventCreate w).1 = .cudaSuccess) :
    (cudaEventCreate w).2.2.held
      = .event (cudaEventCreate w).2.1 :: w.held := by
  simp only [cudaEventCreate, World.call] at h ⊢
  rw [if_pos h]
  rfl

theorem held_cudaEventCreate_sub (w : World) :
    ∀ r ∈ (cudaEventCreate w).2.2.held, r ∈ w.held
      ∨ r = .event (cudaEventCreate w).2.1 := by
  intro r hr
  simp only [cudaEventCreate, World.call] at hr ⊢
  split at hr
  · simp only [World.acquire, List.mem_cons] at hr
    rcases hr with rfl | hr
    · exact Or.inr rfl
    · exact Or.inl hr
  · exact Or.inl hr

theorem held_cudaMalloc (bytes : Nat) (w : World) (h : (cudaMalloc bytes w).1 = .cudaSuccess) :
    (cudaMalloc bytes w).2.2.held
      = .deviceMem (cudaMalloc bytes w).2.1 w.device bytes :: w.held := by
  simp only [cudaMalloc, World.call] at h ⊢
  rw [if_pos h]
  rfl

theorem held_cudaMalloc_sub (bytes : Nat) (w : World) :
    ∀ r ∈ (cudaMalloc bytes w).2.2.held, r ∈ w.held
      ∨ r = .deviceMem (cudaMalloc bytes w).2.1 w.device bytes := by
  intro r hr
  simp only [cudaMalloc, World.call] at hr ⊢
  split at hr
  · simp only [World.acquire, List.mem_cons] at hr
    rcases hr with rfl | hr
    · exact Or.inr rfl
    · exact Or.inl hr
  · exact Or.inl hr

theorem held_cudaMalloc3D (extent : cudaExtent) (w : World) (h : (cudaMalloc3D extent w).1 = .cudaSuccess) :
    (cudaMalloc3D extent w).2.2.held
      = .deviceMem (cudaMalloc3D extent w).2.1.ptr w.device
          ((cudaMalloc3D extent w).2.1.pitch * extent.height * extent.depth) :: w.held := by
  simp only [cudaMalloc3D, World.call] at h ⊢
  rw [if_pos h]
  rfl

theorem held_cudaMalloc3D_sub (extent : cudaExtent) (w : World) :
    ∀ r ∈ (cudaMalloc3D extent w).2.2.held, r ∈ w.held
      ∨ r = .deviceMem (cudaMalloc3D extent w).2.1.ptr w.device
          ((cudaMalloc3D extent w).2.1.pitch * extent.height * extent.depth) := by
  intro r hr
  simp only [cudaMalloc3D, World.call] at hr ⊢
  split at hr
  · simp only [World.acquire, List.mem_cons] at hr
    rcases hr with rfl | hr
    · exact Or.inr rfl
    · exact Or.inl hr
  · exact Or.inl hr

theorem held_cudaHostRegister (ptr bytes : Nat) (w : World) (h : (cudaHostRegister ptr bytes w).1 = .cudaSuccess) :
    (cudaHostRegister ptr bytes w).2.2.held
      = .hostRegistration ptr :: w.held := by
  simp only [cudaHostRegister, World.call] at h ⊢
  rw [if_pos h]
  rfl

theorem held_cudaHostRegister_sub (ptr bytes : Nat) (w : World) :
    ∀ r ∈ (cudaHostRegister ptr bytes w).2.2.held, r ∈ w.held
      ∨ r = .hostRegistration ptr := by
  intro r hr
  simp only [cudaHostRegister, World.call] at hr ⊢
  split at hr
  · simp only [World.acquire, List.mem_cons] at hr
    rcases hr with rfl | hr
    · exact Or.inr rfl
    · exact Or.inl hr
  · exact Or.inl hr

theorem held_cudaHostUnregister (ptr : Nat) (w : World) (h : (cudaHostUnregister ptr w).1 = .cudaSuccess) :
    (cudaHostUnregister ptr w).2.2.held = w.held.filter fun r => !decide ((fun r => r = .hostRegistration ptr) r) := by
  simp only [cudaHostUnregister, World.call] at h ⊢
  rw [if_pos h]
  simp only [World.release, Bool.decide_eq_true]

theorem held_cudaEventDestroy (event : Nat) (w : World) (h : (cudaEventDestroy event w).1 = .cudaSuccess) :
    (cudaEventDestroy event w).2.2.held = w.held.filter fun r => !decide ((fun r => r = .event event) r) := by
  simp only [cudaEventDestroy, World.call] at h ⊢
  rw [if_pos h]
  simp only [World.release, Bool.decide_eq_true]

theorem held_cudaStreamDestroy (stream : Nat) (w : World) (h : (cudaStreamDestroy stream w).1 = .cudaSuccess) :
    (cudaStreamDestroy stream w).2.2.held = w.held.filter fun r => !decide ((fun r => r = .stream stream) r) := by
  simp only [cudaStreamDestroy, World.call] at h ⊢
  rw [if_pos h]
  simp only [World.release, Bool.decide_eq_true]

theorem held_cudaFree (ptr : Nat) (w : World) (h : (cudaFree ptr w).1 = .cudaSuccess) :
    (cudaFree ptr w).2.2.held = w.held.filter fun r => !decide ((Resource.isDeviceMemAt ptr) r) := by
  simp only [cudaFree, World.call] at h ⊢
  rw [if_pos h]
  simp only [World.release, Bool.decide_eq_true]

/-! ## C7: resources held at return -/

theorem HeldIn_cons {A B : Resource → Prop} {w w' : World} (r : Resource)
    (hheld : w'.held = r :: w.held) (hr : B r) (hAB : ∀ x, A x → B x) (h : HeldIn A w) :
    HeldIn B w' := by
  constructor
  intro x hx
  rw [hheld, List.mem_cons] at hx
  rcases hx with rfl | hx
  · exact hr
  · exact hAB x (h.ok x hx)

theorem HeldIn_same {A : Resource → Prop} {w w' : World} (hheld : w'.held = w.held)
    (h : HeldIn A w) : HeldIn A w' :=
  ⟨fun x hx => h.ok x (hheld ▸ hx)⟩

theorem HeldIn_filter {A : Resource → Prop} {w w' : World} (p : Resource → Prop)
    [DecidablePred p] (hheld : w'.held = w.held.filter fun r => !decide (p r))
    (h : HeldIn A w) : HeldIn (fun r => A r ∧ ¬ p r) w' := by
  constructor
  intro x hx
  rw [hheld, List.mem_filter] at hx
  exact ⟨h.ok x hx.1, by simpa using hx.2⟩

theorem HeldIn_mono {A B : Resource → Prop} {w : World} (hAB : ∀ x, A x → B x)
    (h : HeldIn A w) : HeldIn B w :=
  ⟨fun x hx => hAB x (h.ok x hx)⟩

section StepRules
variable {α : Type} {J : Sys → Prop} {K : α → Sys → Prop} {Q : Sys → Prop}

theorem OR_SKIP_step (stmt : API α) (msg : String) (k : α → Sys → Sys)
    (hstmt : ∀ s, J s → (stmt s.world).1 = .cudaSuccess →
      K (stmt s.world).2.1 { s with world := (stmt s.world).2.2 })
    (hskip : ∀ s, Q (SkipWithError msg s))
    (hk : ∀ a s, K a s → Q (k a s)) : ∀ s, J s → Q (OR_SKIP stmt msg k s) := by
  intro s hs
  rw [OR_SKIP_apply]
  by_cases h : (stmt s.world).1 = .cudaSuccess
  · rw [if_neg (not_not.mpr h)]
    exact hk _ _ (hstmt s hs h)
  · rw [if_pos h]
    exact hskip _

theorem OR_SKIP_AND_BREAK_step (stmt : API α) (msg : String) (after : Sys → Sys)
    (k : α → Sys → Sys)
    (hstmt : ∀ s, J s → (stmt s.world).1 = .cudaSuccess →
      K (stmt s.world).2.1 { s with world := (stmt s.world).2.2 })
    (hskip : ∀ s, Q (after (SkipWithError msg s)))
    (hk : ∀ a s, K a s → Q (k a s)) : ∀ s, J s → Q (OR_SKIP_AND_BREAK stmt msg after k s) := by
  intro s hs
  rw [OR_SKIP_AND_BREAK_apply]
  by_cases h : (stmt s.world).1 = .cudaSuccess
  · rw [if_neg (not_not.mpr h)]
    exact hk _ _ (hstmt s hs h)
  · rw [if_pos h]
    exact hskip _

theorem execW_step {J K Q : Sys → Prop} (f : World → World) (k : Sys → Sys)
    (hf : ∀ s, J s → K { s with world := f s.world })
    (hk : ∀ s, K s → Q (k s)) : ∀ s, J s → Q (execW f k s) := by
  intro s hs
  rw [execW_apply]
  exact hk _ (hf s hs)

end StepRules

theorem ReleasedAll_of_isSome (f : Sys) (h : f.state.error_message.isSome = true) :
    ReleasedAll f := by
  constructor
  intro hn
  rw [hn] at h
  cases h

theorem threeD_afterLoop_isSome (args : Args) (numaId cudaId : Int)
    (stream start stop : Nat) (src dst : cudaPitchedPtr) (copyBytes : Nat) :
    ∀ s : Sys, s.state.error_message.isSome = true →
      ReleasedAll (ThreeD.afterLoop args numaId cudaId stream start stop src dst copyBytes s) := by
  have hskip : ∀ (msg : String) (s : Sys), s.state.error_message.isSome = true →
      ReleasedAll (SkipWithError msg s) :=
    fun msg s _ => ReleasedAll_of_isSome _ (SkipWithError_isSome msg s)
  unfold ThreeD.afterLoop
  repeat (refine exec_state (P := fun st => st.error_message.isSome = true)
            (R := fun st => st.error_message.isSome = true) _ _ (fun _ h => h) ?_)
  refine OR_SKIP_state (P := fun st => st.error_message.isSome = true) _ _ _ (hskip _)
    fun _ => ?_
  refine execW_state (P := fun st => st.error_message.isSome = true) _ _ ?_
  repeat (refine OR_SKIP_state (P := fun st => st.error_message.isSome = true) _ _ _ (hskip _)
            fun _ => ?_)
  exact fun s hs => ReleasedAll_of_isSome _ hs

theorem Owned_mono {rs rs' : List Resource} {ps ps' hs hs' : List Nat} (hrs : rs ⊆ rs')
    (hps : ps ⊆ ps') (hhs : hs ⊆ hs') (x : Resource) (h : Owned rs ps hs x) :
    Owned rs' ps' hs' x := by
  rcases h with h | ⟨p, hp, h⟩ | ⟨p, hp, h⟩
  · exact Or.inl (hrs h)
  · exact Or.inr (Or.inl ⟨p, hps hp, h⟩)
  · exact Or.inr (Or.inr ⟨p, hhs hp, h⟩)

theorem held_hostAlloc (bytes : Nat) (w : World) :
    (w.hostAlloc bytes).2.held = .hostMem (w.hostAlloc bytes).1 bytes :: w.held := rfl

theorem held_hostFree (ptr : Nat) (w : World) :
    (w.hostFree ptr).held
      = w.held.filter fun r => !decide (Resource.isHostMemAt ptr r = true) := by
  simp only [World.hostFree, World.release, Bool.decide_eq_true]

/-- Behind the loop of the 3D run, when no teardown call fails, everything the
run may hold is released. -/
theorem threeD_afterLoop_released (args : Args) (numaId cudaId : Int)
    (stream start stop : Nat) (src dst : cudaPitchedPtr) (copyBytes : Nat) :
    ∀ s : Sys, HeldIn (Owned [.hostRegistration src.ptr, .event stop, .event start,
        .stream stream] [dst.ptr] [src.ptr]) s.world →
      ReleasedAll (ThreeD.afterLoop args numaId cudaId stream start stop src dst copyBytes s) := by
  have hskip : ∀ (msg : String) (s : Sys), ReleasedAll (SkipWithError msg s) :=
    fun msg s => ReleasedAll_of_isSome _ (SkipWithError_isSome msg s)
  generalize hA : Owned [.hostRegistration src.ptr, .event stop, .event start,
    .stream stream] [dst.ptr] [src.ptr] = A
  unfold ThreeD.afterLoop
  repeat (refine exec_sys (J := fun s => HeldIn A s.world) _ _ (fun _ h => h) ?_)
  refine OR_SKIP_step (J := fun s => HeldIn A s.world)
    (K := fun _ s => HeldIn (fun r => A r ∧ ¬ r = .hostRegistration src.ptr) s.world) _ _ _
    (fun s hs h => HeldIn_filter _ (held_cudaHostUnregister _ _ h) hs) (hskip _) fun _ => ?_
  refine execW_step (J := fun s => HeldIn (fun r => A r ∧ ¬ r = .hostRegistration src.ptr)
      s.world)
    (K := fun s => HeldIn (fun r => (A r ∧ ¬ r = .hostRegistration src.ptr)
      ∧ ¬ Resource.isHostMemAt src.ptr r = true) s.world) _ _
    (fun s hs => HeldIn_filter _ (held_hostFree _ _) hs) ?_
  refine OR_SKIP_step
    (K := fun _ s => HeldIn (fun r => ((A r ∧ ¬ r = .hostRegistration src.ptr)
      ∧ ¬ Resource.isHostMemAt src.ptr r = true) ∧ ¬ r = .event start) s.world) _ _ _
    (fun s hs h => HeldIn_filter _ (held_cudaEventDestroy _ _ h) hs) (hskip _) fun _ => ?_
  refine OR_SKIP_step
    (K := fun _ s => HeldIn (fun r => (((A r ∧ ¬ r = .hostRegistration src.ptr)
      ∧ ¬ Resource.isHostMemAt src.ptr r = true) ∧ ¬ r = .event start)
      ∧ ¬ r = .event stop) s.world) _ _ _
    (fun s hs h => HeldIn_filter _ (held_cudaEventDestroy _ _ h) hs) (hskip _) fun _ => ?_
  refine OR_SKIP_step
    (K := fun _ s => HeldIn (fun r => ((((A r ∧ ¬ r = .hostRegistration src.ptr)
      ∧ ¬ Resource.isHostMemAt src.ptr r = true) ∧ ¬ r = .event start)
      ∧ ¬ r = .event stop) ∧ ¬ r = .stream stream) s.world) _ _ _
    (fun s hs h => HeldIn_filter _ (held_cudaStreamDestroy _ _ h) hs) (hskip _) fun _ => ?_
  refine OR_SKIP_step
    (K := fun _ s => HeldIn (fun r => (((((A r ∧ ¬ r = .hostRegistration src.ptr)
      ∧ ¬ Resource.isHostMemAt src.ptr r = true) ∧ ¬ r = .event start)
      ∧ ¬ r = .event stop) ∧ ¬ r = .stream stream)
      ∧ ¬ Resource.isDeviceMemAt dst.ptr r = true) s.world) _ _ _
    (fun s hs h => HeldIn_filter _ (held_cudaFree _ _ h) hs) (hskip _) fun _ => ?_
  intro s hs
  refine ⟨fun _ => List.eq_nil_iff_forall_not_mem.mpr fun r hr => ?_⟩
  obtain ⟨⟨⟨⟨⟨⟨hr0, h1⟩, h2⟩, h3⟩, h4⟩, h5⟩, h6⟩ := hs.ok r hr
  rw [← hA] at hr0
  rcases hr0 with h | ⟨p, hp, h⟩ | ⟨p, hp, h⟩
  · simp only [List.mem_cons, List.mem_singleton, List.not_mem_nil, or_false] at h
    rcases h with h | h | h | h
    · exact h1 h
    · exact h4 h
    · exact h3 h
    · exact h5 h
  · rw [List.mem_singleton] at hp
    exact h6 (hp ▸ h)
  · rw [List.mem_singleton] at hp
    exact h2 (hp ▸ h)

theorem threeD_iteration_released (A : Resource → Prop) (params : cudaMemcpy3DParms)
    (stream start stop : Nat) (after next : Sys → Sys)
    (hafter : ∀ s : Sys, s.state.error_message.isSome = true → ReleasedAll (after s))
    (hnext : ∀ s : Sys, HeldIn A s.world → ReleasedAll (next s)) :
    ∀ s : Sys, HeldIn A s.world →
      ReleasedAll (ThreeD.iteration params stream start stop after next s) := by
  have hskip : ∀ (msg : String) (s : Sys), HeldIn A s.world →
      ReleasedAll (after (SkipWithError msg s)) :=
    fun msg s _ => hafter _ (SkipWithError_isSome msg s)
  unfold ThreeD.iteration
  refine OR_SKIP_AND_BREAK_sys (J := fun s => HeldIn A s.world) (fun _ => True) _ _ _ _
    (fun s h => ⟨HeldIn_same (held_cudaEventRecord _ _ _) h, trivial⟩) (hskip _) fun _ _ => ?_
  refine OR_SKIP_AND_BREAK_sys (J := fun s => HeldIn A s.world) (fun _ => True) _ _ _ _
    (fun s h => ⟨HeldIn_same (held_cudaMemcpy3DAsync _ _ _) h, trivial⟩) (hskip _)
    fun _ _ => ?_
  refine OR_SKIP_AND_BREAK_sys (J := fun s => HeldIn A s.world) (fun _ => True) _ _ _ _
    (fun s h => ⟨HeldIn_same (held_cudaEventRecord _ _ _) h, trivial⟩) (hskip _) fun _ _ => ?_
  refine OR_SKIP_AND_BREAK_sys (J := fun s => HeldIn A s.world) (fun _ => True) _ _ _ _
    (fun s h => ⟨HeldIn_same (held_cudaEventSynchronize _ _) h, trivial⟩) (hskip _)
    fun _ _ => ?_
  refine OR_SKIP_AND_BREAK_sys (J := fun s => HeldIn A s.world) (fun _ => True) _ _ _ _
    (fun s h => ⟨HeldIn_same (held_cudaEventElapsedTime _ _ _) h, trivial⟩) (hskip _)
    fun _ _ => ?_
  exact exec_sys (J := fun s => HeldIn A s.world) _ _ (fun _ h => h) hnext

/-- A run of `Comm_3d_cudaMemcpy2DAsync_NUMAToGPU` that starts holding nothing
and is not skipped ends holding nothing. -/
theorem threeD_released (args : Args) (numaId cudaId : Int) :
    ∀ s : Sys, HeldIn (Owned [] [] []) s.world →
      ReleasedAll (ThreeD.Comm_3d_cudaMemcpy2DAsync_NUMAToGPU args numaId cudaId s) := by
  have hskip : ∀ (msg : String) (s : Sys), ReleasedAll (SkipWithError msg s) :=
    fun msg s => ReleasedAll_of_isSome _ (SkipWithError_isSome msg s)
  unfold ThreeD.Comm_3d_cudaMemcpy2DAsync_NUMAToGPU
  refine execW_step (J := fun s => HeldIn (Owned [] [] []) s.world)
    (K := fun s => HeldIn (Owned [] [] []) s.world) _ _ (fun s hs => ⟨hs.ok⟩) ?_
  refine OR_SKIP_step (K := fun _ s => HeldIn (Owned [] [] []) s.world) _ _ _
    (fun s hs _ => HeldIn_same (held_cuda_reset_device _ _) hs) (hskip _) fun _ => ?_
  refine OR_SKIP_step (K := fun stream s => HeldIn (Owned [.stream stream] [] []) s.world) _ _ _
    (fun s hs h => HeldIn_cons _ (held_cudaStreamCreate _ h) (Or.inl (by simp))
      (Owned_mono (by simp) (by simp) (by simp)) hs) (hskip _) fun stream => ?_
  refine OR_SKIP_step
    (K := fun start s => HeldIn (Owned [.event start, .stream stream] [] []) s.world) _ _ _
    (fun s hs h => HeldIn_cons _ (held_cudaEventCreate _ h) (Or.inl (by simp))
      (Owned_mono (by simp) (by simp) (by simp)) hs) (hskip _) fun start => ?_
  refine OR_SKIP_step
    (K := fun stop s => HeldIn (Owned [.event stop, .event start, .stream stream] [] [])
      s.world) _ _ _
    (fun s hs h => HeldIn_cons _ (held_cudaEventCreate _ h) (Or.inl (by simp))
      (Owned_mono (by simp) (by simp) (by simp)) hs) (hskip _) fun stop => ?_
  refine OR_SKIP_step
    (K := fun _ s => HeldIn (Owned [.event stop, .event start, .stream stream] [] [])
      s.world) _ _ _
    (fun s hs _ => HeldIn_same (held_cudaSetDevice _ _) hs) (hskip _) fun _ => ?_
  refine OR_SKIP_step
    (K := fun (dst : cudaPitchedPtr) s =>
      HeldIn (Owned [.event stop, .event start, .stream stream] [dst.ptr] []) s.world) _ _ _
    (fun s hs h => HeldIn_cons _ (held_cudaMalloc3D _ _ h)
      (Or.inr (Or.inl ⟨_, List.mem_singleton_self _, by simp [Resource.isDeviceMemAt]⟩))
      (Owned_mono (by simp) (by simp) (by simp)) hs) (hskip _) fun dst => ?_
  simp only []
  refine OR_SKIP_step
    (K := fun _ s =>
      HeldIn (Owned [.event stop, .event start, .stream stream] [dst.ptr] []) s.world) _ _ _
    (fun s hs _ => HeldIn_same (held_cudaMemset3D _ _ _ _) hs) (hskip _) fun _ => ?_
  intro s hs
  rw [hostAlloc_apply]
  have hs' : HeldIn (Owned [.event stop, .event start, .stream stream] [dst.ptr]
      [(s.world.hostAlloc (size_t (size_t (dst.pitch * 512) * 512))).1])
      ({ s with world := (s.world.hostAlloc (size_t (size_t (dst.pitch * 512) * 512))).2 } :
        Sys).world :=
    HeldIn_cons _ (held_hostAlloc _ _)
      (Or.inr (Or.inr ⟨_, List.mem_singleton_self _, by simp [Resource.isHostMemAt]⟩))
      (Owned_mono (by simp) (by simp) (by simp)) hs
  revert hs'
  generalize (s.world.hostAlloc (size_t (size_t (dst.pitch * 512) * 512))).1 = srcPtr
  generalize ({ s with world := (s.world.hostAlloc (size_t (size_t (dst.pitch * 512) * 512))).2 }
    : Sys) = s'
  revert s'
  refine OR_SKIP_step
    (K := fun _ s => HeldIn (Owned [.hostRegistration srcPtr, .event stop, .event start,
      .stream stream] [dst.ptr] [srcPtr]) s.world) _ _ _
    (fun s hs h => HeldIn_cons _ (held_cudaHostRegister _ _ _ h) (Or.inl (by simp))
      (Owned_mono (by simp) (by simp) (by simp)) hs) (hskip _) fun _ => ?_
  exact forStateLoop_sys (J := fun s => HeldIn (Owned [.hostRegistration srcPtr, .event stop,
      .event start, .stream stream] [dst.ptr] [srcPtr]) s.world) _ _ _
    (fun next hnext => threeD_iteration_released _ _ _ _ _ _ next
      (threeD_afterLoop_isSome _ _ _ _ _ _ _ _ _) hnext)
    (threeD_afterLoop_released args numaId cudaId stream start stop
      ⟨srcPtr, dst.pitch, dst.xsize, dst.ysize⟩ dst _)

theorem Holds_frame {A : Resource → Prop} (s : Sys) (w : World) (hheld : w.held = s.world.held)
    (henv : w.env = s.world.env) (h : Holds A s) : Holds A { s with world := w } :=
  ⟨fun r hr => h.held r (hheld ▸ hr), henv ▸ h.env⟩

theorem Holds_state {A : Resource → Prop} (s s' : Sys) (hw : s'.world = s.world)
    (h : Holds A s) : Holds A s' :=
  ⟨fun r hr => h.held r (hw ▸ hr), hw ▸ h.env⟩

theorem Holds_skip {A : Resource → Prop} (msg : String) (s : Sys) (h : Holds A s) :
    Holds A (SkipWithError msg s) :=
  ⟨h.held, h.env⟩

theorem Holds_sub {A B : Resource → Prop} (s : Sys) (w : World) (new : Resource)
    (hheld : ∀ r ∈ w.held, r ∈ s.world.held ∨ r = new) (henv : w.env = s.world.env)
    (hnew : B new ∨ ∃ h, new = .event h) (hAB : ∀ r, A r → B r) (h : Holds A s) :
    Holds B { s with world := w } := by
  refine ⟨fun r hr => ?_, henv ▸ h.env⟩
  rcases hheld r hr with h1 | h1
  · rcases h.held r h1 with h2 | h2
    · exact Or.inl (hAB r h2)
    · exact Or.inr h2
  · rw [h1]
    exact hnew

theorem Holds_filter {A : Resource → Prop} (s : Sys) (w : World) (p : Resource → Prop)
    [DecidablePred p] (hheld : w.held = s.world.held.filter fun r => !decide (p r))
    (henv : w.env = s.world.env) (h : Holds A s) :
    Holds (fun r => A r ∧ ¬ p r) { s with world := w } := by
  refine ⟨fun r hr => ?_, henv ▸ h.env⟩
  rw [show ({ s with world := w } : Sys).world.held = w.held from rfl, hheld,
    List.mem_filter] at hr
  rcases h.held r hr.1 with h2 | h2
  · exact Or.inl ⟨h2, by simpa using hr.2⟩
  · exact Or.inr h2

theorem Holds_mono {A B : Resource → Prop} (s : Sys) (hAB : ∀ r, A r → B r) (h : Holds A s) :
    Holds B s :=
  ⟨fun r hr => (h.held r hr).imp (hAB r) id, h.env⟩

/-- The code behind the loop of the single-path run leaves the held resources alone. -/
theorem pinned_afterLoop_holds (A : Resource → Prop) (args : Args) (bytes : Nat) (s : Sys)
    (h : Holds A s) : Holds A (Pinned.afterLoop args bytes s) := by
  simp only [Pinned.afterLoop, exec_apply, execW_apply, id]
  exact ⟨h.held, h.env⟩

theorem pinned_iteration_holds (A : Resource → Prop) (start stop src dst bytes : Nat)
    (after next : Sys → Sys) (hafter : ∀ s, Holds A s → Holds A (after s))
    (hnext : ∀ s, Holds A s → Holds A (next s)) :
    ∀ s, Holds A s → Holds A (Pinned.iteration start stop src dst bytes after next s) := by
  unfold Pinned.iteration
  refine call_sys (J := Holds A) (fun _ _ => True) _ _
    (fun s h => ⟨Holds_frame s _ (held_cudaEventRecord _ _ _) (env_cudaEventRecord _ _ _) h,
      trivial⟩) fun _ _ _ => ?_
  refine call_sys (J := Holds A) (fun _ _ => True) _ _
    (fun s h => ⟨Holds_frame s _ (held_cudaMemcpy _ _ _ _ _) (env_cudaMemcpy _ _ _ _ _) h,
      trivial⟩) fun cuda_err _ _ => ?_
  refine call_sys (J := Holds A) (fun _ _ => True) _ _
    (fun s h => ⟨Holds_frame s _ (held_cudaEventRecord _ _ _) (env_cudaEventRecord _ _ _) h,
      trivial⟩) fun _ _ _ => ?_
  refine call_sys (J := Holds A) (fun _ _ => True) _ _
    (fun s h => ⟨Holds_frame s _ (held_cudaEventSynchronize _ _)
      (env_cudaEventSynchronize _ _) h, trivial⟩) fun _ _ _ => ?_
  refine exec_sys (J := Holds A) _ _ (fun _ h => h) ?_
  by_cases hc : PRINT_IF_ERROR cuda_err ≠ .cudaSuccess
  · rw [if_pos hc]
    exact exec_sys (J := Holds A) _ _ (fun s h => Holds_skip _ s h) hafter
  rw [if_neg hc]
  refine call_sys (J := Holds A) (fun _ _ => True) _ _
    (fun s h => ⟨Holds_frame s _ (held_cudaEventElapsedTime _ _ _)
      (env_cudaEventElapsedTime _ _ _) h, trivial⟩) fun err _ _ => ?_
  by_cases hc' : PRINT_IF_ERROR err ≠ .cudaSuccess
  · rw [if_pos hc']
    exact exec_sys (J := Holds A) _ _ (fun s h => Holds_skip _ s h) hafter
  rw [if_neg hc']
  exact exec_sys (J := Holds A) _ _ (fun s h => Holds_state s _ rfl h) hnext

theorem OR_SKIP_cases {α : Type} {J : Sys → Prop} {K : α → Sys → Prop} {Q : Sys → Prop}
    (stmt : API α) (msg : String) (k : α → Sys → Sys)
    (hfail : ∀ s, J s → (stmt s.world).1 ≠ .cudaSuccess →
      Q (SkipWithError msg { s with world := (stmt s.world).2.2 }))
    (hsucc : ∀ s, J s → (stmt s.world).1 = .cudaSuccess →
      K (stmt s.world).2.1 { s with world := (stmt s.world).2.2 })
    (hk : ∀ a s, K a s → Q (k a s)) : ∀ s, J s → Q (OR_SKIP stmt msg k s) := by
  intro s hs
  rw [OR_SKIP_apply]
  by_cases h : (stmt s.world).1 = .cudaSuccess
  · rw [if_neg (not_not.mpr h)]
    exact hk _ _ (hsucc s hs h)
  · rw [if_pos h]
    exact hfail s hs h

theorem defer_sys {J Q M : Sys → Prop} (stmt rest : Sys → Sys)
    (hstmt : ∀ f, M f → Q (stmt f)) (hrest : ∀ s, J s → M (rest s)) :
    ∀ s, J s → Q (defer stmt rest s) := by
  intro s hs
  rw [defer_apply]
  exact hstmt _ (hrest s hs)

theorem held_cudaMalloc_of_ne (bytes : Nat) (w : World)
    (h : (cudaMalloc bytes w).1 ≠ .cudaSuccess) : (cudaMalloc bytes w).2.2.held = w.held := by
  simp only [cudaMalloc, World.call] at h ⊢
  rw [if_neg h]

theorem held_cudaHostRegister_of_ne (ptr bytes : Nat) (w : World)
    (h : (cudaHostRegister ptr bytes w).1 ≠ .cudaSuccess) :
    (cudaHostRegister ptr bytes w).2.2.held = w.held := by
  simp only [cudaHostRegister, World.call] at h ⊢
  rw [if_neg h]

theorem EventsOnly_of_holds (f : Sys) (h : Holds (fun _ => False) f) : EventsOnly f :=
  ⟨Or.inr fun r hr => (h.held r hr).elim False.elim id⟩

/-- The part of `Comm_NUMAMemcpy_PinnedToGPU` behind the registration of the
`defer` for the device allocation. -/
theorem pinned_rest_holds (args : Args) (src dst bytes : Nat) :
    ∀ s, Holds (Owned [.hostRegistration src] [dst] [src]) s →
      Holds (Owned [.hostRegistration src] [dst] [src])
        (OR_SKIP (cudaMemset dst 0 bytes) (Pinned.NAME ++ " failed to perform cudaMemset")
          (fun _ => call cudaEventCreate fun _ start => call cudaEventCreate fun _ stop =>
            forStateLoop args
              (Pinned.iteration start stop src dst bytes (Pinned.afterLoop args bytes))
              (Pinned.afterLoop args bytes)) s) := by
  refine OR_SKIP_cases (J := Holds (Owned [.hostRegistration src] [dst] [src]))
    (K := fun _ => Holds (Owned [.hostRegistration src] [dst] [src])) _ _ _
    (fun s h _ => Holds_skip _ _
      (Holds_frame s _ (held_cudaMemset _ _ _ _) (env_cudaMemset _ _ _ _) h))
    (fun s h _ => Holds_frame s _ (held_cudaMemset _ _ _ _) (env_cudaMemset _ _ _ _) h)
    fun _ => ?_
  refine call_sys (J := Holds (Owned [.hostRegistration src] [dst] [src])) (fun _ _ => True)
    _ _ (fun s h => ⟨Holds_sub s _ _ (held_cudaEventCreate_sub _) (env_cudaEventCreate _)
      (Or.inr ⟨_, rfl⟩) (fun _ hr => hr) h, trivial⟩) fun _ start _ => ?_
  refine call_sys (J := Holds (Owned [.hostRegistration src] [dst] [src])) (fun _ _ => True)
    _ _ (fun s h => ⟨Holds_sub s _ _ (held_cudaEventCreate_sub _) (env_cudaEventCreate _)
      (Or.inr ⟨_, rfl⟩) (fun _ hr => hr) h, trivial⟩) fun _ stop _ => ?_
  exact forStateLoop_sys (J := Holds (Owned [.hostRegistration src] [dst] [src])) _ _ _
    (fun next hnext => pinned_iteration_holds _ _ _ _ _ _ _ next
      (pinned_afterLoop_holds _ _ _) hnext)
    (pinned_afterLoop_holds _ _ _)

theorem Holds_cudaFree (A : Resource → Prop) (ptr : Nat) (f : Sys) (h : Holds A f) :
    Holds (fun r => A r ∧ ¬ Resource.isDeviceMemAt ptr r = true)
      (call (cudaFree ptr) (fun _ _ => id) f) := by
  rw [call_apply]
  exact Holds_filter f _ _
    (held_cudaFree ptr f.world ((err_cudaFree ptr f.world).trans (h.env _ ptr).1))
    (env_cudaFree ptr f.world) h

theorem Holds_cudaHostUnregister (A : Resource → Prop) (ptr : Nat) (f : Sys) (h : Holds A f) :
    Holds (fun r => A r ∧ ¬ r = .hostRegistration ptr)
      (call (cudaHostUnregister ptr) (fun _ _ => id) f) := by
  rw [call_apply]
  exact Holds_filter f _ _
    (held_cudaHostUnregister ptr f.world
      ((err_cudaHostUnregister ptr f.world).trans (h.env _ ptr).2))
    (env_cudaHostUnregister ptr f.world) h

theorem Holds_hostFree (A : Resource → Prop) (ptr : Nat) (f : Sys) (h : Holds A f) :
    Holds (fun r => A r ∧ ¬ Resource.isHostMemAt ptr r = true)
      (execW (World.hostFree ptr) id f) := by
  rw [execW_apply]
  exact Holds_filter f _ _ (held_hostFree ptr f.world) rfl h

/-- Unless its host registration fails, `Comm_NUMAMemcpy_PinnedToGPU` returns,
on every path, holding nothing but events (when its release calls succeed). -/
theorem pinned_events_only (args : Args) (s : Sys) (hs : Holds (fun _ => False) s)
    (herr : s.state.error_message = none) :
    EventsOnly (Pinned.Comm_NUMAMemcpy_PinnedToGPU args s) := by
  unfold Pinned.Comm_NUMAMemcpy_PinnedToGPU
  by_cases h1 : (!args.has_cuda) = true
  · rw [if_pos h1]
    exact EventsOnly_of_holds _ (Holds_skip _ _ hs)
  rw [if_neg h1]
  by_cases h2 : (!args.has_numa) = true
  · rw [if_pos h2]
    exact EventsOnly_of_holds _ (Holds_skip _ _ hs)
  rw [if_neg h2]
  have hJ : Holds (fun _ => False) s ∧ s.state.error_message = none := ⟨hs, herr⟩
  clear hs herr
  revert s
  refine execW_step (J := fun s => Holds (fun _ => False) s ∧ s.state.error_message = none)
    (K := fun s => Holds (fun _ => False) s ∧ s.state.error_message = none) _ _
    (fun s h => ⟨⟨h.1.held, h.1.env⟩, h.2⟩) ?_
  refine OR_SKIP_cases
    (K := fun _ s => Holds (fun _ => False) s ∧ s.state.error_message = none) _ _ _
    (fun s h _ => EventsOnly_of_holds _ (Holds_skip _ _
      (Holds_frame s _ (held_cuda_reset_device _ _) (env_cuda_reset_device _ _) h.1)))
    (fun s h _ => ⟨Holds_frame s _ (held_cuda_reset_device _ _) (env_cuda_reset_device _ _)
      h.1, h.2⟩) fun _ => ?_
  intro s hs
  rw [hostAlloc_apply]
  have hs' : Holds (Owned [] [] [(s.world.hostAlloc (shl_ull 1 (size_t (args.range 0)))).1])
        ({ s with world := (s.world.hostAlloc (shl_ull 1 (size_t (args.range 0)))).2 } : Sys)
      ∧ ({ s with world := (s.world.hostAlloc (shl_ull 1 (size_t (args.range 0)))).2 } :
        Sys).state.error_message = none :=
    ⟨Holds_sub s _ _ (fun r hr => by
        rw [held_hostAlloc, List.mem_cons] at hr
        exact hr.symm) rfl
      (Or.inl (Or.inr (Or.inr ⟨_, List.mem_singleton_self _, by simp [Resource.isHostMemAt]⟩)))
      (fun _ hf => hf.elim) hs.1, hs.2⟩
  revert hs'
  generalize (s.world.hostAlloc (shl_ull 1 (size_t (args.range 0)))).1 = src
  generalize ({ s with world := (s.world.hostAlloc (shl_ull 1 (size_t (args.range 0)))).2 } :
    Sys) = s'
  revert s'
  refine OR_SKIP_cases
    (J := fun s => Holds (Owned [] [] [src]) s ∧ s.state.error_message = none)
    (K := fun _ s => Holds (Owned [.hostRegistration src] [] [src]) s) _ _ _
    (fun s h _ => ⟨Or.inl (by simp only [SkipWithError, h.2, Pinned.registerMessage])⟩)
    (fun s h hok => Holds_sub s _ _ (fun r hr => by
        rw [held_cudaHostRegister _ _ _ hok, List.mem_cons] at hr
        exact hr.symm) (env_cudaHostRegister _ _ _) (Or.inl (Or.inl (by simp)))
      (Owned_mono (by simp) (by simp) (by simp)) h.1)
    fun _ => ?_
  refine defer_sys (M := Holds (Owned [.hostRegistration src] [] [])) _ _ (fun f hf => ?_) ?_
  · refine EventsOnly_of_holds _ (Holds_mono _ (fun r hr => ?_)
      (Holds_cudaHostUnregister _ src f hf))
    rcases hr.1 with h | ⟨p, hp, _⟩ | ⟨p, hp, _⟩
    · exact hr.2 (List.mem_singleton.mp h)
    · cases hp
    · cases hp
  refine defer_sys (M := Holds (Owned [.hostRegistration src] [] [src])) _ _
    (fun f hf => ?_) ?_
  · refine Holds_mono _ (fun r hr => ?_) (Holds_hostFree _ src f hf)
    rcases hr.1 with h | ⟨p, hp, _⟩ | ⟨p, hp, h⟩
    · exact Or.inl h
    · cases hp
    · rw [List.mem_singleton] at hp
      exact absurd (hp ▸ h) hr.2
  refine OR_SKIP_cases (K := fun _ s => Holds (Owned [.hostRegistration src] [] [src]) s) _ _ _
    (fun s h _ => Holds_skip _ _
      (Holds_frame s _ (held_cudaSetDevice _ _) (env_cudaSetDevice _ _) h))
    (fun s h _ => Holds_frame s _ (held_cudaSetDevice _ _) (env_cudaSetDevice _ _) h)
    fun _ => ?_
  refine OR_SKIP_cases
    (K := fun dst s => Holds (Owned [.hostRegistration src] [dst] [src]) s) _ _ _
    (fun s h hne => Holds_skip _ _
      (Holds_frame s _ (held_cudaMalloc_of_ne _ _ hne) (env_cudaMalloc _ _) h))
    (fun s h hok => Holds_sub s _ _ (fun r hr => by
        rw [held_cudaMalloc _ _ hok, List.mem_cons] at hr
        exact hr.symm) (env_cudaMalloc _ _)
      (Or.inl (Or.inr (Or.inl ⟨_, List.mem_singleton_self _,
        by simp [Resource.isDeviceMemAt]⟩)))
      (Owned_mono (by simp) (by simp) (by simp)) h)
    fun dst => ?_
  refine defer_sys (M := Holds (Owned [.hostRegistration src] [dst] [src])) _ _
    (fun f hf => ?_) (pinned_rest_holds args src dst _)
  refine Holds_mono _ (fun r hr => ?_) (Holds_cudaFree _ dst f hf)
  rcases hr.1 with h | ⟨p, hp, h⟩ | ⟨p, hp, h⟩
  · exact Or.inl h
  · rw [List.mem_singleton] at hp
    exact absurd (hp ▸ h) hr.2
  · exact Or.inr (Or.inr ⟨p, hp, h⟩)

theorem forEach_sys {α β : Type} {J Q : Sys → Prop}
    (body : α → β → (β → Sys → Sys) → Sys → Sys) (after : β → Sys → Sys)
    (hbody : ∀ x acc cont, (∀ acc s, J s → Q (cont acc s)) → ∀ s, J s → Q (body x acc cont s))
    (hafter : ∀ acc s, J s → Q (after acc s)) :
    ∀ (xs : List α) (acc : β) (s : Sys), J s → Q (forEach xs body after acc s)
  | [], acc, s, hs => by
    rw [forEach_nil]
    exact hafter acc s hs
  | x :: xs, acc, s, hs => by
    rw [forEach_cons]
    exact hbody x acc _ (fun acc s hs => forEach_sys body after hbody hafter xs acc s hs) s hs

theorem HandlesOnly_skip (msg : String) (s : Sys) : HandlesOnly (SkipWithError msg s) := by
  constructor
  intro hn
  have := SkipWithError_isSome msg s
  rw [hn] at this
  cases this

theorem duplex_iteration_holds (A : Resource → Prop)
    (streams starts stops srcs dsts : List Nat) (bytes : Nat) (next : Sys → Sys)
    (hnext : ∀ s, Holds A s → HandlesOnly (next s)) :
    ∀ s, Holds A s →
      HandlesOnly (Duplex.iteration streams starts stops srcs dsts bytes next s) := by
  have hskip : ∀ (msg : String) (s : Sys), Holds A s → HandlesOnly (SkipWithError msg s) :=
    fun msg s _ => HandlesOnly_skip msg s
  unfold Duplex.iteration
  refine forEach_sys (J := Holds A) _ _ (fun i _ cont hcont => ?_) (fun _ => ?_) _ _
  · refine OR_SKIP_sys (J := Holds A) (fun _ => True) _ _ _
      (fun s h => ⟨Holds_frame s _ (held_cudaEventRecord _ _ _) (env_cudaEventRecord _ _ _) h,
        trivial⟩) (hskip _) fun _ _ => ?_
    refine OR_SKIP_sys (J := Holds A) (fun _ => True) _ _ _
      (fun s h => ⟨Holds_frame s _ (held_cudaMemcpyAsync _ _ _ _ _ _)
        (env_cudaMemcpyAsync _ _ _ _ _ _) h, trivial⟩) (hskip _) fun _ _ => ?_
    refine OR_SKIP_sys (J := Holds A) (fun _ => True) _ _ _
      (fun s h => ⟨Holds_frame s _ (held_cudaEventRecord _ _ _) (env_cudaEventRecord _ _ _) h,
        trivial⟩) (hskip _) fun _ _ => ?_
    exact hcont ()
  refine forEach_sys (J := Holds A) _ _ (fun i _ cont hcont => ?_) (fun _ => ?_) _ _
  · refine OR_SKIP_sys (J := Holds A) (fun _ => True) _ _ _
      (fun s h => ⟨Holds_frame s _ (held_cudaEventSynchronize _ _)
        (env_cudaEventSynchronize _ _) h, trivial⟩) (hskip _) fun _ _ => ?_
    exact hcont ()
  refine forEach_sys (J := Holds A) _ _ (fun i _ cont hcont => ?_) (fun _ => ?_) _ _
  · refine forEach_sys (J := Holds A) _ _ (fun i _ cont hcont => ?_) hcont _ _
    refine OR_SKIP_sys (J := Holds A) (fun _ => True) _ _ _
      (fun s h => ⟨Holds_frame s _ (held_cudaEventElapsedTime _ _ _)
        (env_cudaEventElapsedTime _ _ _) h, trivial⟩) (hskip _) fun _ _ => ?_
    exact hcont _
  · exact exec_sys (J := Holds A) _ _ (fun s h => ⟨h.held, h.env⟩) hnext

/-- Behind the loop of the duplex run the four device allocations are freed. -/
theorem duplex_afterLoop_holds (args : Args) (gpu0 gpu1 : Int)
    (streams starts stops : List Nat) (p1 p2 p3 p4 bytes : Nat) :
    ∀ s, Holds (StreamOr [p4, p3, p2, p1]) s →
      HandlesOnly
        (Duplex.afterLoop args gpu0 gpu1 streams starts stops [p1, p3] [p2, p4] bytes s) := by
  have hskip : ∀ (msg : String) (s : Sys), Holds (StreamOr [p4, p3, p2, p1]) s →
      HandlesOnly (SkipWithError msg s) := fun msg s _ => HandlesOnly_skip msg s
  unfold Duplex.afterLoop
  repeat (refine exec_sys (J := Holds (StreamOr [p4, p3, p2, p1])) _ _
            (fun s h => ⟨h.held, h.env⟩) ?_)
  refine forEach_sys (J := Holds (StreamOr [p4, p3, p2, p1])) _ _
    (fun i _ cont hcont => ?_) (fun _ => ?_) _ _
  · repeat (refine OR_SKIP_sys (J := Holds (StreamOr [p4, p3, p2, p1])) (fun _ => True) _ _ _
              (fun s h => ⟨Holds_frame s _ (held_cudaEventElapsedTime _ _ _)
                (env_cudaEventElapsedTime _ _ _) h, trivial⟩) (hskip _) fun _ _ => ?_)
    exact hcont _
  repeat (refine exec_sys (J := Holds (StreamOr [p4, p3, p2, p1])) _ _
            (fun s h => ⟨h.held, h.env⟩) ?_)
  intro s hs
  simp only [forEach_cons, forEach_nil]
  have h1 := Holds_cudaFree _ p1 s hs
  rw [call_apply] at h1 ⊢
  have h3 := Holds_cudaFree _ p3 _ h1
  rw [call_apply] at h3 ⊢
  have h2 := Holds_cudaFree _ p2 _ h3
  rw [call_apply] at h2 ⊢
  have h4 := Holds_cudaFree _ p4 _ h2
  rw [call_apply] at h4 ⊢
  refine ⟨fun _ r hr => ?_⟩
  rcases h4.held r hr with ⟨⟨⟨⟨hA, n1⟩, n3⟩, n2⟩, n4⟩ | he
  · rcases hA with hst | h | ⟨p, hp, h⟩ | ⟨p, hp, _⟩
    · exact Or.inl hst
    · cases h
    · simp only [List.mem_cons, List.mem_singleton, List.not_mem_nil, or_false] at hp
      rcases hp with rfl | rfl | rfl | rfl
      · exact absurd h n4
      · exact absurd h n3
      · exact absurd h n2
      · exact absurd h n1
    · cases hp
  · exact Or.inr he

theorem StreamOr_mono {ps ps' : List Nat} (hps : ps ⊆ ps') (r : Resource)
    (h : StreamOr ps r) : StreamOr ps' r :=
  h.imp id (Owned_mono (List.Subset.refl _) hps (List.Subset.refl _) r)

theorem ite_sys {J Q : Sys → Prop} (c : Prop) [Decidable c] (f g : Sys → Sys)
    (hf : c → ∀ s, J s → Q (f s)) (hg : ¬c → ∀ s, J s → Q (g s)) :
    ∀ s, J s → Q ((if c then f else g) s) := by
  intro s hs
  by_cases h : c
  · rw [if_pos h]
    exact hf h s hs
  · rw [if_neg h]
    exact hg h s hs

theorem HandlesOnly_of_holds (s : Sys) (h : Holds (StreamOr []) s) : HandlesOnly s := by
  refine ⟨fun _ r hr => ?_⟩
  rcases h.held r hr with (hst | h | ⟨p, hp, _⟩ | ⟨p, hp, _⟩) | he
  · exact Or.inl hst
  · cases h
  · cases hp
  · cases hp
  · exact Or.inr he

/-- A run of `Comm_Duplex_Memcpy_GPUGPU` that is not skipped ends holding
only streams and events (when its `cudaFree` calls succeed). -/
theorem duplex_handles_only (args : Args) :
    ∀ s, Holds (StreamOr []) s → HandlesOnly (Duplex.Comm_Duplex_Memcpy_GPUGPU args s) := by
  unfold Duplex.Comm_Duplex_Memcpy_GPUGPU
  refine ite_sys (J := Holds (StreamOr [])) _ _ _ (fun _ s _ => HandlesOnly_skip _ s)
    fun _ => ?_
  refine ite_sys (J := Holds (StreamOr [])) _ _ _ (fun _ s _ => HandlesOnly_skip _ s)
    fun _ => ?_
  rcases hl : args.cuda_device_ids with _ | ⟨gpu0, _ | ⟨gpu1, t⟩⟩
  · exact fun s h => HandlesOnly_of_holds _ ⟨h.held, h.env⟩
  · exact fun s h => HandlesOnly_of_holds _ ⟨h.held, h.env⟩
  simp only []
  refine ite_sys (J := Holds (StreamOr [])) _ _ _ (fun _ s _ => HandlesOnly_skip _ s)
    fun _ => ?_
  refine OR_SKIP_cases (K := fun _ s => Holds (StreamOr []) s) _ _ _
    (fun _ _ _ => HandlesOnly_skip _ _)
    (fun s h _ => Holds_frame s _ (held_cuda_reset_device _ _) (env_cuda_reset_device _ _) h) fun _ => ?_
  refine OR_SKIP_cases (K := fun _ s => Holds (StreamOr []) s) _ _ _
    (fun _ _ _ => HandlesOnly_skip _ _)
    (fun s h _ => Holds_frame s _ (held_cuda_reset_device _ _) (env_cuda_reset_device _ _) h) fun _ => ?_
  refine OR_SKIP_cases (K := fun _ s => Holds (StreamOr []) s) _ _ _
    (fun _ _ _ => HandlesOnly_skip _ _)
    (fun s h _ => Holds_sub s _ _ (held_cudaStreamCreate_sub _) (env_cudaStreamCreate _) (Or.inl (Or.inl ⟨_, rfl⟩))
      (fun _ hr => hr) h) fun stream1 => ?_
  refine OR_SKIP_cases (K := fun _ s => Holds (StreamOr []) s) _ _ _
    (fun _ _ _ => HandlesOnly_skip _ _)
    (fun s h _ => Holds_sub s _ _ (held_cudaStreamCreate_sub _) (env_cudaStreamCreate _) (Or.inl (Or.inl ⟨_, rfl⟩))
      (fun _ hr => hr) h) fun stream2 => ?_
  refine OR_SKIP_cases (K := fun _ s => Holds (StreamOr []) s) _ _ _
    (fun _ _ _ => HandlesOnly_skip _ _)
    (fun s h _ => Holds_sub s _ _ (held_cudaEventCreate_sub _) (env_cudaEventCreate _) (Or.inr ⟨_, rfl⟩)
      (fun _ hr => hr) h) fun start1 => ?_
  refine OR_SKIP_cases (K := fun _ s => Holds (StreamOr []) s) _ _ _
    (fun _ _ _ => HandlesOnly_skip _ _)
    (fun s h _ => Holds_sub s _ _ (held_cudaEventCreate_sub _) (env_cudaEventCreate _) (Or.inr ⟨_, rfl⟩)
      (fun _ hr => hr) h) fun start2 => ?_
  refine OR_SKIP_cases (K := fun _ s => Holds (StreamOr []) s) _ _ _
    (fun _ _ _ => HandlesOnly_skip _ _)
    (fun s h _ => Holds_sub s _ _ (held_cudaEventCreate_sub _) (env_cudaEventCreate _) (Or.inr ⟨_, rfl⟩)
      (fun _ hr => hr) h) fun stop1 => ?_
  refine OR_SKIP_cases (K := fun _ s => Holds (StreamOr []) s) _ _ _
    (fun _ _ _ => HandlesOnly_skip _ _)
    (fun s h _ => Holds_sub s _ _ (held_cudaEventCreate_sub _) (env_cudaEventCreate _) (Or.inr ⟨_, rfl⟩)
      (fun _ hr => hr) h) fun stop2 => ?_
  refine OR_SKIP_cases (K := fun _ s => Holds (StreamOr []) s) _ _ _
    (fun _ _ _ => HandlesOnly_skip _ _)
    (fun s h _ => Holds_frame s _ (held_cudaSetDevice _ _) (env_cudaSetDevice _ _) h) fun _ => ?_
  refine OR_SKIP_cases (K := fun p1 s => Holds (StreamOr [p1]) s) _ _ _
    (fun _ _ _ => HandlesOnly_skip _ _)
    (fun s h _ => Holds_sub s _ _ (held_cudaMalloc_sub _ _) (env_cudaMalloc _ _)
      (Or.inl (Or.inr (Or.inr (Or.inl ⟨_, List.mem_cons_self _ _,
        by simp [Resource.isDeviceMemAt]⟩))))
      (StreamOr_mono (List.subset_cons_self _ _)) h) fun p1 => ?_
  refine OR_SKIP_cases (K := fun _ s => Holds (StreamOr [p1]) s) _ _ _
    (fun _ _ _ => HandlesOnly_skip _ _)
    (fun s h _ => Holds_frame s _ (held_cudaMemset _ _ _ _) (env_cudaMemset _ _ _ _) h) fun _ => ?_
  refine call_sys (J := Holds (StreamOr [p1])) (fun _ _ => True) _ _
    (fun s h => ⟨Holds_frame s _ (held_cudaDeviceEnablePeerAccess _ _)
      (env_cudaDeviceEnablePeerAccess _ _) h, trivial⟩) fun err _ _ => ?_
  refine ite_sys (J := Holds (StreamOr [p1])) _ _ _
    (fun _ s _ => HandlesOnly_skip _ s) fun _ => ?_
  refine OR_SKIP_cases (K := fun _ s => Holds (StreamOr [p1]) s) _ _ _
    (fun _ _ _ => HandlesOnly_skip _ _)
    (fun s h _ => Holds_frame s _ (held_cudaSetDevice _ _) (env_cudaSetDevice _ _) h) fun _ => ?_
  refine OR_SKIP_cases (K := fun p2 s => Holds (StreamOr [p2, p1]) s) _ _ _
    (fun _ _ _ => HandlesOnly_skip _ _)
    (fun s h _ => Holds_sub s _ _ (held_cudaMalloc_sub _ _) (env_cudaMalloc _ _)
      (Or.inl (Or.inr (Or.inr (Or.inl ⟨_, List.mem_cons_self _ _,
        by simp [Resource.isDeviceMemAt]⟩))))
      (StreamOr_mono (List.subset_cons_self _ _)) h) fun p2 => ?_
  refine OR_SKIP_cases (K := fun _ s => Holds (StreamOr [p2, p1]) s) _ _ _
    (fun _ _ _ => HandlesOnly_skip _ _)
    (fun s h _ => Holds_frame s _ (held_cudaMemset _ _ _ _) (env_cudaMemset _ _ _ _) h) fun _ => ?_
  refine call_sys (J := Holds (StreamOr [p2, p1])) (fun _ _ => True) _ _
    (fun s h => ⟨Holds_frame s _ (held_cudaDeviceEnablePeerAccess _ _)
      (env_cudaDeviceEnablePeerAccess _ _) h, trivial⟩) fun err _ _ => ?_
  refine ite_sys (J := Holds (StreamOr [p2, p1])) _ _ _
    (fun _ s _ => HandlesOnly_skip _ s) fun _ => ?_
  refine OR_SKIP_cases (K := fun _ s => Holds (StreamOr [p2, p1]) s) _ _ _
    (fun _ _ _ => HandlesOnly_skip _ _)
    (fun s h _ => Holds_frame s _ (held_cudaSetDevice _ _) (env_cudaSetDevice _ _) h) fun _ => ?_
  refine OR_SKIP_cases (K := fun p3 s => Holds (StreamOr [p3, p2, p1]) s) _ _ _
    (fun _ _ _ => HandlesOnly_skip _ _)
    (fun s h _ => Holds_sub s _ _ (held_cudaMalloc_sub _ _) (env_cudaMalloc _ _)
      (Or.inl (Or.inr (Or.inr (Or.inl ⟨_, List.mem_cons_self _ _,
        by simp [Resource.isDeviceMemAt]⟩))))
      (StreamOr_mono (List.subset_cons_self _ _)) h) fun p3 => ?_
  refine OR_SKIP_cases (K := fun _ s => Holds (StreamOr [p3, p2, p1]) s) _ _ _
    (fun _ _ _ => HandlesOnly_skip _ _)
    (fun s h _ => Holds_frame s _ (held_cudaMemset _ _ _ _) (env_cudaMemset _ _ _ _) h) fun _ => ?_
  refine OR_SKIP_cases (K := fun _ s => Holds (StreamOr [p3, p2, p1]) s) _ _ _
    (fun _ _ _ => HandlesOnly_skip _ _)
    (fun s h _ => Holds_frame s _ (held_cudaSetDevice _ _) (env_cudaSetDevice _ _) h) fun _ => ?_
  refine OR_SKIP_cases (K := fun p4 s => Holds (StreamOr [p4, p3, p2, p1]) s) _ _ _
    (fun _ _ _ => HandlesOnly_skip _ _)
    (fun s h _ => Holds_sub s _ _ (held_cudaMalloc_sub _ _) (env_cudaMalloc _ _)
      (Or.inl (Or.inr (Or.inr (Or.inl ⟨_, List.mem_cons_self _ _,
        by simp [Resource.isDeviceMemAt]⟩))))
      (StreamOr_mono (List.subset_cons_self _ _)) h) fun p4 => ?_
  refine OR_SKIP_cases (K := fun _ s => Holds (StreamOr [p4, p3, p2, p1]) s) _ _ _
    (fun _ _ _ => HandlesOnly_skip _ _)
    (fun s h _ => Holds_frame s _ (held_cudaMemset _ _ _ _) (env_cudaMemset _ _ _ _) h) fun _ => ?_
  exact forStateLoop_sys (J := Holds (StreamOr [p4, p3, p2, p1])) _ _ _
    (fun next hnext => duplex_iteration_holds _ _ _ _ _ _ _ next hnext)
    (duplex_afterLoop_holds args gpu0 gpu1 _ _ _ p1 p2 p3 p4 _)

/-! ### Whatever is held was acquired -/

theorem HeldAcquired_same {w w' : World} (hheld : w'.held = w.held)
    (hacq : w'.acquired = w.acquired) (h : HeldAcquired w) : HeldAcquired w' :=
  ⟨fun r hr => hacq ▸ h.ok r (hheld ▸ hr)⟩

theorem HeldAcquired_acquire (r : Resource) {w : World} (h : HeldAcquired w) :
    HeldAcquired (w.acquire r) := by
  constructor
  intro x hx
  simp only [World.acquire, List.mem_cons] at hx ⊢
  exact hx.imp id (h.ok x)

theorem HeldAcquired_release (p : Resource → Bool) {w : World} (h : HeldAcquired w) :
    HeldAcquired (w.release p) :=
  ⟨fun x hx => h.ok x (List.mem_of_mem_filter hx)⟩

theorem HeldAcquired_call (c : Call) {w : World} (h : HeldAcquired w) :
    HeldAcquired (w.call c).2 :=
  ⟨h.ok⟩

theorem HeldAcquired_fresh (n : Nat) {w : World} (h : HeldAcquired w) :
    HeldAcquired { w with fresh := n } :=
  ⟨h.ok⟩

theorem sub_cuda_reset_device (dev : Int) (w : World) (h : HeldAcquired w) :
    HeldAcquired (cuda_reset_device dev w).2.2 := HeldAcquired_call _ h

theorem sub_cudaStreamCreate (w : World) (h : HeldAcquired w) :
    HeldAcquired (cudaStreamCreate w).2.2 := by
  simp only [cudaStreamCreate]
  split
  · exact HeldAcquired_acquire _ (HeldAcquired_fresh _ (HeldAcquired_call _ h))
  · exact HeldAcquired_fresh _ (HeldAcquired_call _ h)

theorem sub_cudaEventCreate (w : World) (h : HeldAcquired w) :
    HeldAcquired (cudaEventCreate w).2.2 := by
  simp only [cudaEventCreate]
  split
  · exact HeldAcquired_acquire _ (HeldAcquired_fresh _ (HeldAcquired_call _ h))
  · exact HeldAcquired_fresh _ (HeldAcquired_call _ h)

theorem sub_cudaSetDevice (dev : Int) (w : World) (h : HeldAcquired w) :
    HeldAcquired (cudaSetDevice dev w).2.2 := by
  simp only [cudaSetDevice]
  split
  · exact ⟨(HeldAcquired_call (.cudaSetDevice dev) h).ok⟩
  · exact HeldAcquired_call _ h

theorem sub_cudaMalloc (bytes : Nat) (w : World) (h : HeldAcquired w) :
    HeldAcquired (cudaMalloc bytes w).2.2 := by
  simp only [cudaMalloc]
  split
  · exact HeldAcquired_acquire _ (HeldAcquired_fresh _ (HeldAcquired_call _ h))
  · exact HeldAcquired_fresh _ (HeldAcquired_call _ h)

theorem sub_cudaMalloc3D (extent : cudaExtent) (w : World) (h : HeldAcquired w) :
    HeldAcquired (cudaMalloc3D extent w).2.2 := by
  simp only [cudaMalloc3D]
  split
  · exact HeldAcquired_acquire _ (HeldAcquired_fresh _ (HeldAcquired_call _ h))
  · exact HeldAcquired_fresh _ (HeldAcquired_call _ h)

theorem sub_cudaMemset (ptr value bytes : Nat) (w : World) (h : HeldAcquired w) :
    HeldAcquired (cudaMemset ptr value bytes w).2.2 := HeldAcquired_call _ h

theorem sub_cudaMemset3D (q : cudaPitchedPtr) (value : Nat) (extent : cudaExtent) (w : World)
    (h : HeldAcquired w) : HeldAcquired (cudaMemset3D q value extent w).2.2 :=
  HeldAcquired_call _ h

theorem sub_cudaDeviceEnablePeerAccess (peer : Int) (w : World) (h : HeldAcquired w) :
    HeldAcquired (cudaDeviceEnablePeerAccess peer w).2.2 := HeldAcquired_call _ h

theorem sub_cudaHostRegister (ptr bytes : Nat) (w : World) (h : HeldAcquired w) :
    HeldAcquired (cudaHostRegister ptr bytes w).2.2 := by
  simp only [cudaHostRegister]
  split
  · exact HeldAcquired_acquire _ (HeldAcquired_call _ h)
  · exact HeldAcquired_call _ h

theorem sub_cudaHostUnregister (ptr : Nat) (w : World) (h : HeldAcquired w) :
    HeldAcquired (cudaHostUnregister ptr w).2.2 := by
  simp only [cudaHostUnregister]
  split
  · exact HeldAcquired_release _ (HeldAcquired_call _ h)
  · exact HeldAcquired_call _ h

theorem sub_cudaEventRecord (event stream : Nat) (w : World) (h : HeldAcquired w) :
    HeldAcquired (cudaEventRecord event stream w).2.2 := by
  simp only [cudaEventRecord]
  split
  · exact ⟨(HeldAcquired_call (.cudaEventRecord event stream) h).ok⟩
  · exact HeldAcquired_call _ h

theorem sub_cudaMemcpyAsync (dst src bytes : Nat) (kind : cudaMemcpyKind) (stream : Nat)
    (w : World) (h : HeldAcquired w) :
    HeldAcquired (cudaMemcpyAsync dst src bytes kind stream w).2.2 := HeldAcquired_call _ h

theorem sub_cudaMemcpy (dst src bytes : Nat) (kind : cudaMemcpyKind) (w : World)
    (h : HeldAcquired w) : HeldAcquired (cudaMemcpy dst src bytes kind w).2.2 :=
  HeldAcquired_call _ h

theorem sub_cudaMemcpy3DAsync (params : cudaMemcpy3DParms) (stream : Nat) (w : World)
    (h : HeldAcquired w) : HeldAcquired (cudaMemcpy3DAsync params stream w).2.2 :=
  HeldAcquired_call _ h

theorem sub_cudaEventSynchronize (event : Nat) (w : World) (h : HeldAcquired w) :
    HeldAcquired (cudaEventSynchronize event w).2.2 := HeldAcquired_call _ h

theorem sub_cudaEventElapsedTime (start stop : Nat) (w : World) (h : HeldAcquired w) :
    HeldAcquired (cudaEventElapsedTime start stop w).2.2 := HeldAcquired_call _ h

theorem sub_cudaEventDestroy (event : Nat) (w : World) (h : HeldAcquired w) :
    HeldAcquired (cudaEventDestroy event w).2.2 := by
  simp only [cudaEventDestroy]
  split
  · exact HeldAcquired_release _ (HeldAcquired_call _ h)
  · exact HeldAcquired_call _ h

theorem sub_cudaStreamDestroy (stream : Nat) (w : World) (h : HeldAcquired w) :
    HeldAcquired (cudaStreamDestroy stream w).2.2 := by
  simp only [cudaStreamDestroy]
  split
  · exact HeldAcquired_release _ (HeldAcquired_call _ h)
  · exact HeldAcquired_call _ h

theorem sub_cudaFree (ptr : Nat) (w : World) (h : HeldAcquired w) :
    HeldAcquired (cudaFree ptr w).2.2 := by
  simp only [cudaFree]
  split
  · exact HeldAcquired_release _ (HeldAcquired_call _ h)
  · exact HeldAcquired_call _ h

theorem sub_hostAlloc (bytes : Nat) (w : World) (h : HeldAcquired w) :
    HeldAcquired (w.hostAlloc bytes).2 :=
  HeldAcquired_acquire _ (HeldAcquired_fresh _ h)

theorem sub_hostFree (ptr : Nat) (w : World) (h : HeldAcquired w) :
    HeldAcquired (w.hostFree ptr) := HeldAcquired_release _ h

theorem sub_numa_bind_node (node : Int) (w : World) (h : HeldAcquired w) :
    HeldAcquired (w.numa_bind_node node) := ⟨h.ok⟩

theorem Keeps_id : Keeps id := ⟨fun _ h => h⟩

theorem Keeps_SkipWithError (msg : String) : Keeps (SkipWithError msg) := ⟨fun _ h => h⟩

theorem Keeps_assertFailed : Keeps assertFailed := ⟨fun _ h => h⟩

theorem Keeps_exec (f k : Sys → Sys) (hf : ∀ s, (f s).world = s.world) (hk : Keeps k) :
    Keeps (exec f k) := by
  refine ⟨fun s hs => ?_⟩
  rw [exec_apply]
  exact hk.ok _ (by rw [hf]; exact hs)

theorem Keeps_execW (f : World → World) (k : Sys → Sys)
    (hf : ∀ w, HeldAcquired w → HeldAcquired (f w)) (hk : Keeps k) : Keeps (execW f k) := by
  refine ⟨fun s hs => ?_⟩
  rw [execW_apply]
  exact hk.ok _ (hf _ hs)

theorem Keeps_call {α : Type} (stmt : API α) (k : cudaError → α → Sys → Sys)
    (hstmt : ∀ w, HeldAcquired w → HeldAcquired (stmt w).2.2) (hk : ∀ e a, Keeps (k e a)) :
    Keeps (call stmt k) := by
  refine ⟨fun s hs => ?_⟩
  rw [call_apply]
  exact (hk _ _).ok _ (hstmt _ hs)

theorem Keeps_hostAlloc (bytes : Nat) (k : Nat → Sys → Sys) (hk : ∀ a, Keeps (k a)) :
    Keeps (hostAlloc bytes k) := by
  refine ⟨fun s hs => ?_⟩
  rw [hostAlloc_apply]
  exact (hk _).ok _ (sub_hostAlloc _ _ hs)

theorem Keeps_OR_SKIP {α : Type} (stmt : API α) (msg : String) (k : α → Sys → Sys)
    (hstmt : ∀ w, HeldAcquired w → HeldAcquired (stmt w).2.2) (hk : ∀ a, Keeps (k a)) :
    Keeps (OR_SKIP stmt msg k) := by
  refine ⟨fun s hs => ?_⟩
  rw [OR_SKIP_apply]
  split
  · exact hstmt _ hs
  · exact (hk _).ok _ (hstmt _ hs)

theorem Keeps_OR_SKIP_AND_BREAK {α : Type} (stmt : API α) (msg : String) (after : Sys → Sys)
    (k : α → Sys → Sys) (hstmt : ∀ w, HeldAcquired w → HeldAcquired (stmt w).2.2)
    (hafter : Keeps after) (hk : ∀ a, Keeps (k a)) :
    Keeps (OR_SKIP_AND_BREAK stmt msg after k) := by
  refine ⟨fun s hs => ?_⟩
  rw [OR_SKIP_AND_BREAK_apply]
  split
  · exact hafter.ok _ (hstmt _ hs)
  · exact (hk _).ok _ (hstmt _ hs)

theorem Keeps_defer (stmt rest : Sys → Sys) (hstmt : Keeps stmt) (hrest : Keeps rest) :
    Keeps (defer stmt rest) := by
  refine ⟨fun s hs => ?_⟩
  rw [defer_apply]
  exact hstmt.ok _ (hrest.ok _ hs)

theorem Keeps_ite (c : Prop) [Decidable c] (f g : Sys → Sys) (hf : Keeps f) (hg : Keeps g) :
    Keeps (if c then f else g) := by
  split
  · exact hf
  · exact hg

theorem Keeps_forEach {α β : Type} (body : α → β → (β → Sys → Sys) → Sys → Sys)
    (after : β → Sys → Sys)
    (hbody : ∀ x acc cont, (∀ acc, Keeps (cont acc)) → Keeps (body x acc cont))
    (hafter : ∀ acc, Keeps (after acc)) :
    ∀ (xs : List α) (acc : β), Keeps (forEach xs body after acc)
  | [], acc => by
    rw [forEach_nil]
    exact hafter acc
  | x :: xs, acc => by
    rw [forEach_cons]
    exact hbody x acc _ (Keeps_forEach body after hbody hafter xs)

theorem Keeps_forState (body : (Sys → Sys) → Sys → Sys) (after : Sys → Sys)
    (hbody : ∀ next, Keeps next → Keeps (body next)) (hafter : Keeps after) :
    ∀ n : Nat, Keeps (forState body after n)
  | 0 => by
    rw [forState_zero]
    exact hafter
  | n + 1 => by
    rw [forState_succ]
    exact hbody _ (Keeps_forState body after hbody hafter n)

theorem Keeps_forStateLoop (args : Args) (body : (Sys → Sys) → Sys → Sys) (after : Sys → Sys)
    (hbody : ∀ next, Keeps next → Keeps (body next)) (hafter : Keeps after) :
    Keeps (forStateLoop args body after) := by
  refine ⟨fun s hs => ?_⟩
  rw [forStateLoop_apply]
  exact (Keeps_forState body after hbody hafter _).ok s hs

theorem threeD_afterLoop_keeps (args : Args) (numaId cudaId : Int) (stream start stop : Nat)
    (src dst : cudaPitchedPtr) (copyBytes : Nat) :
    Keeps (ThreeD.afterLoop args numaId cudaId stream start stop src dst copyBytes) := by
  unfold ThreeD.afterLoop
  repeat (refine Keeps_exec _ _ (fun _ => rfl) ?_)
  refine Keeps_OR_SKIP _ _ _ (sub_cudaHostUnregister _) fun _ => ?_
  refine Keeps_execW _ _ (sub_hostFree _) ?_
  refine Keeps_OR_SKIP _ _ _ (sub_cudaEventDestroy _) fun _ => ?_
  refine Keeps_OR_SKIP _ _ _ (sub_cudaEventDestroy _) fun _ => ?_
  refine Keeps_OR_SKIP _ _ _ (sub_cudaStreamDestroy _) fun _ => ?_
  refine Keeps_OR_SKIP _ _ _ (sub_cudaFree _) fun _ => ?_
  exact Keeps_id

theorem threeD_iteration_keeps (params : cudaMemcpy3DParms) (stream start stop : Nat)
    (after next : Sys → Sys) (hafter : Keeps after) (hnext : Keeps next) :
    Keeps (ThreeD.iteration params stream start stop after next) := by
  unfold ThreeD.iteration
  refine Keeps_OR_SKIP_AND_BREAK _ _ _ _ (sub_cudaEventRecord _ _) hafter fun _ => ?_
  refine Keeps_OR_SKIP_AND_BREAK _ _ _ _ (sub_cudaMemcpy3DAsync _ _) hafter fun _ => ?_
  refine Keeps_OR_SKIP_AND_BREAK _ _ _ _ (sub_cudaEventRecord _ _) hafter fun _ => ?_
  refine Keeps_OR_SKIP_AND_BREAK _ _ _ _ (sub_cudaEventSynchronize _) hafter fun _ => ?_
  refine Keeps_OR_SKIP_AND_BREAK _ _ _ _ (sub_cudaEventElapsedTime _ _) hafter fun _ => ?_
  exact Keeps_exec _ _ (fun _ => rfl) hnext

theorem threeD_keeps (args : Args) (numaId cudaId : Int) :
    Keeps (ThreeD.Comm_3d_cudaMemcpy2DAsync_NUMAToGPU args numaId cudaId) := by
  unfold ThreeD.Comm_3d_cudaMemcpy2DAsync_NUMAToGPU
  refine Keeps_execW _ _ (sub_numa_bind_node _) ?_
  refine Keeps_OR_SKIP _ _ _ (sub_cuda_reset_device _) fun _ => ?_
  refine Keeps_OR_SKIP _ _ _ sub_cudaStreamCreate fun stream => ?_
  refine Keeps_OR_SKIP _ _ _ sub_cudaEventCreate fun start => ?_
  refine Keeps_OR_SKIP _ _ _ sub_cudaEventCreate fun stop => ?_
  refine Keeps_OR_SKIP _ _ _ (sub_cudaSetDevice _) fun _ => ?_
  refine Keeps_OR_SKIP _ _ _ (sub_cudaMalloc3D _) fun dst => ?_
  refine Keeps_OR_SKIP _ _ _ (sub_cudaMemset3D _ _ _) fun _ => ?_
  refine Keeps_hostAlloc _ _ fun srcPtr => ?_
  refine Keeps_OR_SKIP _ _ _ (sub_cudaHostRegister _ _) fun _ => ?_
  exact Keeps_forStateLoop _ _ _
    (fun next hnext => threeD_iteration_keeps _ _ _ _ _ next
      (threeD_afterLoop_keeps _ _ _ _ _ _ _ _ _) hnext)
    (threeD_afterLoop_keeps _ _ _ _ _ _ _ _ _)

theorem pinned_afterLoop_keeps (args : Args) (bytes : Nat) :
    Keeps (Pinned.afterLoop args bytes) := by
  unfold Pinned.afterLoop
  repeat (refine Keeps_exec _ _ (fun _ => rfl) ?_)
  exact Keeps_execW _ _ (sub_numa_bind_node _) Keeps_id

theorem pinned_iteration_keeps (start stop src dst bytes : Nat) (after next : Sys → Sys)
    (hafter : Keeps after) (hnext : Keeps next) :
    Keeps (Pinned.iteration start stop src dst bytes after next) := by
  unfold Pinned.iteration
  refine Keeps_call _ _ (sub_cudaEventRecord _ _) fun _ _ => ?_
  refine Keeps_call _ _ (sub_cudaMemcpy _ _ _ _) fun cuda_err _ => ?_
  refine Keeps_call _ _ (sub_cudaEventRecord _ _) fun _ _ => ?_
  refine Keeps_call _ _ (sub_cudaEventSynchronize _) fun _ _ => ?_
  refine Keeps_exec _ _ (fun _ => rfl) ?_
  refine Keeps_ite _ _ _ (Keeps_exec _ _ (fun _ => rfl) hafter) ?_
  refine Keeps_call _ _ (sub_cudaEventElapsedTime _ _) fun err _ => ?_
  refine Keeps_ite _ _ _ (Keeps_exec _ _ (fun _ => rfl) hafter) ?_
  exact Keeps_exec _ _ (fun _ => rfl) hnext

theorem pinned_keeps (args : Args) : Keeps (Pinned.Comm_NUMAMemcpy_PinnedToGPU args) := by
  unfold Pinned.Comm_NUMAMemcpy_PinnedToGPU
  refine Keeps_ite _ _ _ (Keeps_SkipWithError _) ?_
  refine Keeps_ite _ _ _ (Keeps_SkipWithError _) ?_
  refine Keeps_execW _ _ (sub_numa_bind_node _) ?_
  refine Keeps_OR_SKIP _ _ _ (sub_cuda_reset_device _) fun _ => ?_
  refine Keeps_hostAlloc _ _ fun src => ?_
  refine Keeps_OR_SKIP _ _ _ (sub_cudaHostRegister _ _) fun _ => ?_
  refine Keeps_defer _ _ (Keeps_call _ _ (sub_cudaHostUnregister _) fun _ _ => Keeps_id) ?_
  refine Keeps_defer _ _ (Keeps_execW _ _ (sub_hostFree _) Keeps_id) ?_
  refine Keeps_OR_SKIP _ _ _ (sub_cudaSetDevice _) fun _ => ?_
  refine Keeps_OR_SKIP _ _ _ (sub_cudaMalloc _) fun dst => ?_
  refine Keeps_defer _ _ (Keeps_call _ _ (sub_cudaFree _) fun _ _ => Keeps_id) ?_
  refine Keeps_OR_SKIP _ _ _ (sub_cudaMemset _ _ _) fun _ => ?_
  refine Keeps_call _ _ sub_cudaEventCreate fun _ start => ?_
  refine Keeps_call _ _ sub_cudaEventCreate fun _ stop => ?_
  exact Keeps_forStateLoop _ _ _
    (fun next hnext => pinned_iteration_keeps _ _ _ _ _ _ next
      (pinned_afterLoop_keeps _ _) hnext)
    (pinned_afterLoop_keeps _ _)

theorem duplex_afterLoop_keeps (args : Args) (gpu0 gpu1 : Int)
    (streams starts stops srcs dsts : List Nat) (bytes : Nat) :
    Keeps (Duplex.afterLoop args gpu0 gpu1 streams starts stops srcs dsts bytes) := by
  unfold Duplex.afterLoop
  repeat (refine Keeps_exec _ _ (fun _ => rfl) ?_)
  refine Keeps_forEach _ _ (fun _ sums cont hcont => ?_) (fun sums => ?_) _ _
  · refine Keeps_OR_SKIP _ _ _ (sub_cudaEventElapsedTime _ _) fun _ => ?_
    refine Keeps_OR_SKIP _ _ _ (sub_cudaEventElapsedTime _ _) fun _ => ?_
    refine Keeps_OR_SKIP _ _ _ (sub_cudaEventElapsedTime _ _) fun _ => ?_
    refine Keeps_OR_SKIP _ _ _ (sub_cudaEventElapsedTime _ _) fun _ => ?_
    exact hcont _
  · refine Keeps_exec _ _ (fun _ => rfl) ?_
    refine Keeps_exec _ _ (fun _ => rfl) ?_
    refine Keeps_forEach _ _
      (fun _ _ cont hcont => Keeps_call _ _ (sub_cudaFree _) fun _ _ => hcont _)
      (fun _ => ?_) _ _
    exact Keeps_forEach _ _
      (fun _ _ cont hcont => Keeps_call _ _ (sub_cudaFree _) fun _ _ => hcont _)
      (fun _ => Keeps_id) _ _

theorem duplex_iteration_keeps (streams starts stops srcs dsts : List Nat) (bytes : Nat)
    (next : Sys → Sys) (hnext : Keeps next) :
    Keeps (Duplex.iteration streams starts stops srcs dsts bytes next) := by
  unfold Duplex.iteration
  refine Keeps_forEach _ _ (fun i _ cont hcont => ?_) (fun _ => ?_) _ _
  · refine Keeps_OR_SKIP _ _ _ (sub_cudaEventRecord _ _) fun _ => ?_
    refine Keeps_OR_SKIP _ _ _ (sub_cudaMemcpyAsync _ _ _ _ _) fun _ => ?_
    refine Keeps_OR_SKIP _ _ _ (sub_cudaEventRecord _ _) fun _ => ?_
    exact hcont _
  refine Keeps_forEach _ _
    (fun _ _ cont hcont => Keeps_OR_SKIP _ _ _ (sub_cudaEventSynchronize _) fun _ => hcont _)
    (fun _ => ?_) _ _
  refine Keeps_forEach _ _ (fun start maxMillis cont hcont => ?_) (fun maxMillis => ?_) _ _
  · exact Keeps_forEach _ _
      (fun _ _ cont hcont =>
        Keeps_OR_SKIP _ _ _ (sub_cudaEventElapsedTime _ _) fun _ => hcont _)
      hcont _ _
  · exact Keeps_exec _ _ (fun _ => rfl) hnext

theorem duplex_keeps (args : Args) : Keeps (Duplex.Comm_Duplex_Memcpy_GPUGPU args) := by
  unfold Duplex.Comm_Duplex_Memcpy_GPUGPU
  refine Keeps_ite _ _ _ (Keeps_SkipWithError _) ?_
  refine Keeps_ite _ _ _ (Keeps_SkipWithError _) ?_
  rcases hl : args.cuda_device_ids with _ | ⟨gpu0, _ | ⟨gpu1, t⟩⟩
  · exact Keeps_assertFailed
  · exact Keeps_assertFailed
  simp only []
  refine Keeps_ite _ _ _ (Keeps_SkipWithError _) ?_
  refine Keeps_OR_SKIP _ _ _ (sub_cuda_reset_device _) fun _ => ?_
  refine Keeps_OR_SKIP _ _ _ (sub_cuda_reset_device _) fun _ => ?_
  refine Keeps_OR_SKIP _ _ _ sub_cudaStreamCreate fun stream1 => ?_
  refine Keeps_OR_SKIP _ _ _ sub_cudaStreamCreate fun stream2 => ?_
  refine Keeps_OR_SKIP _ _ _ sub_cudaEventCreate fun start1 => ?_
  refine Keeps_OR_SKIP _ _ _ sub_cudaEventCreate fun start2 => ?_
  refine Keeps_OR_SKIP _ _ _ sub_cudaEventCreate fun stop1 => ?_
  refine Keeps_OR_SKIP _ _ _ sub_cudaEventCreate fun stop2 => ?_
  refine Keeps_OR_SKIP _ _ _ (sub_cudaSetDevice _) fun _ => ?_
  refine Keeps_OR_SKIP _ _ _ (sub_cudaMalloc _) fun p1 => ?_
  refine Keeps_OR_SKIP _ _ _ (sub_cudaMemset _ _ _) fun _ => ?_
  refine Keeps_call _ _ (sub_cudaDeviceEnablePeerAccess _) fun err _ => ?_
  refine Keeps_ite _ _ _ (Keeps_SkipWithError _) ?_
  refine Keeps_OR_SKIP _ _ _ (sub_cudaSetDevice _) fun _ => ?_
  refine Keeps_OR_SKIP _ _ _ (sub_cudaMalloc _) fun p2 => ?_
  refine Keeps_OR_SKIP _ _ _ (sub_cudaMemset _ _ _) fun _ => ?_
  refine Keeps_call _ _ (sub_cudaDeviceEnablePeerAccess _) fun err _ => ?_
  refine Keeps_ite _ _ _ (Keeps_SkipWithError _) ?_
  refine Keeps_OR_SKIP _ _ _ (sub_cudaSetDevice _) fun _ => ?_
  refine Keeps_OR_SKIP _ _ _ (sub_cudaMalloc _) fun p3 => ?_
  refine Keeps_OR_SKIP _ _ _ (sub_cudaMemset _ _ _) fun _ => ?_
  refine Keeps_OR_SKIP _ _ _ (sub_cudaSetDevice _) fun _ => ?_
  refine Keeps_OR_SKIP _ _ _ (sub_cudaMalloc _) fun p4 => ?_
  refine Keeps_OR_SKIP _ _ _ (sub_cudaMemset _ _ _) fun _ => ?_
  exact Keeps_forStateLoop _ _ _
    (fun next hnext => duplex_iteration_keeps _ _ _ _ _ _ next hnext)
    (duplex_afterLoop_keeps _ _ _ _ _ _ _ _ _)

/-! ### Exits of the 3D run that have released everything -/

theorem Tidy_frame {A : Resource → Prop} (s : Sys) (w : World) (hheld : w.held = s.world.held)
    (henv : w.env = s.world.env) (h : Tidy A s) : Tidy A { s with world := w } :=
  ⟨fun r hr => h.held r (hheld ▸ hr), henv ▸ h.env⟩

theorem Tidy_state {A : Resource → Prop} (s s' : Sys) (hw : s'.world = s.world)
    (h : Tidy A s) : Tidy A s' :=
  ⟨fun r hr => h.held r (hw ▸ hr), hw ▸ h.env⟩

theorem Tidy_cons {A B : Resource → Prop} (s : Sys) (w : World) (new : Resource)
    (hheld : w.held = new :: s.world.held) (henv : w.env = s.world.env) (hnew : B new)
    (hAB : ∀ r, A r → B r) (h : Tidy A s) : Tidy B { s with world := w } := by
  refine ⟨fun r hr => ?_, henv ▸ h.env⟩
  rw [show ({ s with world := w } : Sys).world.held = w.held from rfl, hheld,
    List.mem_cons] at hr
  rcases hr with rfl | hr
  · exact hnew
  · exact hAB r (h.held r hr)

theorem Tidy_filter {A : Resource → Prop} (s : Sys) (w : World) (p : Resource → Prop)
    [DecidablePred p] (hheld : w.held = s.world.held.filter fun r => !decide (p r))
    (henv : w.env = s.world.env) (h : Tidy A s) :
    Tidy (fun r => A r ∧ ¬ p r) { s with world := w } := by
  refine ⟨fun r hr => ?_, henv ▸ h.env⟩
  rw [show ({ s with world := w } : Sys).world.held = w.held from rfl, hheld,
    List.mem_filter] at hr
  exact ⟨h.held r hr.1, by simpa using hr.2⟩

theorem Tidy_nil {s : Sys} (h : Tidy (Owned [] [] []) s) : s.world.held = [] := by
  refine List.eq_nil_iff_forall_not_mem.mpr fun r hr => ?_
  rcases h.held r hr with h | ⟨p, hp, _⟩ | ⟨p, hp, _⟩
  · cases h
  · cases hp
  · cases hp

theorem Released_skip_nil (msg : String) (s : Sys) (h : Tidy (Owned [] [] []) s) :
    Released (SkipWithError msg s) :=
  ⟨fun _ => Tidy_nil (s := s) h⟩

theorem Released_setup (msg : String) (hmsg : msg ∈ ThreeD.setupMessages) (s : Sys)
    (hs : s.state.error_message = none) : Released (SkipWithError msg s) := by
  refine ⟨fun h => absurd ?_ (h msg hmsg)⟩
  simp only [SkipWithError, hs]

theorem held_cudaStreamCreate_of_ne (w : World) (h : (cudaStreamCreate w).1 ≠ .cudaSuccess) :
    (cudaStreamCreate w).2.2.held = w.held := by
  simp only [cudaStreamCreate, World.call] at h ⊢
  rw [if_neg h]

/-- Behind the loop of the 3D run, when the teardown calls succeed, everything
the run may hold is released. -/
theorem threeD_afterLoop_nothing (args : Args) (numaId cudaId : Int)
    (stream start stop : Nat) (src dst : cudaPitchedPtr) (copyBytes : Nat) :
    ∀ s : Sys, Tidy (Owned [.hostRegistration src.ptr, .event stop, .event start,
        .stream stream] [dst.ptr] [src.ptr]) s →
      HoldsNothing
        (ThreeD.afterLoop args numaId cudaId stream start stop src dst copyBytes s) := by
  generalize hA : Owned [.hostRegistration src.ptr, .event stop, .event start,
    .stream stream] [dst.ptr] [src.ptr] = A
  unfold ThreeD.afterLoop
  repeat (refine exec_sys (J := Tidy A) _ _ (fun s h => Tidy_state s _ rfl h) ?_)
  refine OR_SKIP_cases (J := Tidy A)
    (K := fun _ s => Tidy (fun r => A r ∧ ¬ r = .hostRegistration src.ptr) s) _ _ _
    (fun s hs hne => absurd ((err_cudaHostUnregister _ _).trans (hs.env.1 _ _).2) hne)
    (fun s hs h => Tidy_filter s _ _ (held_cudaHostUnregister _ _ h)
      (env_cudaHostUnregister _ _) hs) fun _ => ?_
  refine execW_step (J := Tidy (fun r => A r ∧ ¬ r = .hostRegistration src.ptr))
    (K := Tidy (fun r => (A r ∧ ¬ r = .hostRegistration src.ptr)
      ∧ ¬ Resource.isHostMemAt src.ptr r = true)) _ _
    (fun s hs => Tidy_filter s _ _ (held_hostFree _ _) rfl hs) ?_
  refine OR_SKIP_cases
    (K := fun _ s => Tidy (fun r => ((A r ∧ ¬ r = .hostRegistration src.ptr)
      ∧ ¬ Resource.isHostMemAt src.ptr r = true) ∧ ¬ r = .event start) s) _ _ _
    (fun s hs hne => absurd ((err_cudaEventDestroy _ _).trans (hs.env.2 _ _).1) hne)
    (fun s hs h => Tidy_filter s _ _ (held_cudaEventDestroy _ _ h)
      (env_cudaEventDestroy _ _) hs) fun _ => ?_
  refine OR_SKIP_cases
    (K := fun _ s => Tidy (fun r => (((A r ∧ ¬ r = .hostRegistration src.ptr)
      ∧ ¬ Resource.isHostMemAt src.ptr r = true) ∧ ¬ r = .event start)
      ∧ ¬ r = .event stop) s) _ _ _
    (fun s hs hne => absurd ((err_cudaEventDestroy _ _).trans (hs.env.2 _ _).1) hne)
    (fun s hs h => Tidy_filter s _ _ (held_cudaEventDestroy _ _ h)
      (env_cudaEventDestroy _ _) hs) fun _ => ?_
  refine OR_SKIP_cases
    (K := fun _ s => Tidy (fun r => ((((A r ∧ ¬ r = .hostRegistration src.ptr)
      ∧ ¬ Resource.isHostMemAt src.ptr r = true) ∧ ¬ r = .event start)
      ∧ ¬ r = .event stop) ∧ ¬ r = .stream stream) s) _ _ _
    (fun s hs hne => absurd ((err_cudaStreamDestroy _ _).trans (hs.env.2 _ _).2) hne)
    (fun s hs h => Tidy_filter s _ _ (held_cudaStreamDestroy _ _ h)
      (env_cudaStreamDestroy _ _) hs) fun _ => ?_
  refine OR_SKIP_cases
    (K := fun _ s => Tidy (fun r => (((((A r ∧ ¬ r = .hostRegistration src.ptr)
      ∧ ¬ Resource.isHostMemAt src.ptr r = true) ∧ ¬ r = .event start)
      ∧ ¬ r = .event stop) ∧ ¬ r = .stream stream)
      ∧ ¬ Resource.isDeviceMemAt dst.ptr r = true) s) _ _ _
    (fun s hs hne => absurd ((err_cudaFree _ _).trans (hs.env.1 _ _).1) hne)
    (fun s hs h => Tidy_filter s _ _ (held_cudaFree _ _ h) (env_cudaFree _ _) hs) fun _ => ?_
  intro s hs
  refine ⟨List.eq_nil_iff_forall_not_mem.mpr fun r hr => ?_⟩
  obtain ⟨⟨⟨⟨⟨⟨hr0, h1⟩, h2⟩, h3⟩, h4⟩, h5⟩, h6⟩ := hs.held r hr
  rw [← hA] at hr0
  rcases hr0 with h | ⟨p, hp, h⟩ | ⟨p, hp, h⟩
  · simp only [List.mem_cons, List.mem_singleton, List.not_mem_nil, or_false] at h
    rcases h with h | h | h | h
    · exact h1 h
    · exact h4 h
    · exact h3 h
    · exact h5 h
  · rw [List.mem_singleton] at hp
    exact h6 (hp ▸ h)
  · rw [List.mem_singleton] at hp
    exact h2 (hp ▸ h)

theorem threeD_iteration_nothing (A : Resource → Prop) (params : cudaMemcpy3DParms)
    (stream start stop : Nat) (after next : Sys → Sys)
    (hafter : ∀ s : Sys, Tidy A s → HoldsNothing (after s))
    (hnext : ∀ s : Sys, Tidy A s → HoldsNothing (next s)) :
    ∀ s : Sys, Tidy A s →
      HoldsNothing (ThreeD.iteration params stream start stop after next s) := by
  have hskip : ∀ (msg : String) (s : Sys), Tidy A s →
      HoldsNothing (after (SkipWithError msg s)) :=
    fun msg s h => hafter _ ⟨h.held, h.env⟩
  unfold ThreeD.iteration
  refine OR_SKIP_AND_BREAK_sys (J := Tidy A) (fun _ => True) _ _ _ _
    (fun s h => ⟨Tidy_frame s _ (held_cudaEventRecord _ _ _) (env_cudaEventRecord _ _ _) h,
      trivial⟩) (hskip _) fun _ _ => ?_
  refine OR_SKIP_AND_BREAK_sys (J := Tidy A) (fun _ => True) _ _ _ _
    (fun s h => ⟨Tidy_frame s _ (held_cudaMemcpy3DAsync _ _ _) (env_cudaMemcpy3DAsync _ _ _) h,
      trivial⟩) (hskip _) fun _ _ => ?_
  refine OR_SKIP_AND_BREAK_sys (J := Tidy A) (fun _ => True) _ _ _ _
    (fun s h => ⟨Tidy_frame s _ (held_cudaEventRecord _ _ _) (env_cudaEventRecord _ _ _) h,
      trivial⟩) (hskip _) fun _ _ => ?_
  refine OR_SKIP_AND_BREAK_sys (J := Tidy A) (fun _ => True) _ _ _ _
    (fun s h => ⟨Tidy_frame s _ (held_cudaEventSynchronize _ _)
      (env_cudaEventSynchronize _ _) h, trivial⟩) (hskip _) fun _ _ => ?_
  refine OR_SKIP_AND_BREAK_sys (J := Tidy A) (fun _ => True) _ _ _ _
    (fun s h => ⟨Tidy_frame s _ (held_cudaEventElapsedTime _ _ _)
      (env_cudaEventElapsedTime _ _ _) h, trivial⟩) (hskip _) fun _ _ => ?_
  exact exec_sys (J := Tidy A) _ _ (fun s h => Tidy_state s _ rfl h) hnext

/-- When the teardown calls succeed, a run of `Comm_3d_cudaMemcpy2DAsync_NUMAToGPU`
that starts holding nothing ends holding nothing on every exit path other than
the setup skips behind the creation of the stream. -/
theorem threeD_released_unless_setup (args : Args) (numaId cudaId : Int) :
    ∀ s : Sys, Tidy (Owned [] [] []) s ∧ s.state.error_message = none →
      Released (ThreeD.Comm_3d_cudaMemcpy2DAsync_NUMAToGPU args numaId cudaId s) := by
  unfold ThreeD.Comm_3d_cudaMemcpy2DAsync_NUMAToGPU
  refine execW_step (J := fun s => Tidy (Owned [] [] []) s ∧ s.state.error_message = none)
    (K := fun s => Tidy (Owned [] [] []) s ∧ s.state.error_message = none) _ _
    (fun s hs => ⟨⟨hs.1.held, hs.1.env⟩, hs.2⟩) ?_
  refine OR_SKIP_cases
    (K := fun _ s => Tidy (Owned [] [] []) s ∧ s.state.error_message = none) _ _ _
    (fun s hs _ => Released_skip_nil _ _
      (Tidy_frame s _ (held_cuda_reset_device _ _) (env_cuda_reset_device _ _) hs.1))
    (fun s hs _ => ⟨Tidy_frame s _ (held_cuda_reset_device _ _) (env_cuda_reset_device _ _)
      hs.1, hs.2⟩) fun _ => ?_
  refine OR_SKIP_cases
    (K := fun stream s => Tidy (Owned [.stream stream] [] []) s
      ∧ s.state.error_message = none) _ _ _
    (fun s hs hne => Released_skip_nil _ _
      (Tidy_frame s _ (held_cudaStreamCreate_of_ne _ hne) (env_cudaStreamCreate _) hs.1))
    (fun s hs h => ⟨Tidy_cons s _ _ (held_cudaStreamCreate _ h) (env_cudaStreamCreate _)
      (Or.inl (by simp)) (Owned_mono (by simp) (by simp) (by simp)) hs.1, hs.2⟩)
    fun stream => ?_
  refine OR_SKIP_cases
    (K := fun start s => Tidy (Owned [.event start, .stream stream] [] []) s
      ∧ s.state.error_message = none) _ _ _
    (fun s hs _ => Released_setup _ (by simp [ThreeD.setupMessages]) _ hs.2)
    (fun s hs h => ⟨Tidy_cons s _ _ (held_cudaEventCreate _ h) (env_cudaEventCreate _)
      (Or.inl (by simp)) (Owned_mono (by simp) (by simp) (by simp)) hs.1, hs.2⟩)
    fun start => ?_
  refine OR_SKIP_cases
    (K := fun stop s => Tidy (Owned [.event stop, .event start, .stream stream] [] []) s
      ∧ s.state.error_message = none) _ _ _
    (fun s hs _ => Released_setup _ (by simp [ThreeD.setupMessages]) _ hs.2)
    (fun s hs h => ⟨Tidy_cons s _ _ (held_cudaEventCreate _ h) (env_cudaEventCreate _)
      (Or.inl (by simp)) (Owned_mono (by simp) (by simp) (by simp)) hs.1, hs.2⟩)
    fun stop => ?_
  refine OR_SKIP_cases
    (K := fun _ s => Tidy (Owned [.event stop, .event start, .stream stream] [] []) s
      ∧ s.state.error_message = none) _ _ _
    (fun s hs _ => Released_setup _ (by simp [ThreeD.setupMessages]) _ hs.2)
    (fun s hs _ => ⟨Tidy_frame s _ (held_cudaSetDevice _ _) (env_cudaSetDevice _ _) hs.1,
      hs.2⟩) fun _ => ?_
  refine OR_SKIP_cases
    (K := fun (dst : cudaPitchedPtr) s =>
      Tidy (Owned [.event stop, .event start, .stream stream] [dst.ptr] []) s
      ∧ s.state.error_message = none) _ _ _
    (fun s hs _ => Released_setup _ (by simp [ThreeD.setupMessages]) _ hs.2)
    (fun s hs h => ⟨Tidy_cons s _ _ (held_cudaMalloc3D _ _ h) (env_cudaMalloc3D _ _)
      (Or.inr (Or.inl ⟨_, List.mem_singleton_self _, by simp [Resource.isDeviceMemAt]⟩))
      (Owned_mono (by simp) (by simp) (by simp)) hs.1, hs.2⟩) fun dst => ?_
  simp only []
  refine OR_SKIP_cases
    (K := fun _ s =>
      Tidy (Owned [.event stop, .event start, .stream stream] [dst.ptr] []) s
      ∧ s.state.error_message = none) _ _ _
    (fun s hs _ => Released_setup _ (by simp [ThreeD.setupMessages]) _ hs.2)
    (fun s hs _ => ⟨Tidy_frame s _ (held_cudaMemset3D _ _ _ _) (env_cudaMemset3D _ _ _ _)
      hs.1, hs.2⟩) fun _ => ?_
  intro s hs
  rw [hostAlloc_apply]
  have hs' : Tidy (Owned [.event stop, .event start, .stream stream] [dst.ptr]
      [(s.world.hostAlloc (size_t (size_t (dst.pitch * 512) * 512))).1])
      ({ s with world := (s.world.hostAlloc (size_t (size_t (dst.pitch * 512) * 512))).2 } :
        Sys) ∧ ({ s with world :=
          (s.world.hostAlloc (size_t (size_t (dst.pitch * 512) * 512))).2 } :
        Sys).state.error_message = none :=
    ⟨Tidy_cons s _ _ (held_hostAlloc _ _) rfl
      (Or.inr (Or.inr ⟨_, List.mem_singleton_self _, by simp [Resource.isHostMemAt]⟩))
      (Owned_mono (by simp) (by simp) (by simp)) hs.1, hs.2⟩
  revert hs'
  generalize (s.world.hostAlloc (size_t (size_t (dst.pitch * 512) * 512))).1 = srcPtr
  generalize ({ s with world := (s.world.hostAlloc (size_t (size_t (dst.pitch * 512) * 512))).2 }
    : Sys) = s'
  revert s'
  refine OR_SKIP_cases
    (K := fun _ s => Tidy (Owned [.hostRegistration srcPtr, .event stop, .event start,
      .stream stream] [dst.ptr] [srcPtr]) s) _ _ _
    (fun s hs _ => Released_setup _ (by simp [ThreeD.setupMessages]) _ hs.2)
    (fun s hs h => Tidy_cons s _ _ (held_cudaHostRegister _ _ _ h)
      (env_cudaHostRegister _ _ _) (Or.inl (by simp))
      (Owned_mono (by simp) (by simp) (by simp)) hs.1) fun _ => ?_
  exact fun s hs => ⟨fun _ => (forStateLoop_sys (J := Tidy (Owned [.hostRegistration srcPtr,
      .event stop, .event start, .stream stream] [dst.ptr] [srcPtr])) (Q := HoldsNothing) _ _ _
    (fun next hnext => threeD_iteration_nothing _ _ _ _ _ _ next
      (threeD_afterLoop_nothing args numaId cudaId stream start stop
        ⟨srcPtr, dst.pitch, dst.xsize, dst.ysize⟩ dst _) hnext)
    (threeD_afterLoop_nothing args numaId cudaId stream start stop
      ⟨srcPtr, dst.pitch, dst.xsize, dst.ysize⟩ dst _) s hs).ok⟩

/-- The sample duplex run returns, after normal completion, still holding the
two streams and the four events it created. -/
theorem duplex_sample_held :
    (Duplex.Comm_Duplex_Memcpy_GPUGPU sampleArgs (Sys.init okEnv)).world.held
      = [.event 6, .event 5, .event 4, .event 3, .stream 2, .stream 1] := by
  simp only [Duplex.Comm_Duplex_Memcpy_GPUGPU, Duplex.iteration, Duplex.afterLoop, sampleArgs,
    Sys.init, World.init, okEnv, OR_SKIP_apply, call_apply, exec_apply, forStateLoop_apply,
    forState_zero, forState_succ, forEach_nil, forEach_cons, cuda_reset_device, cudaStreamCreate, cudaEventCreate, cudaSetDevice, cudaMalloc,
    cudaMemset, cudaDeviceEnablePeerAccess, cudaEventRecord, cudaMemcpyAsync,
    cudaEventSynchronize, cudaEventElapsedTime, cudaFree, World.call, World.acquire,
    World.release, SetIterationTime, SetBytesProcessed, setCounter, List.range,
    List.range.loop, List.length, List.getD_cons_zero, List.getD_cons_succ, ne_eq,
    not_true_eq_false, not_false_eq_true, Bool.not_true, Bool.false_eq_true, reduceCtorEq,
    and_false, false_and, and_self, ↓reduceIte, Nat.reduceLT, Int.reduceEq, Option.isSome, id,
    List.cons_append, List.nil_append]
  simp [Resource.isDeviceMemAt]

/-- C7 as stated fails: the sample run of `Comm_Duplex_Memcpy_GPUGPU` completes
without a skip and returns with its two streams and four events still
outstanding. -/
theorem resources_released_counterexample :
    (Duplex.Comm_Duplex_Memcpy_GPUGPU sampleArgs (Sys.init okEnv)).state.error_message = none
    ∧ (Duplex.Comm_Duplex_Memcpy_GPUGPU sampleArgs (Sys.init okEnv)).world.held
      = [.event 6, .event 5, .event 4, .event 3, .stream 2, .stream 1]
    ∧ ¬ (Duplex.Comm_Duplex_Memcpy_GPUGPU sampleArgs (Sys.init okEnv)).world.held = [] := by
  refine ⟨duplex_sample_finishes.1, duplex_sample_held, ?_⟩
  rw [duplex_sample_held]
  exact List.cons_ne_nil _ _

/-- The sample 3D run with every copy failing is skipped inside its
measurement loop. -/
theorem threeD_copyFail_skips :
    (ThreeD.Comm_3d_cudaMemcpy2DAsync_NUMAToGPU sampleArgs 0 0
      (Sys.init copyFailEnv)).state.error_message
      = some (ThreeD.NAME ++ " failed to start cudaMemcpy3DAsync") := by
  simp only [ThreeD.Comm_3d_cudaMemcpy2DAsync_NUMAToGPU, ThreeD.iteration, ThreeD.afterLoop,
    sampleArgs, Sys.init, World.init, copyFailEnv, OR_SKIP_apply, OR_SKIP_AND_BREAK_apply,
    exec_apply, execW_apply, hostAlloc_apply, forStateLoop_apply, forState_zero, forState_succ,
    cuda_reset_device, cudaStreamCreate, cudaEventCreate, cudaSetDevice, cudaMalloc3D,
    cudaMemset3D, cudaHostRegister, cudaHostUnregister, cudaEventRecord, cudaMemcpy3DAsync,
    cudaEventSynchronize, cudaEventElapsedTime, cudaEventDestroy, cudaStreamDestroy, cudaFree,
    World.call, World.acquire, World.release, World.hostAlloc, World.hostFree,
    World.numa_bind_node, SetIterationTime, SetBytesProcessed, setCounter, SkipWithError,
    ne_eq, not_true_eq_false, not_false_eq_true, Bool.false_eq_true, reduceCtorEq, ↓reduceIte,
    Option.isSome, id]

/-- C7, amended: a run of `Comm_3d_cudaMemcpy2DAsync_NUMAToGPU` has released
every resource it acquired when it completes without a skip and, when the
teardown calls succeed, on every exit path other than the setup skips that
return behind the creation of the stream, so also after a skip inside the
measurement loop.  A run of `Comm_NUMAMemcpy_PinnedToGPU` returns, on every
path other than the skip for a failed host registration, with its device
allocation freed and its host buffer unregistered and freed, provided the
release calls succeed: nothing but events is outstanding.  A run of
`Comm_Duplex_Memcpy_GPUGPU` that completes without a skip has freed its device
allocations, provided the `cudaFree` calls succeed: nothing but streams and
events is outstanding.  On every exit path of the three runs, whatever is
outstanding is a resource the run acquired. -/
theorem resources_at_return (env : Env) (args : Args) (numaId cudaId : Int) :
    ((ThreeD.Comm_3d_cudaMemcpy2DAsync_NUMAToGPU args numaId cudaId
        (Sys.init env)).state.error_message = none →
      (ThreeD.Comm_3d_cudaMemcpy2DAsync_NUMAToGPU args numaId cudaId
        (Sys.init env)).world.held = [])
    ∧ (TeardownSucceeds env →
      (∀ msg ∈ ThreeD.setupMessages,
        (ThreeD.Comm_3d_cudaMemcpy2DAsync_NUMAToGPU args numaId cudaId
          (Sys.init env)).state.error_message ≠ some msg) →
      (ThreeD.Comm_3d_cudaMemcpy2DAsync_NUMAToGPU args numaId cudaId
        (Sys.init env)).world.held = [])
    ∧ (ReleasesSucceed env →
      (Pinned.Comm_NUMAMemcpy_PinnedToGPU args (Sys.init env)).state.error_message
        ≠ some Pinned.registerMessage →
      ∀ r ∈ (Pinned.Comm_NUMAMemcpy_PinnedToGPU args (Sys.init env)).world.held,
        ∃ h, r = .event h)
    ∧ (ReleasesSucceed env →
      (Duplex.Comm_Duplex_Memcpy_GPUGPU args (Sys.init env)).state.error_message = none →
      ∀ r ∈ (Duplex.Comm_Duplex_Memcpy_GPUGPU args (Sys.init env)).world.held,
        (∃ h, r = .stream h) ∨ ∃ h, r = .event h)
    ∧ (∀ r ∈ (ThreeD.Comm_3d_cudaMemcpy2DAsync_NUMAToGPU args numaId cudaId
          (Sys.init env)).world.held,
        r ∈ (ThreeD.Comm_3d_cudaMemcpy2DAsync_NUMAToGPU args numaId cudaId
          (Sys.init env)).world.acquired)
    ∧ (∀ r ∈ (Pinned.Comm_NUMAMemcpy_PinnedToGPU args (Sys.init env)).world.held,
        r ∈ (Pinned.Comm_NUMAMemcpy_PinnedToGPU args (Sys.init env)).world.acquired)
    ∧ (∀ r ∈ (Duplex.Comm_Duplex_Memcpy_GPUGPU args (Sys.init env)).world.held,
        r ∈ (Duplex.Comm_Duplex_Memcpy_GPUGPU args (Sys.init env)).world.acquired) := by
  have hinit : HeldAcquired (Sys.init env).world :=
    ⟨fun r hr => absurd hr (List.not_mem_nil r)⟩
  refine ⟨?_, fun htd hne => ?_, fun hrel hne => ?_, fun hrel => ?_, ?_, ?_, ?_⟩
  · exact (threeD_released args numaId cudaId (Sys.init env)
      ⟨fun r hr => absurd hr (List.not_mem_nil r)⟩).ok
  · exact (threeD_released_unless_setup args numaId cudaId (Sys.init env)
      ⟨⟨fun r hr => absurd hr (List.not_mem_nil r), htd⟩, rfl⟩).ok hne
  · exact (pinned_events_only args (Sys.init env)
      ⟨fun r hr => absurd hr (List.not_mem_nil r), hrel⟩ rfl).ok.resolve_left hne
  · exact (duplex_handles_only args (Sys.init env)
      ⟨fun r hr => absurd hr (List.not_mem_nil r), hrel⟩).ok
  · exact ((threeD_keeps args numaId cudaId).ok _ hinit).ok
  · exact ((pinned_keeps args).ok _ hinit).ok
  · exact ((duplex_keeps args).ok _ hinit).ok

/-- C7, amended, at concrete inputs.  With every call succeeding the three
sample runs complete without a skip: the 3D run ends holding nothing, the
single-path run only events, the duplex run only streams and events.  With
every copy failing and every other call succeeding the 3D run is skipped inside
its measurement loop and ends holding nothing. -/
theorem resources_at_return_witness :
    ReleasesSucceed okEnv
    ∧ (ThreeD.Comm_3d_cudaMemcpy2DAsync_NUMAToGPU sampleArgs 0 0
        (Sys.init okEnv)).state.error_message = none
    ∧ (Pinned.Comm_NUMAMemcpy_PinnedToGPU sampleArgs (Sys.init okEnv)).state.error_message
        ≠ some Pinned.registerMessage
    ∧ (Duplex.Comm_Duplex_Memcpy_GPUGPU sampleArgs (Sys.init okEnv)).state.error_message = none
    ∧ (ThreeD.Comm_3d_cudaMemcpy2DAsync_NUMAToGPU sampleArgs 0 0
        (Sys.init okEnv)).world.held = []
    ∧ (∀ r ∈ (Pinned.Comm_NUMAMemcpy_PinnedToGPU sampleArgs (Sys.init okEnv)).world.held,
        ∃ h, r = .event h)
    ∧ (∀ r ∈ (Duplex.Comm_Duplex_Memcpy_GPUGPU sampleArgs (Sys.init okEnv)).world.held,
        (∃ h, r = .stream h) ∨ ∃ h, r = .event h)
    ∧ TeardownSucceeds copyFailEnv
    ∧ (∀ msg ∈ ThreeD.setupMessages,
        (ThreeD.Comm_3d_cudaMemcpy2DAsync_NUMAToGPU sampleArgs 0 0
          (Sys.init copyFailEnv)).state.error_message ≠ some msg)
    ∧ (ThreeD.Comm_3d_cudaMemcpy2DAsync_NUMAToGPU sampleArgs 0 0
        (Sys.init copyFailEnv)).state.error_message
        = some (ThreeD.NAME ++ " failed to start cudaMemcpy3DAsync")
    ∧ (ThreeD.Comm_3d_cudaMemcpy2DAsync_NUMAToGPU sampleArgs 0 0
        (Sys.init copyFailEnv)).world.held = [] :=
  have hrel : ReleasesSucceed okEnv := fun _ _ => ⟨rfl, rfl⟩
  have hp : (Pinned.Comm_NUMAMemcpy_PinnedToGPU sampleArgs (Sys.init okEnv)).state.error_message
      ≠ some Pinned.registerMessage := fun heq => by
    rw [pinned_sample_finishes] at heq
    cases heq
  have htd : TeardownSucceeds copyFailEnv := ⟨fun _ _ => ⟨rfl, rfl⟩, fun _ _ => ⟨rfl, rfl⟩⟩
  have hne : ∀ msg ∈ ThreeD.setupMessages,
      (ThreeD.Comm_3d_cudaMemcpy2DAsync_NUMAToGPU sampleArgs 0 0
        (Sys.init copyFailEnv)).state.error_message ≠ some msg := fun msg hmsg heq => by
    rw [threeD_copyFail_skips, Option.some.injEq] at heq
    rw [← heq] at hmsg
    exact absurd hmsg (by decide)
  ⟨hrel, threeD_sample_finishes, hp, duplex_sample_finishes.1,
    (resources_at_return okEnv sampleArgs 0 0).1 threeD_sample_finishes,
    (resources_at_return okEnv sampleArgs 0 0).2.2.1 hrel hp,
    (resources_at_return okEnv sampleArgs 0 0).2.2.2.1 hrel duplex_sample_finishes.1,
    htd, hne, threeD_copyFail_skips,
    (resources_at_return copyFailEnv sampleArgs 0 0).2.1 htd hne⟩

/-! ## C3: direction of the two duplex copies -/

/-- C3 evaluated on devices `0` and `1`: the run allocates one buffer on device
`0` (address 7) and three on device `1` (addresses 8, 9, 10); path 0 copies
from 7 to 8, and path 1 copies from 9 to 10, both of which are on device `1`. -/
theorem duplex_second_copy_within_gpu1 :
    (Duplex.Comm_Duplex_Memcpy_GPUGPU sampleArgs (Sys.init okEnv)).state.error_message = none
    ∧ (Duplex.Comm_Duplex_Memcpy_GPUGPU sampleArgs (Sys.init okEnv)).world.acquired
      = [.deviceMem 10 1 (2 ^ 20), .deviceMem 9 1 (2 ^ 20), .deviceMem 8 1 (2 ^ 20),
         .deviceMem 7 0 (2 ^ 20), .event 6, .event 5, .event 4, .event 3, .stream 2, .stream 1]
    ∧ ((Duplex.Comm_Duplex_Memcpy_GPUGPU sampleArgs (Sys.init okEnv)).world.log.filter
        fun e => e.1.isAsyncCopy)
      = [(.cudaMemcpyAsync 10 9 (2 ^ 20) .cudaMemcpyDeviceToDevice 2, .cudaSuccess),
         (.cudaMemcpyAsync 8 7 (2 ^ 20) .cudaMemcpyDeviceToDevice 1, .cudaSuccess)] := by
  refine ⟨duplex_sample_finishes.1, ?_, ?_⟩
  · simp only [Duplex.Comm_Duplex_Memcpy_GPUGPU, Duplex.iteration, Duplex.afterLoop, sampleArgs,
      Sys.init, World.init, okEnv, OR_SKIP_apply, call_apply, exec_apply, forStateLoop_apply,
      forState_zero, forState_succ, forEach_nil, forEach_cons, cuda_reset_device,
      cudaStreamCreate, cudaEventCreate, cudaSetDevice, cudaMalloc, cudaMemset,
      cudaDeviceEnablePeerAccess, cudaEventRecord, cudaMemcpyAsync, cudaEventSynchronize,
      cudaEventElapsedTime, cudaFree, World.call, World.acquire, World.release, World.elapsed,
      SetIterationTime, SetBytesProcessed, setCounter, iterations, List.range, List.range.loop,
      List.length, List.getD_cons_zero, List.getD_cons_succ, ne_eq, not_true_eq_false,
      not_false_eq_true, Bool.not_true, Bool.false_eq_true, reduceCtorEq, and_false, false_and,
      and_self, ↓reduceIte, Nat.reduceLT, Int.reduceEq, Option.isSome, id, List.cons_append,
      List.nil_append, shl_ull_one (show 20 < 64 by decide)]
  · simp only [Duplex.Comm_Duplex_Memcpy_GPUGPU, Duplex.iteration, Duplex.afterLoop, sampleArgs,
      Sys.init, World.init, okEnv, OR_SKIP_apply, call_apply, exec_apply, forStateLoop_apply,
      forState_zero, forState_succ, forEach_nil, forEach_cons, cuda_reset_device,
      cudaStreamCreate, cudaEventCreate, cudaSetDevice, cudaMalloc, cudaMemset,
      cudaDeviceEnablePeerAccess, cudaEventRecord, cudaMemcpyAsync, cudaEventSynchronize,
      cudaEventElapsedTime, cudaFree, World.call, World.acquire, World.release, World.elapsed,
      SetIterationTime, SetBytesProcessed, setCounter, iterations, List.range, List.range.loop,
      List.length, List.getD_cons_zero, List.getD_cons_succ, ne_eq, not_true_eq_false,
      not_false_eq_true, Bool.not_true, Bool.false_eq_true, reduceCtorEq, and_false, false_and,
      and_self, ↓reduceIte, Nat.reduceLT, Int.reduceEq, Option.isSome, id, List.cons_append,
      List.nil_append, shl_ull_one (show 20 < 64 by decide)]
    norm_num [Call.isAsyncCopy, List.filter]

/-! ## C4: the spread counters -/

/-- C4 evaluated on a run of one iteration: the start markers of the two
streams are 3 ms apart and so are the stop markers, and the run reports 6 for
both `avg_start_spread` and `avg_stop_spread`. -/
theorem duplex_avg_spread_doubled :
    sampleArgs.max_iterations = 1
    ∧ (Duplex.Comm_Duplex_Memcpy_GPUGPU sampleArgs (Sys.init okEnv)).state.error_message = none
    ∧ (Duplex.Comm_Duplex_Memcpy_GPUGPU sampleArgs (Sys.init okEnv)).state.iteration_times.length
      = 1
    ∧ max ((Duplex.Comm_Duplex_Memcpy_GPUGPU sampleArgs (Sys.init okEnv)).world.elapsed 3 4)
        ((Duplex.Comm_Duplex_Memcpy_GPUGPU sampleArgs (Sys.init okEnv)).world.elapsed 4 3) = 3
    ∧ max ((Duplex.Comm_Duplex_Memcpy_GPUGPU sampleArgs (Sys.init okEnv)).world.elapsed 5 6)
        ((Duplex.Comm_Duplex_Memcpy_GPUGPU sampleArgs (Sys.init okEnv)).world.elapsed 6 5) = 3
    ∧ (Duplex.Comm_Duplex_Memcpy_GPUGPU sampleArgs (Sys.init okEnv)).state.counters
      = [("avg_stop_spread", 6), ("avg_start_spread", 6), ("gpu1", 1), ("gpu0", 0),
         ("bytes", 2 ^ 20)] := by
  refine ⟨rfl, duplex_sample_finishes.1, ?_, ?_, ?_, ?_⟩
  · simp only [Duplex.Comm_Duplex_Memcpy_GPUGPU, Duplex.iteration, Duplex.afterLoop, sampleArgs,
      Sys.init, World.init, okEnv, OR_SKIP_apply, call_apply, exec_apply, forStateLoop_apply,
      forState_zero, forState_succ, forEach_nil, forEach_cons, cuda_reset_device,
      cudaStreamCreate, cudaEventCreate, cudaSetDevice, cudaMalloc, cudaMemset,
      cudaDeviceEnablePeerAccess, cudaEventRecord, cudaMemcpyAsync, cudaEventSynchronize,
      cudaEventElapsedTime, cudaFree, World.call, World.acquire, World.release, World.elapsed,
      SetIterationTime, SetBytesProcessed, setCounter, iterations, List.range, List.range.loop,
      List.length, List.getD_cons_zero, List.getD_cons_succ, ne_eq, not_true_eq_false,
      not_false_eq_true, Bool.not_true, Bool.false_eq_true, reduceCtorEq, and_false, false_and,
      and_self, ↓reduceIte, Nat.reduceLT, Int.reduceEq, Option.isSome, id, List.cons_append,
      List.nil_append, shl_ull_one (show 20 < 64 by decide)]
  · simp only [Duplex.Comm_Duplex_Memcpy_GPUGPU, Duplex.iteration, Duplex.afterLoop, sampleArgs,
      Sys.init, World.init, okEnv, OR_SKIP_apply, call_apply, exec_apply, forStateLoop_apply,
      forState_zero, forState_succ, forEach_nil, forEach_cons, cuda_reset_device,
      cudaStreamCreate, cudaEventCreate, cudaSetDevice, cudaMalloc, cudaMemset,
      cudaDeviceEnablePeerAccess, cudaEventRecord, cudaMemcpyAsync, cudaEventSynchronize,
      cudaEventElapsedTime, cudaFree, World.call, World.acquire, World.release, World.elapsed,
      SetIterationTime, SetBytesProcessed, setCounter, iterations, List.range, List.range.loop,
      List.length, List.getD_cons_zero, List.getD_cons_succ, ne_eq, not_true_eq_false,
      not_false_eq_true, Bool.not_true, Bool.false_eq_true, reduceCtorEq, and_false, false_and,
      and_self, ↓reduceIte, Nat.reduceLT, Int.reduceEq, Option.isSome, id, List.cons_append,
      List.nil_append, shl_ull_one (show 20 < 64 by decide)]
    norm_num [addf, divf, float_one, float_three, float_six, double_two_pow_twenty]
  · simp only [Duplex.Comm_Duplex_Memcpy_GPUGPU, Duplex.iteration, Duplex.afterLoop, sampleArgs,
      Sys.init, World.init, okEnv, OR_SKIP_apply, call_apply, exec_apply, forStateLoop_apply,
      forState_zero, forState_succ, forEach_nil, forEach_cons, cuda_reset_device,
      cudaStreamCreate, cudaEventCreate, cudaSetDevice, cudaMalloc, cudaMemset,
      cudaDeviceEnablePeerAccess, cudaEventRecord, cudaMemcpyAsync, cudaEventSynchronize,
      cudaEventElapsedTime, cudaFree, World.call, World.acquire, World.release, World.elapsed,
      SetIterationTime, SetBytesProcessed, setCounter, iterations, List.range, List.range.loop,
      List.length, List.getD_cons_zero, List.getD_cons_succ, ne_eq, not_true_eq_false,
      not_false_eq_true, Bool.not_true, Bool.false_eq_true, reduceCtorEq, and_false, false_and,
      and_self, ↓reduceIte, Nat.reduceLT, Int.reduceEq, Option.isSome, id, List.cons_append,
      List.nil_append, shl_ull_one (show 20 < 64 by decide)]
    norm_num [addf, divf, float_one, float_three, float_six, double_two_pow_twenty]
  · simp only [Duplex.Comm_Duplex_Memcpy_GPUGPU, Duplex.iteration, Duplex.afterLoop, sampleArgs,
      Sys.init, World.init, okEnv, OR_SKIP_apply, call_apply, exec_apply, forStateLoop_apply,
      forState_zero, forState_succ, forEach_nil, forEach_cons, cuda_reset_device,
      cudaStreamCreate, cudaEventCreate, cudaSetDevice, cudaMalloc, cudaMemset,
      cudaDeviceEnablePeerAccess, cudaEventRecord, cudaMemcpyAsync, cudaEventSynchronize,
      cudaEventElapsedTime, cudaFree, World.call, World.acquire, World.release, World.elapsed,
      SetIterationTime, SetBytesProcessed, setCounter, iterations, List.range, List.range.loop,
      List.length, List.getD_cons_zero, List.getD_cons_succ, ne_eq, not_true_eq_false,
      not_false_eq_true, Bool.not_true, Bool.false_eq_true, reduceCtorEq, and_false, false_and,
      and_self, ↓reduceIte, Nat.reduceLT, Int.reduceEq, Option.isSome, id, List.cons_append,
      List.nil_append, shl_ull_one (show 20 < 64 by decide)]
    norm_num [addf, divf, float_one, float_three, float_six, double_two_pow_twenty]

end CommScope
